import Mathlib

/-!
Shallow embedding of the deterministic simulation core of the roto-pong
repository: `src/lib.rs` and `src/sim/{arc,collision,sdf,state,tick}.rs`.

Numeric model: Rust `f32` arithmetic is embedded as exact real arithmetic
over `ℝ`; `u8`/`u32`/`u64` quantities are embedded as `ℕ`, with explicit
`% 2^32` / `% 2^64` wherever the source uses wrapping operations.
Render-only data that the source itself excludes from persisted state
(the ball trail ring buffer and the particle list, both `#[serde(skip)]`)
is omitted; no retained simulation field reads it back.

The snapshot's `sim/state.rs` is an older revision than `sim/tick.rs`:
`tick.rs` (and the re-exports in `sim/mod.rs`) use fields and items that
the old `state.rs` lacks (`arena_radius`, `screen_shake`, `wave_flash`,
`electric_charge`, the `Sliding` ball state, ghost visibility, arena
growth constants...).  Those missing items are modelled from the spec and
carry a doc comment starting with `Modelled from the spec:`.  Everything
else is translated from the source files.
-/

namespace RotoPong

open Real

noncomputable section

noncomputable instance (priority := 10) (p : Prop) : Decidable p :=
  Classical.propDecidable p

/-- glam::Vec2 with `f32` components, embedded over `ℝ`. -/
structure Vec2 where
  x : ℝ
  y : ℝ

namespace Vec2

/-- Vec2::ZERO -/
def ZERO : Vec2 := ⟨0, 0⟩

instance : Add Vec2 := ⟨fun a b => ⟨a.x + b.x, a.y + b.y⟩⟩
instance : Sub Vec2 := ⟨fun a b => ⟨a.x - b.x, a.y - b.y⟩⟩
instance : Neg Vec2 := ⟨fun a => ⟨-a.x, -a.y⟩⟩
instance : HMul Vec2 ℝ Vec2 := ⟨fun a c => ⟨a.x * c, a.y * c⟩⟩
instance : HMul ℝ Vec2 Vec2 := ⟨fun c a => ⟨c * a.x, c * a.y⟩⟩
instance : HDiv Vec2 ℝ Vec2 := ⟨fun a c => ⟨a.x / c, a.y / c⟩⟩

/-- Vec2::dot -/
def dot (a b : Vec2) : ℝ := a.x * b.x + a.y * b.y

/-- Vec2::length_squared -/
def length_squared (a : Vec2) : ℝ := a.x * a.x + a.y * a.y

/-- Vec2::length -/
def length (a : Vec2) : ℝ := Real.sqrt a.length_squared

/-- glam's Vec2::normalize divides by the length (NaN on the zero vector in
Rust; in the real embedding division by zero yields the zero vector, which
is never hit on the paths the source guards). -/
def normalize (a : Vec2) : Vec2 := a / a.length

/-- Vec2::normalize_or_zero -/
def normalize_or_zero (a : Vec2) : Vec2 :=
  if a.length = 0 then ZERO else a / a.length

@[simp] theorem add_def (a b : Vec2) : a + b = ⟨a.x + b.x, a.y + b.y⟩ := rfl
@[simp] theorem sub_def (a b : Vec2) : a - b = ⟨a.x - b.x, a.y - b.y⟩ := rfl
@[simp] theorem neg_def (a : Vec2) : -a = ⟨-a.x, -a.y⟩ := rfl
@[simp] theorem mulR_def (a : Vec2) (c : ℝ) : a * c = ⟨a.x * c, a.y * c⟩ := rfl
@[simp] theorem rMul_def (c : ℝ) (a : Vec2) : c * a = ⟨c * a.x, c * a.y⟩ := rfl
@[simp] theorem divR_def (a : Vec2) (c : ℝ) : a / c = ⟨a.x / c, a.y / c⟩ := rfl

theorem ext_iff {a b : Vec2} : a = b ↔ a.x = b.x ∧ a.y = b.y := by
  cases a; cases b; simp

end Vec2

/-! Constants from `src/lib.rs` (`mod consts`). -/

/-- Fixed simulation timestep (120 Hz). -/
def SIM_DT : ℝ := 1 / 120
def ARENA_OUTER_RADIUS : ℝ := 400
def BLACK_HOLE_RADIUS : ℝ := 40
def BLACK_HOLE_LOSS_RADIUS : ℝ := 35
def PADDLE_RADIUS : ℝ := 47.5
def PADDLE_THICKNESS : ℝ := 15
def PADDLE_ARC_WIDTH : ℝ := 1.21
def BALL_RADIUS : ℝ := 8
def BALL_START_SPEED : ℝ := 200
def BALL_MIN_SPEED : ℝ := 150
def BALL_MAX_SPEED : ℝ := 400
def BLACK_HOLE_GRAVITY : ℝ := 120
def PADDLE_BOOST : ℝ := 1.15
def BLOCK_THICKNESS : ℝ := 24

/-- std::f32::consts::TAU -/
def TAU : ℝ := 2 * π

/-- f32::clamp (requires lo ≤ hi in Rust; same formula here). -/
def rclamp (x lo hi : ℝ) : ℝ := min (max x lo) hi

/-- `normalize_angle` from `src/lib.rs`: two while-loops subtract (resp.
add) `2π` while the angle is `≥ π` (resp. `< -π`).  Over exact reals the
loops terminate on every input and compute the unique representative in
`[-π, π)` of the angle modulo `2π`, which is the closed form below; the
lemmas `normalize_angle_eq_self` and `normalize_angle_add_two_pi` recover
the two loop equations that characterise it. -/
def normalize_angle (angle : ℝ) : ℝ :=
  angle - 2 * π * ⌊(angle + π) / (2 * π)⌋

/-- f32::atan2 branch structure (principal value in `(-π, π]`). -/
def atan2 (y x : ℝ) : ℝ :=
  if 0 < x then arctan (y / x)
  else if x < 0 then
    (if 0 ≤ y then arctan (y / x) + π else arctan (y / x) - π)
  else
    (if 0 < y then π / 2 else if y < 0 then -(π / 2) else 0)

/-- `polar_to_cartesian` from `src/lib.rs`. -/
def polar_to_cartesian (r theta : ℝ) : Vec2 :=
  ⟨r * Real.cos theta, r * Real.sin theta⟩

/-- `cartesian_to_polar` from `src/lib.rs`. -/
def cartesian_to_polar (pos : Vec2) : ℝ × ℝ :=
  (pos.length, atan2 pos.y pos.x)

/-! `src/sim/arc.rs` -/

/-- A thickened arc segment in polar space (`ArcSegment`). -/
structure ArcSegment where
  radius : ℝ
  thickness : ℝ
  theta_start : ℝ
  theta_end : ℝ

namespace ArcSegment

/-- ArcSegment::new — normalizes both angles. -/
def new (radius thickness theta_start theta_end : ℝ) : ArcSegment :=
  ⟨radius, thickness, normalize_angle theta_start, normalize_angle theta_end⟩

/-- ArcSegment::inner_radius -/
def inner_radius (a : ArcSegment) : ℝ := a.radius - a.thickness / 2

/-- ArcSegment::outer_radius -/
def outer_radius (a : ArcSegment) : ℝ := a.radius + a.thickness / 2

/-- ArcSegment::angular_span -/
def angular_span (a : ArcSegment) : ℝ :=
  let span := a.theta_end - a.theta_start
  if span < 0 then span + TAU else span

/-- ArcSegment::contains_angle -/
def contains_angle (a : ArcSegment) (theta : ℝ) : Bool :=
  let t := normalize_angle theta
  if a.theta_start ≤ a.theta_end then
    decide (a.theta_start ≤ t ∧ t ≤ a.theta_end)
  else
    decide (a.theta_start ≤ t ∨ t ≤ a.theta_end)

/-- ArcSegment::contains_point -/
def contains_point (a : ArcSegment) (point : Vec2) : Bool :=
  let r := point.length
  let theta := atan2 point.y point.x
  decide (a.inner_radius ≤ r ∧ r ≤ a.outer_radius) && a.contains_angle theta

/-- ArcSegment::outward_normal_at -/
def outward_normal_at (_a : ArcSegment) (theta : ℝ) : Vec2 :=
  ⟨Real.cos theta, Real.sin theta⟩

/-- ArcSegment::inward_normal_at -/
def inward_normal_at (a : ArcSegment) (theta : ℝ) : Vec2 :=
  -(a.outward_normal_at theta)

end ArcSegment

/-! `src/sim/collision.rs` -/

/-- CollisionResult -/
structure CollisionResult where
  hit : Bool
  point : Vec2
  normal : Vec2
  penetration : ℝ

/-- CollisionResult::miss -/
def CollisionResult.miss : CollisionResult := ⟨false, Vec2.ZERO, Vec2.ZERO, 0⟩

/-- `reflect_velocity`: v' = v − 2(v·n)n. -/
def reflect_velocity (velocity normal : Vec2) : Vec2 :=
  velocity - (2 * velocity.dot normal) * normal

/-- `check_endpoint_collision` (private helper in collision.rs). -/
def check_endpoint_collision (ball_pos : Vec2) (ball_radius : ℝ)
    (arc : ArcSegment) (theta : ℝ) : Option CollisionResult :=
  let inner_r := arc.inner_radius
  let outer_r := arc.outer_radius
  let inner_point := polar_to_cartesian inner_r theta
  let outer_point := polar_to_cartesian outer_r theta
  let line_vec := outer_point - inner_point
  let ball_vec := ball_pos - inner_point
  let line_len_sq := line_vec.length_squared
  if line_len_sq < 0.0001 then none
  else
    let t := rclamp (ball_vec.dot line_vec / line_len_sq) 0 1
    let closest := inner_point + line_vec * t
    let dist := (ball_pos - closest).length
    if dist < ball_radius then
      let normal := (ball_pos - closest).normalize_or_zero
      if normal.length_squared < 0.5 then
        let perp := (Vec2.mk (-line_vec.y) line_vec.x).normalize
        let arc_center := polar_to_cartesian arc.radius (theta + arc.angular_span / 2)
        let to_arc := arc_center - closest
        let normal2 := if perp.dot to_arc < 0 then perp else -perp
        some ⟨true, closest, normal2, ball_radius - dist⟩
      else
        some ⟨true, closest, normal, ball_radius - dist⟩
    else none

/-- `ball_arc_collision` from collision.rs: outer edge, inner edge,
tunneling fallback, then the two endpoint caps. -/
def ball_arc_collision (ball_pos : Vec2) (ball_radius : ℝ)
    (arc : ArcSegment) : CollisionResult :=
  let ball_r := (cartesian_to_polar ball_pos).1
  let ball_theta := normalize_angle (cartesian_to_polar ball_pos).2
  let inner_r := arc.inner_radius
  let outer_r := arc.outer_radius
  let in_angular_range := arc.contains_angle ball_theta
  let caps : CollisionResult :=
    match check_endpoint_collision ball_pos ball_radius arc arc.theta_start with
    | some result => result
    | none =>
      match check_endpoint_collision ball_pos ball_radius arc arc.theta_end with
      | some result => result
      | none => CollisionResult.miss
  if in_angular_range then
    let dist_to_outer := ball_r - outer_r
    let dist_to_inner := inner_r - ball_r
    if dist_to_outer < ball_radius ∧ -arc.thickness - ball_radius < dist_to_outer ∧
        dist_to_outer < ball_radius ∧ arc.radius < ball_r then
      ⟨true, polar_to_cartesian outer_r ball_theta, arc.inward_normal_at ball_theta,
        ball_radius - dist_to_outer⟩
    else if dist_to_inner < ball_radius ∧ -arc.thickness - ball_radius < dist_to_inner ∧
        dist_to_inner < ball_radius ∧ ball_r < arc.radius then
      ⟨true, polar_to_cartesian inner_r ball_theta, arc.outward_normal_at ball_theta,
        ball_radius - dist_to_inner⟩
    else if inner_r + ball_radius < ball_r ∧ ball_r < outer_r - ball_radius then
      if ball_r - inner_r < outer_r - ball_r then
        ⟨true, polar_to_cartesian inner_r ball_theta, arc.outward_normal_at ball_theta,
          ball_radius⟩
      else
        ⟨true, polar_to_cartesian outer_r ball_theta, arc.inward_normal_at ball_theta,
          ball_radius⟩
    else caps
  else caps

/-! `src/sim/sdf.rs` -/

/-- `sd_arc`: signed distance from a point to an arc band.  `f32::round`
rounds halves away from zero while Mathlib's `round` rounds halves up;
the two agree except when the quotient is exactly a negative half-integer,
which the simulation never produces on the paths proved about. -/
def sd_arc (p : Vec2) (theta_start theta_end radius thickness : ℝ) : ℝ :=
  let r := p.length
  let angle := atan2 p.y p.x
  let angle_diff0 := angle - theta_start
  let angle_diff1 := angle_diff0 - (round (angle_diff0 / TAU) : ℝ) * TAU
  let span0 := theta_end - theta_start
  let span1 := span0 - (round (span0 / TAU) : ℝ) * TAU
  let span := if span1 ≤ 0 then span1 + TAU else span1
  let angle_diff := if angle_diff1 < 0 then angle_diff1 + TAU else angle_diff1
  let half_thick := thickness * 0.5
  if angle_diff ≤ span then
    |r - radius| - half_thick
  else
    let p1 := (Vec2.mk (Real.cos theta_start) (Real.sin theta_start)) * radius
    let p2 := (Vec2.mk (Real.cos theta_end) (Real.sin theta_end)) * radius
    let d1 := (p - p1).length - half_thick
    let d2 := (p - p2).length - half_thick
    min d1 d2

/-! `src/sim/state.rs` -/

/-- GamePhase -/
inductive GamePhase where
  | Serve
  | Playing
  | Breather
  | Paused
  | GameOver
deriving DecidableEq

/-- BallState.  `Attached`, `Free` and `Dying` are from the snapshot's
`state.rs`; the `Sliding` variant (portal traversal) is taken from its
exhaustive destructuring in `tick.rs` (lines 221–232). -/
inductive BallState where
  | Attached (offset : ℝ)
  | Free
  | Sliding (block_id : ℕ) (theta : ℝ) (direction : ℝ) (entry_speed : ℝ)
      (arc_start : ℝ) (arc_end : ℝ) (radius : ℝ)
      (total_traveled : ℝ) (max_travel : ℝ)
  | Dying (timer : ℝ) (start_pos : ℝ × ℝ)

/-- A ball entity.  The render-only `trail` ring buffer (`#[serde(skip)]`)
is omitted; `electric_charge` is used throughout `tick.rs` and is a field
of the newer `Ball` revision. -/
structure Ball where
  id : ℕ
  pos : Vec2
  vel : Vec2
  radius : ℝ
  state : BallState
  piercing : Bool
  paddle_cooldown : ℕ
  inside_portals : List ℕ
  electric_charge : ℝ

/-- The player's paddle.  `arc_width_vel` is the spring-damper width
velocity used by `tick.rs` (missing from the old `state.rs` revision). -/
structure Paddle where
  theta : ℝ
  arc_width : ℝ
  angular_vel : ℝ
  arc_width_vel : ℝ

namespace Paddle

/-- Paddle::default: starts at the bottom with the default arc width. -/
def default : Paddle :=
  ⟨-(π / 2), PADDLE_ARC_WIDTH, 0, 0⟩

/-- Paddle::as_arc -/
def as_arc (p : Paddle) : ArcSegment :=
  ArcSegment.new PADDLE_RADIUS PADDLE_THICKNESS
    (p.theta - p.arc_width / 2) (p.theta + p.arc_width / 2)

/-- Paddle::move_toward -/
def move_toward (p : Paddle) (target_theta dt max_speed : ℝ) : Paddle :=
  let target := normalize_angle target_theta
  let current := normalize_angle p.theta
  let delta0 := target - current
  let delta :=
    if π < delta0 then delta0 - TAU
    else if delta0 < -π then delta0 + TAU
    else delta0
  let max_delta := max_speed * dt
  let clamped_delta := rclamp delta (-max_delta) max_delta
  { p with
    angular_vel := clamped_delta / dt
    theta := normalize_angle (p.theta + clamped_delta) }

end Paddle

/-- BlockKind, per the exhaustive matches in `tick.rs` (lines 789–800):
Glass, Armored, Explosive, Invincible, Portal, Jello, Crystal, Electric,
Magnet, Ghost.  (The snapshot's older `state.rs` enum differs; `tick.rs`
is the revision embedded here.) -/
inductive BlockKind where
  | Glass
  | Armored
  | Explosive
  | Invincible
  | Portal (pair_id : ℕ)
  | Jello
  | Crystal
  | Electric
  | Magnet
  | Ghost
deriving DecidableEq

/-- A block entity.  `visibility`, `ghost_phase` and `ring_id` are fields
of the newer `Block` revision used by `tick.rs` and `generate_wave`. -/
structure Block where
  id : ℕ
  kind : BlockKind
  hp : ℕ
  arc : ArcSegment
  rotation_speed : ℝ
  wobble : ℝ
  visibility : ℝ
  ghost_phase : ℝ
  ring_id : ℕ

namespace Block

/-- Block::rotate.  The angle-advance and wobble decay are from the
snapshot's `state.rs`; the second argument and the Ghost visibility update
are from the newer revision.  Modelled from the spec: "Ghost blocks are
intermittently non-solid based on a visibility oscillation function of
elapsed time and phase offset" — embedded as a sinusoidal oscillation of
`time_secs + ghost_phase` mapped into [0, 1]. -/
def rotate (b : Block) (dt time_secs : ℝ) : Block :=
  let b :=
    if b.rotation_speed ≠ 0 then
      let delta := b.rotation_speed * dt
      { b with arc := { b.arc with
          theta_start := normalize_angle (b.arc.theta_start + delta)
          theta_end := normalize_angle (b.arc.theta_end + delta) } }
    else b
  let b := if 0 < b.wobble then { b with wobble := max (b.wobble - dt * 2) 0 } else b
  if b.kind = BlockKind.Ghost then
    { b with visibility := (Real.sin (time_secs + b.ghost_phase) + 1) / 2 }
  else b

/-- Block::trigger_wobble -/
def trigger_wobble (b : Block) : Block :=
  if b.kind = BlockKind.Jello then { b with wobble := 1 } else b

/-- Block::counts_for_clear: true iff the block must be destroyed to
clear the wave (everything except Invincible). -/
def counts_for_clear (b : Block) : Bool :=
  decide (b.kind ≠ BlockKind.Invincible)

/-- Block::is_hittable.  Modelled from the spec: Ghost blocks are solid
only while visible enough; embedded as a 0.5 visibility threshold
(non-Ghost blocks keep visibility 1 and are always hittable). -/
def is_hittable (b : Block) : Bool :=
  decide ((0.5 : ℝ) < b.visibility)

end Block

/-- PickupKind -/
inductive PickupKind where
  | MultiBall
  | Slow
  | Piercing
  | WidenPaddle
  | Shield
deriving DecidableEq

/-- A pickup entity. -/
structure Pickup where
  id : ℕ
  kind : PickupKind
  pos : Vec2
  vel : Vec2
  ttl_ticks : ℕ

/-- ActiveEffects.  `widen_stacks` is from the newer revision used by
`tick.rs`. -/
structure ActiveEffects where
  slow_ticks : ℕ
  piercing_ticks : ℕ
  widen_ticks : ℕ
  widen_stacks : ℕ
  shield_active : Bool

/-- ActiveEffects::default -/
def ActiveEffects.default : ActiveEffects := ⟨0, 0, 0, 0, false⟩

/-- RngState (seed/stream pair; never consumed by `tick.rs`, which uses
explicit hash arithmetic, but part of the persisted state). -/
structure RngState where
  seed : ℕ
  stream : ℕ

/-- RngState::new -/
def RngState.new (seed : ℕ) : RngState := ⟨seed, 0⟩

/-- Complete game state.  `screen_shake`, `wave_flash` and `arena_radius`
are fields of the newer `GameState` revision that `tick.rs` reads and
writes; the render-only `particles` list (`#[serde(skip)]`) is omitted
(no retained field reads it back). -/
structure GameState where
  seed : ℕ
  rng_state : RngState
  wave_index : ℕ
  lives : ℕ
  score : ℕ
  combo : ℕ
  time_ticks : ℕ
  phase : GamePhase
  breather_ticks : ℕ
  paddle : Paddle
  balls : List Ball
  blocks : List Block
  pickups : List Pickup
  effects : ActiveEffects
  screen_shake : ℝ
  wave_flash : ℝ
  arena_radius : ℝ
  next_id : ℕ

/-- Breather phase duration in ticks (2 seconds at 120 Hz). -/
def BREATHER_DURATION_TICKS : ℕ := 2 * 120

/-! Arena-growth and wave-layout constants.  These are exported by
`sim/mod.rs` from the newer `state.rs` revision missing from the
snapshot.  Modelled from the spec: "arena radius (grows across waves up
to a cap)" and the margin comments in `generate_wave` ("Start 25px from
wall", "Stop 120px from center"). -/

/-- Modelled from the spec: base arena radius (matches
`ARENA_OUTER_RADIUS` from `lib.rs`). -/
def BASE_ARENA_RADIUS : ℝ := 400

/-- Modelled from the spec: cap of the arena-growth schedule. -/
def MAX_ARENA_RADIUS : ℝ := 550

/-- Modelled from the spec: linear arena growth per wave. -/
def ARENA_GROWTH_PER_WAVE : ℝ := 10

/-- Modelled from the spec: first wave at which the arena grows. -/
def ARENA_GROWTH_START_WAVE : ℕ := 3

/-- Modelled from the spec: radial spacing between concentric layers. -/
def LAYER_SPACING : ℝ := 60

/-- Modelled from the spec: margin between the wall and the outer layer
("Start 25px from wall"). -/
def WALL_MARGIN : ℝ := 25

/-- Modelled from the spec: inner margin above the paddle
("Stop 120px from center (above paddle)"). -/
def INNER_MARGIN : ℝ := 120

namespace Ball

/-- Ball::new -/
def new (id : ℕ) : Ball :=
  { id := id
    pos := Vec2.ZERO
    vel := Vec2.ZERO
    radius := BALL_RADIUS
    state := BallState.Attached 0
    piercing := false
    paddle_cooldown := 0
    inside_portals := []
    electric_charge := 0 }

/-- Ball::update_attached -/
def update_attached (b : Ball) (paddle : Paddle) : Ball :=
  match b.state with
  | BallState.Attached offset =>
    let theta := paddle.theta + offset
    let r := PADDLE_RADIUS + PADDLE_THICKNESS / 2 + b.radius + 2
    { b with pos := polar_to_cartesian r theta }
  | _ => b

/-- Ball::launch -/
def launch (b : Ball) (paddle : Paddle) (base_speed english_factor : ℝ) : Ball :=
  match b.state with
  | BallState.Attached offset =>
    let launch_theta := paddle.theta + offset
    let radial_dir := Vec2.mk (Real.cos launch_theta) (Real.sin launch_theta)
    let tangent := Vec2.mk (-Real.sin launch_theta) (Real.cos launch_theta)
    let english := rclamp (paddle.angular_vel * english_factor) (-0.3) 0.3
    { b with
      vel := (radial_dir + tangent * english).normalize * base_speed
      state := BallState.Free }
  | _ => b

end Ball

namespace GameState

/-- GameState::next_entity_id — returns the fresh id and the state with
the counter advanced. -/
def next_entity_id (s : GameState) : ℕ × GameState :=
  (s.next_id, { s with next_id := s.next_id + 1 })

/-- GameState::spawn_ball_attached -/
def spawn_ball_attached (s : GameState) : GameState :=
  let p := s.next_entity_id
  let ball := { Ball.new p.1 with state := BallState.Attached 0 }
  let ball := ball.update_attached p.2.paddle
  { p.2 with balls := p.2.balls ++ [ball] }

/-- GameState::new.  The snapshot's `state.rs` constructor plus the
modelled initialisation of the newer fields (`screen_shake`/`wave_flash`
start at rest; `arena_radius` starts at the base radius). -/
def new (seed : ℕ) : GameState :=
  let s : GameState :=
    { seed := seed
      rng_state := RngState.new seed
      wave_index := 0
      lives := 3
      score := 0
      combo := 0
      time_ticks := 0
      phase := GamePhase.Serve
      breather_ticks := 0
      paddle := Paddle.default
      balls := []
      blocks := []
      pickups := []
      effects := ActiveEffects.default
      screen_shake := 0
      wave_flash := 0
      arena_radius := BASE_ARENA_RADIUS
      next_id := 1 }
  s.spawn_ball_attached

/-- GameState::normalize_order — stable sort of each entity collection by
id (Rust's stable `sort_by_key`, embedded as insertion sort, which
produces the same list for every stable sort). -/
def normalize_order (s : GameState) : GameState :=
  { s with
    balls := s.balls.insertionSort (fun a b => a.id ≤ b.id)
    blocks := s.blocks.insertionSort (fun a b => a.id ≤ b.id)
    pickups := s.pickups.insertionSort (fun a b => a.id ≤ b.id) }

end GameState

/-- Wrapping 32-bit arithmetic: `x as u32` / the result of `wrapping_mul`
and `wrapping_add` on `u32`. -/
def w32 (n : ℕ) : ℕ := n % 4294967296

/-- Ball state test used by several `matches!(…, BallState::Free)` sites. -/
def Ball.isFree (b : Ball) : Bool :=
  match b.state with
  | BallState.Free => true
  | _ => false

/-- Ball state test for `matches!(…, BallState::Attached { .. })`. -/
def Ball.isAttached (b : Ball) : Bool :=
  match b.state with
  | BallState.Attached _ => true
  | _ => false

/-- Kind test for `matches!(…, BlockKind::Portal { .. })`. -/
def BlockKind.isPortal : BlockKind → Bool
  | BlockKind.Portal _ => true
  | _ => false

/-! `src/sim/tick.rs` -/

/-- TickInput -/
structure TickInput where
  target_theta : Option ℝ
  launch : Bool
  pause : Bool
  skip_wave : Bool
  idle_mode : Bool

/-- TickInput::default -/
def TickInput.default : TickInput := ⟨none, false, false, false, false⟩

/-- `arena_radius_for_wave` (tick.rs lines 1516–1526). -/
def arena_radius_for_wave (wave : ℕ) : ℝ :=
  if wave < ARENA_GROWTH_START_WAVE then BASE_ARENA_RADIUS
  else
    let growth_waves := wave - ARENA_GROWTH_START_WAVE
    let growth := (growth_waves : ℝ) * ARENA_GROWTH_PER_WAVE
    min (BASE_ARENA_RADIUS + growth) MAX_ARENA_RADIUS

/-- `determine_block_kind` (tick.rs lines 1743–1826). -/
def determine_block_kind (wave layer index seed : ℕ) (layer_block_count : ℕ)
    (invincible_in_layer : ℕ)
    (electric_capped crystal_capped magnet_capped ghost_capped portal_capped : Bool) :
    BlockKind :=
  if wave ≤ 1 then BlockKind.Glass
  else
    let roll := seed % 100
    let max_invincible := max (layer_block_count / 7) 1
    let can_place_invincible :=
      5 ≤ wave ∧ invincible_in_layer < min max_invincible 2 ∧ 4 ∣ index
    if can_place_invincible ∧ roll < 8 then BlockKind.Invincible
    else if 3 ≤ wave ∧ layer = 0 ∧ roll < 12 then BlockKind.Explosive
    else if 4 ≤ wave ∧ layer < 3 ∧ portal_capped = false ∧ 12 ≤ roll ∧ roll < 20 then
      BlockKind.Portal seed
    else if 3 ≤ wave ∧ 1 ≤ layer ∧ 20 ≤ roll ∧ roll < 30 then BlockKind.Jello
    else if 4 ≤ wave ∧ layer ≤ 1 ∧ crystal_capped = false ∧ 30 ≤ roll ∧ roll < 36 then
      BlockKind.Crystal
    else if 5 ≤ wave ∧ electric_capped = false ∧ 36 ≤ roll ∧ roll < 42 then
      BlockKind.Electric
    else if 6 ≤ wave ∧ 1 ≤ layer ∧ layer ≤ 2 ∧ magnet_capped = false ∧ 42 ≤ roll ∧ roll < 47 then
      BlockKind.Magnet
    else if 7 ≤ wave ∧ ghost_capped = false ∧ 47 ≤ roll ∧ roll < 53 then
      BlockKind.Ghost
    else
      let armored_chance :=
        (match wave with
          | 2 => 25
          | 3 => 35
          | _ => 40) + layer * 8
      if roll < armored_chance then BlockKind.Armored else BlockKind.Glass

/-- Accumulator for `generate_wave`: the mutated state plus the running
per-wave special-kind counters. -/
structure WaveGenAcc where
  s : GameState
  electric_count : ℕ
  crystal_count : ℕ
  magnet_count : ℕ
  ghost_count : ℕ
  portal_count : ℕ

/-- One slot of a layer in `generate_wave` (the body of the inner
`for i in 0..num_blocks` loop).  The fold state carries the accumulator,
the running `theta`, and the layer-local `invincible_in_layer` counter. -/
def genSlot (wave : ℕ) (jello_madness : Bool) (layer layer_seed num_blocks : ℕ)
    (packed : Bool) (rotation_speed radius base_arc : ℝ)
    (max_electric max_crystal max_magnet max_ghost max_portal : ℕ)
    (st : WaveGenAcc × ℝ × ℕ) (i : ℕ) : WaveGenAcc × ℝ × ℕ :=
  let acc := st.1
  let theta := st.2.1
  let invincible_in_layer := st.2.2
  let block_seed := w32 (layer_seed + i * 100)
  let skip_chance : ℕ := if packed then 12 else 6
  if skip_chance ∣ block_seed ∧ 1 < wave then (acc, theta + base_arc, invincible_in_layer)
  else
    let wg : ℝ × ℝ :=
      if packed then (base_arc * 0.95, base_arc * 0.025)
      else
        let width_mult : ℝ :=
          if 5 ∣ block_seed then 0.75 else if 3 ∣ block_seed then 0.65 else 0.55
        let width := base_arc * width_mult
        (width, (base_arc - width) / 2)
    let theta_start := theta + wg.2
    let theta_end := theta_start + wg.1
    let kind :=
      if jello_madness then BlockKind.Jello
      else
        determine_block_kind wave layer i block_seed num_blocks invincible_in_layer
          (decide (max_electric ≤ acc.electric_count))
          (decide (max_crystal ≤ acc.crystal_count))
          (decide (max_magnet ≤ acc.magnet_count))
          (decide (max_ghost ≤ acc.ghost_count))
          (decide (max_portal ≤ acc.portal_count))
    let invincible2 :=
      if kind = BlockKind.Invincible then invincible_in_layer + 1 else invincible_in_layer
    let acc :=
      { acc with
        electric_count :=
          if kind = BlockKind.Electric then acc.electric_count + 1 else acc.electric_count
        crystal_count :=
          if kind = BlockKind.Crystal then acc.crystal_count + 1 else acc.crystal_count
        magnet_count :=
          if kind = BlockKind.Magnet then acc.magnet_count + 1 else acc.magnet_count
        ghost_count :=
          if kind = BlockKind.Ghost then acc.ghost_count + 1 else acc.ghost_count
        portal_count :=
          if kind.isPortal then acc.portal_count + 1 else acc.portal_count }
    let hp : ℕ :=
      match kind with
      | BlockKind.Armored => (2 + wave / 5 % 256) % 256
      | BlockKind.Explosive => 1
      | BlockKind.Invincible => 255
      | BlockKind.Portal _ => 3
      | BlockKind.Jello => 2
      | _ => 1
    let can_have_powerup :=
      kind ≠ BlockKind.Invincible ∧ kind.isPortal = false ∧ 1 < wave
    let powerup_roll := w32 (block_seed * 2654435761) % 100
    let has_powerup := can_have_powerup ∧ powerup_roll < 10
    let thickness := if has_powerup then BLOCK_THICKNESS * 1.5 else BLOCK_THICKNESS
    let ghost_phase : ℝ :=
      if kind = BlockKind.Ghost then ((block_seed % 1000 : ℕ) : ℝ) / 1000 * TAU else 0
    let p := acc.s.next_entity_id
    let block : Block :=
      { id := p.1
        kind := kind
        hp := hp
        arc := ArcSegment.new radius thickness theta_start theta_end
        rotation_speed := rotation_speed
        wobble := 0
        visibility := 1
        ghost_phase := ghost_phase
        ring_id := layer }
    ({ acc with s := { p.2 with blocks := p.2.blocks ++ [block] } },
      theta + base_arc, invincible2)

/-- One layer of `generate_wave` (the body of the outer layer loop). -/
def genLayer (wave wave_seed : ℕ) (jello_madness : Bool)
    (max_electric max_crystal max_magnet max_ghost max_portal : ℕ)
    (radius : ℝ) (acc : WaveGenAcc) (layer : ℕ) : WaveGenAcc :=
  let layer_seed := w32 (wave_seed + layer * 1000)
  let base_blocks : ℕ :=
    match layer with
    | 0 => 12 + wave * 2
    | 1 => 10 + wave
    | 2 => 8 + wave / 2
    | _ => 6 + wave / 3
  let num_blocks : ℕ := min base_blocks 28
  let packed := ¬ (3 ∣ layer_seed)
  let rotation_hash := w32 (w32 (layer_seed * 2654435761) + layer * 7919)
  let rotation_roll := rotation_hash % 100
  let rotation_speed : ℝ :=
    if 2 ≤ wave ∧ rotation_roll < 20 then
      let base_speed : ℝ := 0.2 + (layer : ℝ) * 0.08
      let direction : ℝ := if 2 ∣ (rotation_hash / 100) then 1 else -1
      base_speed * direction
    else 0
  let theta0 : ℝ := (layer : ℝ) * 0.15
  let base_arc : ℝ := (2 * π) / (num_blocks : ℝ)
  let res := (List.range num_blocks).foldl
    (genSlot wave jello_madness layer layer_seed num_blocks packed rotation_speed radius
      base_arc max_electric max_crystal max_magnet max_ghost max_portal)
    (acc, theta0, 0)
  res.1

/-- `generate_wave` (tick.rs lines 1529–1738), with the log calls and the
purely-visual data unchanged in structure; block ids are assigned through
`next_entity_id` in slot order, layer by layer. -/
def generate_wave (s : GameState) : GameState :=
  let wave := s.wave_index
  let s := { s with arena_radius := arena_radius_for_wave wave }
  let wave_seed := w32 (wave * 2654435761 + s.seed)
  let outer_radius := s.arena_radius - WALL_MARGIN
  let inner_radius := INNER_MARGIN
  let available_space := outer_radius - inner_radius
  let max_possible_layers := (⌊available_space / LAYER_SPACING⌋).toNat
  let desired_layers := 1 + min (wave / 2) max_possible_layers
  let num_layers := max (min desired_layers max_possible_layers) 1
  let jello_madness := decide (10 ≤ wave ∧ wave % 10 = 0)
  let max_electric := 4 + num_layers
  let max_crystal := 3 + num_layers
  let max_magnet := 3 + num_layers / 2
  let max_ghost := 4 + num_layers
  let max_portal := 4 + num_layers
  let final := (List.range num_layers).foldl
    (fun (acc : WaveGenAcc) (layer : ℕ) =>
      genLayer wave wave_seed jello_madness max_electric max_crystal max_magnet
        max_ghost max_portal (outer_radius - (layer : ℝ) * LAYER_SPACING) acc layer)
    (⟨s, 0, 0, 0, 0, 0⟩ : WaveGenAcc)
  final.s

/-! Playing-phase stages, in the order of the `GamePhase::Playing` arm of
`tick` (tick.rs lines 203–1475).  Particle spawning/updating is omitted
throughout: the particle list is render-only state that no retained field
reads back. -/

/-- Block rotation/ghost-visibility pass (the `block.rotate(dt, time_secs)`
loop at the top of the Serve/Playing/Breather arms). -/
def rotateBlocksStage (s : GameState) (dt time_secs : ℝ) : GameState :=
  { s with blocks := s.blocks.map (fun b => b.rotate dt time_secs) }

/-- Chain-adjacency search for a sliding ball leaving a portal block
(tick.rs lines 274–312): the first listed portal on the same ring whose
edge touches the exit point, together with whether it was the start edge. -/
def findChain (block_id : ℕ) (radius exit_theta : ℝ) :
    List (ℕ × ℝ × ℝ × ℝ) → Option ((ℕ × ℝ × ℝ × ℝ) × Bool)
  | [] => none
  | e :: rest =>
    if e.1 = block_id then findChain block_id radius exit_theta rest
    else if 5 < |e.2.2.2 - radius| then findChain block_id radius exit_theta rest
    else
      let angle_tolerance := (0.15 : ℝ)
      let ds := |e.2.1 - exit_theta|
      let de := |e.2.2.1 - exit_theta|
      let touches_start := ds < angle_tolerance ∨ TAU - angle_tolerance < ds
      let touches_end := de < angle_tolerance ∨ TAU - angle_tolerance < de
      if touches_start then some (e, true)
      else if touches_end then some (e, false)
      else findChain block_id radius exit_theta rest

/-- Advance one sliding (portal-traversing) ball
(tick.rs lines 221–336); returns the updated ball and the portal block
ids it exited from this tick (for deferred damage). -/
def slideBall (portal_blocks : List (ℕ × ℝ × ℝ × ℝ)) (dt : ℝ) (ball : Ball) :
    Ball × List ℕ :=
  match ball.state with
  | BallState.Sliding block_id theta0 direction entry_speed arc_start arc_end radius
      total_traveled0 max_travel =>
    let portal_slide_speed := (0.75 : ℝ)
    let move_amount := portal_slide_speed * dt
    let theta := theta0 + direction * move_amount
    let total_traveled := total_traveled0 + move_amount
    let pos := Vec2.mk (Real.cos theta * radius) (Real.sin theta * radius)
    let exceeded_max := max_travel ≤ total_traveled
    let exit_theta := if 0 < direction then arc_end else arc_start
    let at_exit := if 0 < direction then exit_theta ≤ theta else theta ≤ exit_theta
    if exceeded_max then
      let exit_r := radius + PADDLE_THICKNESS / 2 + ball.radius + 5
      let tangent := (Vec2.mk (-Real.sin theta) (Real.cos theta)) * direction
      let radial := Vec2.mk (Real.cos theta) (Real.sin theta)
      let exit_dir := (tangent * (0.6 : ℝ) + radial * (0.4 : ℝ)).normalize
      ({ ball with
          pos := Vec2.mk (Real.cos theta * exit_r) (Real.sin theta * exit_r)
          vel := exit_dir * entry_speed
          state := BallState.Free }, [block_id])
    else if at_exit then
      match findChain block_id radius exit_theta portal_blocks with
      | some pr =>
        ({ ball with
            pos := pos
            state := BallState.Sliding pr.1.1
              (if pr.2 then pr.1.2.1 else pr.1.2.2.1)
              (if pr.2 then 1 else -1)
              entry_speed pr.1.2.1 pr.1.2.2.1 pr.1.2.2.2
              total_traveled max_travel }, [block_id])
      | none =>
        let exit_r := radius + PADDLE_THICKNESS / 2 + ball.radius + 5
        let tangent := (Vec2.mk (-Real.sin exit_theta) (Real.cos exit_theta)) * direction
        let radial := Vec2.mk (Real.cos exit_theta) (Real.sin exit_theta)
        let exit_dir := (tangent * (0.6 : ℝ) + radial * (0.4 : ℝ)).normalize
        ({ ball with
            pos := Vec2.mk (Real.cos exit_theta * exit_r) (Real.sin exit_theta * exit_r)
            vel := exit_dir * entry_speed
            state := BallState.Free }, [block_id])
    else
      ({ ball with
          pos := pos
          state := BallState.Sliding block_id theta direction entry_speed arc_start
            arc_end radius total_traveled max_travel }, [])
  | _ => (ball, [])

/-- Damage the first block with the given id by one hit point
(`iter_mut().find` + `saturating_sub` in tick.rs lines 340–347); the flag
reports whether its hp reached zero (the source then bumps the combo). -/
def damagePortalBlock : List Block → ℕ → List Block × Bool
  | [], _ => ([], false)
  | b :: rest, bid =>
    if b.id = bid then
      let hp2 := b.hp - 1
      ({ b with hp := hp2 } :: rest, decide (hp2 = 0))
    else
      let r := damagePortalBlock rest bid
      (b :: r.1, r.2)

/-- Sliding-ball update plus deferred portal damage and removal of
destroyed portal blocks (tick.rs lines 209–349). -/
def slidingStage (s : GameState) (dt : ℝ) : GameState :=
  let portal_blocks := (s.blocks.filter (fun b => b.kind.isPortal)).map
    (fun b => (b.id, b.arc.theta_start, b.arc.theta_end, b.arc.radius))
  let results := s.balls.map (slideBall portal_blocks dt)
  let balls := results.map Prod.fst
  let exits := (results.map Prod.snd).flatten
  let bc := exits.foldl
    (fun (p : List Block × ℕ) bid =>
      ((damagePortalBlock p.1 bid).1,
        if (damagePortalBlock p.1 bid).2 then p.2 + 1 else p.2))
    (s.blocks, s.combo)
  { s with
    balls := balls
    blocks := bc.1.filter (fun b => 0 < b.hp)
    combo := bc.2 }

/-- Per-ball mutable environment of the physics loop: the fields of
`GameState` the loop body writes besides the ball itself. -/
structure PhysEnv where
  blocks : List Block
  combo : ℕ
  score : ℕ
  screen_shake : ℝ
  pickups_to_spawn : List (PickupKind × Vec2)

/-- The per-ball clone of the block arcs (tick.rs lines 620–633),
together with each block's index in `state.blocks`. -/
structure BlockArcInfo where
  idx : ℕ
  bid : ℕ
  theta_start : ℝ
  theta_end : ℝ
  radius : ℝ
  thickness : ℝ
  kind : BlockKind

/-- Build the cloned block-arc list. -/
def mkBlockArcs (blocks : List Block) : List BlockArcInfo :=
  blocks.enum.map (fun p =>
    ⟨p.1, p.2.id, p.2.arc.theta_start, p.2.arc.theta_end, p.2.arc.radius,
      p.2.arc.thickness, p.2.kind⟩)

/-- The mutable state threaded through the sub-step loop of one ball. -/
structure SubstepState where
  pos : Vec2
  vel : Vec2
  bstate : BallState
  damage : List ℕ
  combo : ℕ
  screen_shake : ℝ
  charge : ℝ

/-- Magnet-block force on a free ball (tick.rs lines 377–435).  The
source computes each endpoint's is-chain-terminus flag with a loop that
clears it when any other same-ring magnet's opposite edge is adjacent;
that final flag value is exactly the negated existential used here. -/
def magnetForce (blocks : List Block) (ball_pos : Vec2) (dt : ℝ) (vel : Vec2)
    (block : Block) : Vec2 :=
  if block.kind = BlockKind.Magnet then
    let block_mid_theta := (block.arc.theta_start + block.arc.theta_end) * 0.5
    let block_center :=
      (Vec2.mk (Real.cos block_mid_theta) (Real.sin block_mid_theta)) * block.arc.radius
    let to_magnet := block_center - ball_pos
    let dist_to_magnet := to_magnet.length
    if 10 < dist_to_magnet ∧ dist_to_magnet < 150 then
      let angle_tolerance := (0.15 : ℝ)
      let radius_tolerance := (5 : ℝ)
      let red_end_is_endpoint := ¬ ∃ other ∈ blocks,
        other.id ≠ block.id ∧ other.kind = BlockKind.Magnet ∧
        |other.arc.radius - block.arc.radius| ≤ radius_tolerance ∧
        min (|(|other.arc.theta_end - block.arc.theta_start|) - TAU|)
          (|other.arc.theta_end - block.arc.theta_start|) < angle_tolerance
      let silver_end_is_endpoint := ¬ ∃ other ∈ blocks,
        other.id ≠ block.id ∧ other.kind = BlockKind.Magnet ∧
        |other.arc.radius - block.arc.radius| ≤ radius_tolerance ∧
        min (|(|other.arc.theta_start - block.arc.theta_end|) - TAU|)
          (|other.arc.theta_start - block.arc.theta_end|) < angle_tolerance
      let red_end :=
        (Vec2.mk (Real.cos block.arc.theta_start) (Real.sin block.arc.theta_start)) *
          block.arc.radius
      let silver_end :=
        (Vec2.mk (Real.cos block.arc.theta_end) (Real.sin block.arc.theta_end)) *
          block.arc.radius
      let dist_to_red := (ball_pos - red_end).length
      let dist_to_silver := (ball_pos - silver_end).length
      let strength := 50 * (1 - dist_to_magnet / 150)
      if dist_to_red < dist_to_silver ∧ red_end_is_endpoint then
        vel + (red_end - ball_pos).normalize_or_zero * strength * dt
      else if dist_to_silver ≤ dist_to_red ∧ silver_end_is_endpoint then
        vel + (ball_pos - silver_end).normalize_or_zero * strength * dt
      else vel
    else vel
  else vel

/-- Scan the cloned block arcs within one sub-step until the first
collision (`break`) or the end of the list (tick.rs lines 650–774). -/
def blockScan (blocks : List Block) (ball_id : ℕ) (ball_radius : ℝ) (piercing : Bool)
    (time_ticks : ℕ) : List BlockArcInfo → SubstepState → SubstepState
  | [], st => st
  | e :: rest, st =>
    if e.kind = BlockKind.Ghost ∧
        (match blocks[e.idx]? with
          | some b => b.is_hittable = false
          | none => False) then
      blockScan blocks ball_id ball_radius piercing time_ticks rest st
    else
      let block_dist := sd_arc st.pos e.theta_start e.theta_end e.radius e.thickness
      let inside_block := block_dist < ball_radius
      if e.kind.isPortal then
        if inside_block ∧ st.bstate = BallState.Free then
          let entry_theta := atan2 st.pos.y st.pos.x
          let dist_to_start :=
            min (|entry_theta - e.theta_start|) (TAU - |entry_theta - e.theta_start|)
          let dist_to_end :=
            min (|entry_theta - e.theta_end|) (TAU - |entry_theta - e.theta_end|)
          let direction : ℝ := if dist_to_start < dist_to_end then 1 else -1
          let clamped_theta :=
            rclamp entry_theta (min e.theta_start e.theta_end) (max e.theta_start e.theta_end)
          let hash := w32 (w32 (w32 (ball_id * 31337) + w32 time_ticks) * 7919)
          let rand_t : ℝ := ((hash % 1000 : ℕ) : ℝ) / 1000
          let random_max := 0.5 + rand_t * (TAU - 0.5)
          let st :=
            { st with
              bstate := BallState.Sliding e.bid clamped_theta direction st.vel.length
                e.theta_start e.theta_end e.radius 0 random_max
              vel := st.vel.normalize * st.vel.length }
          blockScan blocks ball_id ball_radius piercing time_ticks rest st
        else
          blockScan blocks ball_id ball_radius piercing time_ticks rest st
      else if inside_block then
        let eps := (1 : ℝ)
        let dx :=
          sd_arc (st.pos + Vec2.mk eps 0) e.theta_start e.theta_end e.radius e.thickness -
          sd_arc (st.pos - Vec2.mk eps 0) e.theta_start e.theta_end e.radius e.thickness
        let dy :=
          sd_arc (st.pos + Vec2.mk 0 eps) e.theta_start e.theta_end e.radius e.thickness -
          sd_arc (st.pos - Vec2.mk 0 eps) e.theta_start e.theta_end e.radius e.thickness
        let normal := (Vec2.mk dx dy).normalize_or_zero
        let st :=
          if piercing = false then
            let st :=
              if st.vel.dot normal < 0 then { st with vel := reflect_velocity st.vel normal }
              else st
            let penetration := ball_radius - block_dist
            { st with pos := st.pos + normal * (penetration + 1.5) }
          else st
        if (match blocks[e.idx]? with
            | some b => b.kind ≠ BlockKind.Invincible
            | none => False) ∧ e.idx ∉ st.damage then
          let st := { st with damage := st.damage ++ [e.idx], combo := st.combo + 1 }
          if e.kind = BlockKind.Electric then
            { st with
              vel := st.vel * (1.25 : ℝ)
              charge := 1
              screen_shake := min (st.screen_shake + 0.15) 1 }
          else st
        else st
      else
        blockScan blocks ball_id ball_radius piercing time_ticks rest st

/-- The bounded sub-step loop of one ball (tick.rs lines 635–775):
advance, bounce off the arena wall, then scan the blocks. -/
def substepIter (blocks : List Block) (block_arcs : List BlockArcInfo) (ball_id : ℕ)
    (ball_radius : ℝ) (piercing : Bool) (time_ticks : ℕ) (arena_radius step_dt : ℝ) :
    ℕ → SubstepState → SubstepState
  | 0, st => st
  | n + 1, st =>
    let st := { st with pos := st.pos + st.vel * step_dt }
    let st :=
      let wall_dist := st.pos.length - arena_radius
      if -ball_radius < wall_dist then
        let normal := -(st.pos.normalize_or_zero)
        { st with
          vel := reflect_velocity st.vel normal
          pos := st.pos + normal * ((wall_dist + ball_radius) + 1) }
      else st
    let st := blockScan blocks ball_id ball_radius piercing time_ticks block_arcs st
    substepIter blocks block_arcs ball_id ball_radius piercing time_ticks arena_radius
      step_dt n st

/-- Index-aware neighbor pass after a block is destroyed
(tick.rs lines 886–914): wobble adjacent Jello blocks and, for an
Explosive source, collect the indices of damageable neighbors. -/
def neighborPass (destroyed_mid destroyed_radius : ℝ) (is_explosive : Bool) :
    ℕ → List Block → List Block × List ℕ
  | _, [] => ([], [])
  | n_idx, neighbor :: rest =>
    let neighbor_mid := (neighbor.arc.theta_start + neighbor.arc.theta_end) / 2
    let ad0 := |neighbor_mid - destroyed_mid|
    let angle_diff := if π < ad0 then TAU - ad0 else ad0
    let radius_diff := |neighbor.arc.radius - destroyed_radius|
    let same_layer_adjacent := radius_diff < 10 ∧ angle_diff < 0.6
    let adjacent_layer := radius_diff < 60 ∧ 5 < radius_diff ∧ angle_diff < 0.3
    let is_neighbor := same_layer_adjacent ∨ adjacent_layer
    let neighbor2 :=
      if is_neighbor ∧ neighbor.kind = BlockKind.Jello then
        { neighbor with wobble := min (neighbor.wobble + 0.5) 1 }
      else neighbor
    let r := neighborPass destroyed_mid destroyed_radius is_explosive (n_idx + 1) rest
    if is_explosive = true ∧ is_neighbor ∧ neighbor.kind ≠ BlockKind.Invincible then
      (neighbor2 :: r.1, n_idx :: r.2)
    else (neighbor2 :: r.1, r.2)

/-- In-place list update at an index (no-op when out of range; the Rust
source indexes unguarded here and would panic out of range, which is
unreachable on the paths proved about). -/
def listModify (l : List α) (i : ℕ) (f : α → α) : List α :=
  match l, i with
  | [], _ => []
  | a :: rest, 0 => f a :: rest
  | a :: rest, n + 1 => a :: listModify rest n f

/-- Base score of an explosion kill (tick.rs lines 1043–1048). -/
def explosionBaseScore : BlockKind → ℕ
  | BlockKind.Glass => 10
  | BlockKind.Armored => 25
  | BlockKind.Jello => 20
  | _ => 15

/-- Base score of a direct destruction (tick.rs lines 1057–1064). -/
def baseScore : BlockKind → ℕ
  | BlockKind.Glass => 10
  | BlockKind.Armored => 25
  | BlockKind.Explosive => 50
  | BlockKind.Jello => 20
  | BlockKind.Invincible => 0
  | _ => 15

/-- The capped combo multiplier (tick.rs lines 1065–1069): 1.0 for a
combo of at most 1, otherwise `min(1 + 0.1 (combo − 1), 3)`. -/
def comboMultiplier (combo : ℕ) : ℝ :=
  if 1 < combo then min (1 + ((combo - 1 : ℕ) : ℝ) * 0.1) 3 else 1

/-- Process one recorded block-damage index after the sub-steps of a ball
(the body of the `for idx in blocks_to_damage … .rev()` loop,
tick.rs lines 778–1072, with the particle spawning omitted). -/
def applyDamageEntry (time_ticks : ℕ) (env : PhysEnv) (idx : ℕ) : PhysEnv :=
  let blocks := listModify env.blocks idx Block.trigger_wobble
  let blocks := listModify blocks idx (fun b => { b with hp := b.hp - 1 })
  match blocks[idx]? with
  | none => { env with blocks := blocks }
  | some block =>
    if block.hp = 0 then
      let blocks := blocks.eraseIdx idx
      let mid_angle := (block.arc.theta_start + block.arc.theta_end) / 2
      let is_powerup_block := BLOCK_THICKNESS * 1.2 < block.arc.thickness
      let particle_seed := w32 time_ticks
      let pickup_hash := w32 (w32 (particle_seed * 31337) + idx)
      let spawns :=
        if is_powerup_block ∨ 12 ∣ pickup_hash then
          let pickup_kind :=
            match pickup_hash / 10 % 5 with
            | 0 => PickupKind.MultiBall
            | 1 => PickupKind.Slow
            | 2 => PickupKind.Piercing
            | 3 => PickupKind.WidenPaddle
            | _ => PickupKind.Shield
          [(pickup_kind,
            Vec2.mk (Real.cos mid_angle * block.arc.radius)
              (Real.sin mid_angle * block.arc.radius))]
        else []
      let is_explosive := block.kind = BlockKind.Explosive
      let shake := if is_explosive then min (env.screen_shake + 0.4) 1 else env.screen_shake
      let np := neighborPass mid_angle block.arc.radius (decide is_explosive) 0 blocks
      let blocks := np.1
      let blocks := np.2.reverse.foldl
        (fun bl victim_idx =>
          if victim_idx < bl.length then
            listModify (listModify bl victim_idx (fun b => { b with hp := b.hp - 2 }))
              victim_idx Block.trigger_wobble
          else bl)
        blocks
      let explosion_score := (blocks.map
        (fun b => if b.hp = 0 then explosionBaseScore b.kind else 0)).sum
      let blocks := blocks.filter (fun b => 0 < b.hp)
      let destroy_score :=
        (⌊(baseScore block.kind : ℝ) * comboMultiplier env.combo⌋).toNat
      { env with
        blocks := blocks
        score := env.score + explosion_score + destroy_score
        screen_shake := shake
        pickups_to_spawn := env.pickups_to_spawn ++ spawns }
    else { env with blocks := blocks }

/-- Whether an electric arc between a same-ring pair of Electric blocks
jumps to the ball (tick.rs lines 1074–1133); the source boosts at most
once per tick via a labelled break, i.e. on the first qualifying pair. -/
def electricEdgeHit (b1 b2 : Block) (ball_pos : Vec2) : Prop :=
  let edges : List (ℝ × ℝ) :=
    [(b1.arc.theta_end, b2.arc.theta_start), (b1.arc.theta_end, b2.arc.theta_end),
      (b1.arc.theta_start, b2.arc.theta_start), (b1.arc.theta_start, b2.arc.theta_end)]
  -- the initial `f32::MAX` of the running minimum is modelled by 1000,
  -- larger than every wrapped angular gap (which is at most π)
  let best := edges.foldl
    (fun (acc : ℝ × ℝ × ℝ) e =>
      let d0 := |e.1 - e.2|
      let d := if π < d0 then TAU - d0 else d0
      if d < acc.1 then (d, e.1, e.2) else acc)
    (1000, 0, 0)
  let min_gap := best.1
  if 0.4 < min_gap then False
  else
    let p1 := (Vec2.mk (Real.cos best.2.1) (Real.sin best.2.1)) * b1.arc.radius
    let p2 := (Vec2.mk (Real.cos best.2.2) (Real.sin best.2.2)) * b2.arc.radius
    let line_dir := p2 - p1
    let line_len := line_dir.length
    if line_len < 1 then False
    else
      let line_norm := line_dir / line_len
      let to_ball := ball_pos - p1
      let proj := rclamp (to_ball.dot line_norm) 0 line_len
      let closest := p1 + line_norm * proj
      (ball_pos - closest).length < 30

/-- Inner loop of the electric-arc scan: pairs `(b1, b2)` with `b2`
drawn from the blocks after `b1`. -/
def electricScanInner (b1 : Block) (ball_pos : Vec2) : List Block → Bool
  | [] => false
  | b2 :: rest =>
    if b2.kind = BlockKind.Electric ∧ b2.ring_id = b1.ring_id ∧
        electricEdgeHit b1 b2 ball_pos then true
    else electricScanInner b1 ball_pos rest

/-- Outer loop of the electric-arc scan. -/
def electricArcHit (ball_pos : Vec2) : List Block → Bool
  | [] => false
  | b1 :: rest =>
    if b1.kind = BlockKind.Electric ∧ electricScanInner b1 ball_pos rest = true then true
    else electricArcHit ball_pos rest

/-- Gravity, magnet forces and the [min, max] speed clamp applied to a
free ball before it moves (tick.rs lines 369–443). -/
def ballPreVel (blocks : List Block) (ball : Ball) (dt : ℝ) : Vec2 :=
  let dist_to_center := ball.pos.length
  let to_center := -(ball.pos.normalize_or_zero)
  let gravity_multiplier := min (200 / max dist_to_center 50) 4
  let vel := ball.vel + to_center * BLACK_HOLE_GRAVITY * gravity_multiplier * dt
  let vel := blocks.foldl (magnetForce blocks ball.pos dt) vel
  let speed := vel.length
  if speed < BALL_MIN_SPEED then vel.normalize_or_zero * BALL_MIN_SPEED
  else if BALL_MAX_SPEED < speed then vel.normalize_or_zero * BALL_MAX_SPEED
  else vel

/-- The predictive paddle-crossing check (tick.rs lines 449–540,
particles omitted): if this tick's displacement crosses the paddle's
outer radius within the paddle arc, the reflected velocity and snapped
position, else `none`. -/
def predictiveHit (paddle : Paddle) (paddle_arc : ArcSegment) (ball : Ball)
    (vel : Vec2) (dt : ℝ) : Option (Vec2 × Vec2) :=
  let displacement := vel * dt
  let old_pos := ball.pos
  let new_pos := ball.pos + displacement
  let paddle_outer := PADDLE_RADIUS + PADDLE_THICKNESS / 2
  let old_r := old_pos.length
  let new_r := new_pos.length
  if paddle_outer + ball.radius < old_r ∧ new_r ≤ paddle_outer + ball.radius then
    let target_r := paddle_outer + ball.radius
    let t :=
      if 0.001 < |old_r - new_r| then (old_r - target_r) / (old_r - new_r) else 0.5
    let crossing_pos := old_pos + displacement * rclamp t 0 1
    let crossing_angle := atan2 crossing_pos.y crossing_pos.x
    if paddle_arc.contains_angle crossing_angle then
      let ball_angle := crossing_angle
      let half_arc := paddle.arc_width / 2
      let hit_offset :=
        rclamp (normalize_angle (ball_angle - paddle.theta) / half_arc) (-1) 1
      let normal := Vec2.mk (Real.cos ball_angle) (Real.sin ball_angle)
      let base_reflect := reflect_velocity vel normal
      let speed2 := vel.length
      let tangent := Vec2.mk (-normal.y) normal.x
      let deflection := tangent * hit_offset * speed2 * (0.6 : ℝ)
      let english := tangent * paddle.angular_vel * PADDLE_RADIUS * (0.15 : ℝ)
      let boosted_speed := min (speed2 * PADDLE_BOOST) BALL_MAX_SPEED
      let safe_dist := paddle_outer + ball.radius + 1
      some
        ((base_reflect + deflection + english).normalize * boosted_speed,
          Vec2.mk (safe_dist * Real.cos ball_angle) (safe_dist * Real.sin ball_angle))
    else none
  else none

/-- The discrete fallback paddle collision (tick.rs lines 545–607,
particles omitted): the reflected velocity and snapped position when
`ball_arc_collision` reports a hit the ball is moving into, else
`none`. -/
def fallbackHit (paddle : Paddle) (paddle_arc : ArcSegment) (ball : Ball)
    (vel : Vec2) : Option (Vec2 × Vec2) :=
  let paddle_outer := PADDLE_RADIUS + PADDLE_THICKNESS / 2
  let paddle_result := ball_arc_collision ball.pos ball.radius paddle_arc
  if paddle_result.hit = true ∧ vel.dot paddle_result.normal < 0 then
    let ball_angle := atan2 ball.pos.y ball.pos.x
    let half_arc := paddle.arc_width / 2
    let hit_offset :=
      rclamp (normalize_angle (ball_angle - paddle.theta) / half_arc) (-1) 1
    let base_reflect := reflect_velocity vel paddle_result.normal
    let speed2 := vel.length
    let tangent := Vec2.mk (-paddle_result.normal.y) paddle_result.normal.x
    let deflection := tangent * hit_offset * speed2 * (0.6 : ℝ)
    let english := tangent * paddle.angular_vel * PADDLE_RADIUS * (0.15 : ℝ)
    let boosted_speed := min (speed2 * PADDLE_BOOST) BALL_MAX_SPEED
    let safe_dist := paddle_outer + ball.radius + 1
    some
      ((base_reflect + deflection + english).normalize * boosted_speed,
        Vec2.mk (safe_dist * Real.cos ball_angle) (safe_dist * Real.sin ball_angle))
  else none

/-- The sub-step loop set-up and execution for one ball
(tick.rs lines 609–637): step count from the move distance, bounded to
[1, 20]. -/
def ballSubsteps (blocks : List Block) (ball : Ball) (time_ticks : ℕ)
    (arena_radius dt : ℝ) (pos vel : Vec2) (combo : ℕ) (shake charge : ℝ) :
    SubstepState :=
  let move_dist := vel.length * dt
  let step_size := ball.radius * 0.3
  let num_steps := max 1 (min (⌈move_dist / step_size⌉.toNat) 20)
  let step_dt := dt / (num_steps : ℝ)
  let block_arcs := mkBlockArcs blocks
  substepIter blocks block_arcs ball.id ball.radius ball.piercing time_ticks
    arena_radius step_dt num_steps ⟨pos, vel, BallState.Free, [], combo, shake, charge⟩

/-- The whole per-ball body of the Playing physics loop
(tick.rs lines 359–1141, particles omitted): gravity, magnet forces,
speed clamp, predictive paddle crossing (which `continue`s on a hit),
discrete paddle fallback, sub-stepped wall/block collisions, deferred
block damage with explosion chains and scoring, the electric-arc
proximity boost, and electric-charge decay. -/
def processBall (paddle : Paddle) (paddle_arc : ArcSegment) (arena_radius : ℝ)
    (time_ticks : ℕ) (dt : ℝ) (env : PhysEnv) (ball : Ball) : Ball × PhysEnv :=
  match ball.state with
  | BallState.Free =>
    -- `if ball.paddle_cooldown > 0 { -= 1 }` is saturating subtraction on ℕ
    let cooldown := ball.paddle_cooldown - 1
    let vel := ballPreVel env.blocks ball dt
    match (if cooldown = 0 then predictiveHit paddle paddle_arc ball vel dt else none) with
    | some r =>
      ({ ball with vel := r.1, pos := r.2, paddle_cooldown := 8 },
        { env with screen_shake := min (env.screen_shake + 0.1) 1 })
    | none =>
      let fb := if cooldown = 0 then fallbackHit paddle paddle_arc ball vel else none
      let vel2 := match fb with | some r => r.1 | none => vel
      let pos2 := match fb with | some r => r.2 | none => ball.pos
      let cooldown2 := match fb with | some _ => 8 | none => cooldown
      let shake2 :=
        match fb with
        | some _ => min (env.screen_shake + 0.1) 1
        | none => env.screen_shake
      let st := ballSubsteps env.blocks ball time_ticks arena_radius dt pos2 vel2
        env.combo shake2 ball.electric_charge
      let env := { env with combo := st.combo, screen_shake := st.screen_shake }
      let env := st.damage.reverse.foldl (applyDamageEntry time_ticks) env
      let boosted := electricArcHit st.pos env.blocks
      let vel4 := if boosted = true then st.vel * (1.1 : ℝ) else st.vel
      let charge4 := if boosted = true then min (st.charge + 0.5) 1 else st.charge
      let env :=
        if boosted = true then { env with screen_shake := min (env.screen_shake + 0.08) 1 }
        else env
      let charge5 := if 0 < charge4 then max (charge4 - dt / 3) 0 else charge4
      ({ ball with
          pos := st.pos
          vel := vel4
          state := st.bstate
          paddle_cooldown := cooldown2
          electric_charge := charge5 }, env)
  | _ => (ball, env)

/-- Run the physics loop over the balls in order, threading the shared
environment. -/
def runBalls (paddle : Paddle) (paddle_arc : ArcSegment) (arena_radius : ℝ)
    (time_ticks : ℕ) (dt : ℝ) : PhysEnv → List Ball → List Ball × PhysEnv
  | env, [] => ([], env)
  | env, b :: rest =>
    let r := processBall paddle paddle_arc arena_radius time_ticks dt env b
    let rr := runBalls paddle paddle_arc arena_radius time_ticks dt r.2 rest
    (r.1 :: rr.1, rr.2)

/-- Collision/physics pass over all balls (tick.rs lines 351–1142). -/
def physicsStage (s : GameState) (dt : ℝ) : GameState × List (PickupKind × Vec2) :=
  let paddle_arc := s.paddle.as_arc
  let env0 : PhysEnv := ⟨s.blocks, s.combo, s.score, s.screen_shake, []⟩
  let r := runBalls s.paddle paddle_arc s.arena_radius s.time_ticks dt env0 s.balls
  ({ s with
      balls := r.1
      blocks := r.2.blocks
      combo := r.2.combo
      score := r.2.score
      screen_shake := r.2.screen_shake }, r.2.pickups_to_spawn)

/-- Spawn the deferred pickups (tick.rs lines 1144–1154). -/
def spawnPickupsStage (s : GameState) (spawns : List (PickupKind × Vec2)) : GameState :=
  spawns.foldl
    (fun s kp =>
      let p := s.next_entity_id
      { p.2 with pickups := p.2.pickups ++
          [{ id := p.1, kind := kp.1, pos := kp.2, vel := Vec2.ZERO, ttl_ticks := 1200 }] })
    s

/-- Per-pickup drift toward the paddle (tick.rs lines 1178–1192).  As the
source comment says, there is no TTL countdown: `ttl_ticks` is left
untouched. -/
def updatePickup (paddle_pos : Vec2) (dt : ℝ) (p : Pickup) : Pickup :=
  let pos := p.pos + p.vel * dt
  let to_paddle := (paddle_pos - pos).normalize_or_zero
  let vel := p.vel + to_paddle * (80 : ℝ) * dt
  let vel := vel * (0.98 : ℝ)
  let speed := vel.length
  let vel := if 150 < speed then vel.normalize * (150 : ℝ) else vel
  { p with pos := pos, vel := vel }

/-- Pickup movement stage (tick.rs lines 1173–1192). -/
def updatePickupsStage (s : GameState) (dt : ℝ) : GameState :=
  let paddle_pos :=
    Vec2.mk (Real.cos s.paddle.theta * PADDLE_RADIUS) (Real.sin s.paddle.theta * PADDLE_RADIUS)
  { s with pickups := s.pickups.map (updatePickup paddle_pos dt) }

/-- The paddle-collection test of the pickup retain closure
(tick.rs lines 1201–1215). -/
def pickupCollected (paddle : Paddle) (p : Pickup) : Prop :=
  let pickup_dist := p.pos.length
  let pickup_angle := atan2 p.pos.y p.pos.x
  let ad0 := |pickup_angle - paddle.theta|
  let angle_diff := if π < ad0 then TAU - ad0 else ad0
  (angle_diff < paddle.arc_width / 2 + 0.1) ∧
    (PADDLE_RADIUS - PADDLE_THICKNESS / 2 - 10 < pickup_dist ∧
      pickup_dist < PADDLE_RADIUS + PADDLE_THICKNESS / 2 + 10)

/-- The pickup retain pass (tick.rs lines 1200–1222): drop a pickup when
the paddle collects it (recording its kind, in order) or when it falls
inside the black hole; keep it otherwise. -/
def collectPickups (paddle : Paddle) : List Pickup → List Pickup × List PickupKind
  | [] => ([], [])
  | p :: rest =>
    let r := collectPickups paddle rest
    if pickupCollected paddle p then (r.1, p.kind :: r.2)
    else if p.pos.length < BLACK_HOLE_RADIUS then r
    else (p :: r.1, r.2)

/-- Pickup collection stage. -/
def collectPickupsStage (s : GameState) : GameState × List PickupKind :=
  let r := collectPickups s.paddle s.pickups
  ({ s with pickups := r.1 }, r.2)

/-- Apply one collected pickup effect (tick.rs lines 1225–1277). -/
def applyEffect (s : GameState) (kind : PickupKind) : GameState :=
  let s :=
    match kind with
    | PickupKind.MultiBall =>
      match s.balls.find? Ball.isFree with
      | some ball =>
        let mk := fun (angle_offset : ℝ) (id : ℕ) =>
          ({ id := id
             pos := ball.pos
             vel := (Vec2.mk
                 (ball.vel.x * Real.cos angle_offset - ball.vel.y * Real.sin angle_offset)
                 (ball.vel.x * Real.sin angle_offset + ball.vel.y * Real.cos angle_offset)).normalize *
               ball.vel.length
             radius := BALL_RADIUS
             state := BallState.Free
             piercing := ball.piercing
             paddle_cooldown := 0
             inside_portals := []
             electric_charge := ball.electric_charge } : Ball)
        let p1 := s.next_entity_id
        let s := { p1.2 with balls := p1.2.balls ++ [mk 0.5 p1.1] }
        let p2 := s.next_entity_id
        { p2.2 with balls := p2.2.balls ++ [mk (-0.5) p2.1] }
      | none => s
    | PickupKind.Slow => { s with effects := { s.effects with slow_ticks := 600 } }
    | PickupKind.Piercing => { s with effects := { s.effects with piercing_ticks := 480 } }
    | PickupKind.WidenPaddle =>
      { s with effects := { s.effects with
          widen_ticks := 720
          widen_stacks := s.effects.widen_stacks + 1 } }
    | PickupKind.Shield => { s with effects := { s.effects with shield_active := true } }
  { s with screen_shake := min (s.screen_shake + 0.15) 1 }

/-- Collected-effect application stage. -/
def applyEffectsStage (s : GameState) (collected : List PickupKind) : GameState :=
  collected.foldl applyEffect s

/-- Timed-effect decay (tick.rs lines 1279–1292). -/
def decayEffectsStage (s : GameState) : GameState :=
  let e := s.effects
  let e := { e with slow_ticks := e.slow_ticks - 1, piercing_ticks := e.piercing_ticks - 1 }
  let e :=
    if 0 < e.widen_ticks then { e with widen_ticks := e.widen_ticks - 1 }
    else if 0 < e.widen_stacks then
      let remaining := e.widen_stacks - 1
      { e with
        widen_stacks := remaining
        widen_ticks := if 0 < remaining then 720 else e.widen_ticks }
    else e
  { s with effects := e }

/-- Propagate the piercing effect to every ball (tick.rs lines 1294–1298). -/
def piercingSyncStage (s : GameState) : GameState :=
  let piercing_active := decide (0 < s.effects.piercing_ticks)
  { s with balls := s.balls.map (fun b => { b with piercing := piercing_active }) }

/-- Spring-damper paddle width animation (tick.rs lines 1300–1318). -/
def paddleWidthStage (s : GameState) (dt : ℝ) : GameState :=
  let target_width :=
    if 0 < s.effects.widen_stacks then
      min (PADDLE_ARC_WIDTH * (1 + 0.5 * (s.effects.widen_stacks : ℝ))) (PADDLE_ARC_WIDTH * 3)
    else PADDLE_ARC_WIDTH
  let spring_k := (150 : ℝ)
  let damping := (8 : ℝ)
  let acceleration := spring_k * (target_width - s.paddle.arc_width) -
    damping * s.paddle.arc_width_vel
  let awv := s.paddle.arc_width_vel + acceleration * dt
  { s with paddle :=
      { s.paddle with arc_width_vel := awv, arc_width := s.paddle.arc_width + awv * dt } }

/-- Slow-pickup speed cap (tick.rs lines 1320–1331). -/
def slowStage (s : GameState) : GameState :=
  if 0 < s.effects.slow_ticks then
    { s with balls := s.balls.map (fun b =>
        if b.isFree = true then
          let slowed_max := BALL_MAX_SPEED * 0.6
          if slowed_max < b.vel.length then { b with vel := b.vel.normalize * slowed_max }
          else b
        else b) }
  else s

/-- Black-hole check for one ball, threading
(shield_used, screen_shake, combo) (tick.rs lines 1333–1361). -/
def blackHoleBall (shield_active : Bool) (st : Bool × ℝ × ℕ) (b : Ball) :
    Ball × (Bool × ℝ × ℕ) :=
  if b.isFree = true ∧ b.pos.length ≤ BLACK_HOLE_LOSS_RADIUS + b.radius then
    if shield_active = true ∧ st.1 = false then
      let outward :=
        if 1 < b.pos.length then b.pos.normalize
        else if 1 < b.vel.length then -(b.vel.normalize)
        else Vec2.mk 0 (-1)
      ({ b with
          vel := outward * BALL_MAX_SPEED * (0.8 : ℝ)
          pos := outward * (BLACK_HOLE_LOSS_RADIUS + b.radius + 10) },
        (true, min (st.2.1 + 0.5) 1, st.2.2))
    else
      ({ b with state := BallState.Dying 0 (b.pos.x, b.pos.y) }, (st.1, st.2.1, 0))
  else (b, st)

/-- Map over the balls threading an accumulator. -/
def mapAccumBalls (f : σ → Ball → Ball × σ) : σ → List Ball → List Ball × σ
  | acc, [] => ([], acc)
  | acc, b :: rest =>
    let r := f acc b
    let rr := mapAccumBalls f r.2 rest
    (r.1 :: rr.1, rr.2)

/-- Black-hole loss / shield-bounce stage. -/
def blackHoleStage (s : GameState) : GameState :=
  let r := mapAccumBalls (fun st b => blackHoleBall s.effects.shield_active st b)
    (false, s.screen_shake, s.combo) s.balls
  let s := { s with balls := r.1, screen_shake := r.2.2.1, combo := r.2.2.2 }
  if r.2.1 = true then { s with effects := { s.effects with shield_active := false } } else s

/-- Death-spiral animation of a dying ball (tick.rs lines 1366–1396). -/
def dyingBall (dt : ℝ) (b : Ball) : Ball :=
  match b.state with
  | BallState.Dying timer0 start_pos =>
    let death_duration := (0.8 : ℝ)
    let timer := timer0 + dt
    let t := min (timer / death_duration) 1
    let spiral_angle := t * 6 * π
    let shrink := 1 - t
    let radius := shrink * (Vec2.mk start_pos.1 start_pos.2).length
    let base_angle := atan2 start_pos.2 start_pos.1
    let old_pos := b.pos
    let pos := Vec2.mk (Real.cos (base_angle + spiral_angle) * radius)
      (Real.sin (base_angle + spiral_angle) * radius)
    let vel := if 0 < dt then (pos - old_pos) / dt else b.vel
    { b with
      state := BallState.Dying timer start_pos
      pos := pos
      radius := BALL_RADIUS * shrink * shrink
      vel := vel }
  | _ => b

/-- Dying-ball update stage. -/
def dyingStage (s : GameState) (dt : ℝ) : GameState :=
  { s with balls := s.balls.map (dyingBall dt) }

/-- A ball survives the dead-ball retain (tick.rs lines 1399–1405). -/
def ballAlive (b : Ball) : Prop :=
  match b.state with
  | BallState.Dying timer _ => timer < 0.8
  | _ => True

/-- Remove fully dead balls. -/
def removeDeadStage (s : GameState) : GameState :=
  { s with balls := s.balls.filter (fun b => decide (ballAlive b)) }

/-- Life-loss check (tick.rs lines 1407–1417). -/
def lifeLossStage (s : GameState) : GameState :=
  if s.balls.isEmpty = true then
    let s := { s with lives := s.lives - 1 }
    if s.lives = 0 then { s with phase := GamePhase.GameOver }
    else
      let s := s.spawn_ball_attached
      { s with phase := GamePhase.Serve }
  else s

/-- Wave-clear check (tick.rs lines 1419–1474, celebration particles
omitted). -/
def waveClearStage (s : GameState) : GameState :=
  let clearable_blocks := s.blocks.countP Block.counts_for_clear
  if clearable_blocks = 0 then
    { s with
      screen_shake := 1
      wave_flash := 1
      blocks := []
      wave_index := s.wave_index + 1
      breather_ticks := BREATHER_DURATION_TICKS
      phase := GamePhase.Breather
      balls := [] }
  else s

/-- The pipeline through deferred pickup spawning (rotation, sliding,
physics, pickup spawns) — the state at which the pickup update/collection
pass starts. -/
def playingPhysicsDone (s : GameState) (dt time_secs : ℝ) : GameState :=
  let s := rotateBlocksStage s dt time_secs
  let s := slidingStage s dt
  let r := physicsStage s dt
  spawnPickupsStage r.1 r.2

/-- The Playing pipeline up to (but excluding) the life-loss check — the
state at which the source tests `state.balls.is_empty()`. -/
def playingPreLife (s : GameState) (dt time_secs : ℝ) : GameState :=
  let s := playingPhysicsDone s dt time_secs
  let s := updatePickupsStage s dt
  let c := collectPickupsStage s
  let s := applyEffectsStage c.1 c.2
  let s := decayEffectsStage s
  let s := piercingSyncStage s
  let s := paddleWidthStage s dt
  let s := slowStage s
  let s := blackHoleStage s
  let s := dyingStage s dt
  removeDeadStage s

/-- The whole `GamePhase::Playing` arm. -/
def playingStep (s : GameState) (dt time_secs : ℝ) : GameState :=
  waveClearStage (lifeLossStage (playingPreLife s dt time_secs))

/-- The `GamePhase::Serve` arm (tick.rs lines 169–201, particles
omitted). -/
def serveStep (s : GameState) (input : TickInput) (dt time_secs : ℝ) : GameState :=
  let s := rotateBlocksStage s dt time_secs
  let s := { s with balls := s.balls.map (fun (b : Ball) => b.update_attached s.paddle) }
  if input.launch = true then
    let s := { s with balls := s.balls.map (fun (b : Ball) =>
        if b.isAttached = true then b.launch s.paddle BALL_START_SPEED 0.5 else b) }
    { s with phase := GamePhase.Playing }
  else s

/-- The `GamePhase::Breather` arm (tick.rs lines 1477–1502, particles
omitted). -/
def breatherStep (s : GameState) (dt time_secs : ℝ) : GameState :=
  let s := rotateBlocksStage s dt time_secs
  let s := { s with breather_ticks := s.breather_ticks - 1 }
  if s.breather_ticks = 0 then
    let s := generate_wave s
    let s := s.spawn_ball_attached
    { s with phase := GamePhase.Serve }
  else s

/-- Screen-shake / wave-flash decay (tick.rs lines 57–67). -/
def decayVisualStage (s : GameState) : GameState :=
  let shake := s.screen_shake * 0.9
  let shake := if shake < 0.01 then 0 else shake
  let flash := s.wave_flash * 0.95
  let flash := if flash < 0.01 then 0 else flash
  { s with screen_shake := shake, wave_flash := flash }

/-- The idle/demo-mode input rewrite (tick.rs lines 69–143).
`Iterator::min_by` returns the first of equally-minimal elements, which
the fold below reproduces. -/
def idleRewrite (s : GameState) (input : TickInput) : TickInput :=
  if input.idle_mode = true then
    let input := if s.phase = GamePhase.Serve then { input with launch := true } else input
    let free_balls := s.balls.filter Ball.isFree
    let maybe_ball := free_balls.foldl
      (fun (acc : Option Ball) b =>
        match acc with
        | none => some b
        | some a => if b.pos.length < a.pos.length then some b else some a)
      none
    let all_balls_safe := ∀ b ∈ free_balls,
      200 < b.pos.length ∨
        (100 < b.pos.length ∧ 0 < b.vel.dot (b.pos.normalize_or_zero))
    let ball_is_safe := free_balls.length = 0 ∨ all_balls_safe
    let target_pickup : Option ℝ :=
      if ball_is_safe ∧ s.pickups ≠ [] then
        (s.pickups.foldl
          (fun (acc : Option Pickup) p =>
            match acc with
            | none => some p
            | some a => if p.pos.length < a.pos.length then some p else some a)
          none).map (fun p => atan2 p.pos.y p.pos.x)
      else none
    match target_pickup with
    | some pickup_angle => { input with target_theta := some pickup_angle }
    | none =>
      match maybe_ball with
      | some ball =>
        let time_factor := (s.time_ticks : ℝ) * 0.01
        let offset := Real.sin time_factor * 0.3 + Real.sin (time_factor * 0.7) * 0.15
        let ball_future := ball.pos + ball.vel.normalize_or_zero * (30 : ℝ)
        let future_angle := atan2 ball_future.y ball_future.x
        { input with target_theta := some (future_angle + offset) }
      | none => input
  else input

/-- The debug skip-wave path (tick.rs lines 146–155); note it returns
before the tick-count increment and the final `normalize_order`. -/
def skipWaveStage (s : GameState) : GameState :=
  let s := { s with
    blocks := []
    balls := []
    wave_index := s.wave_index + 1
    breather_ticks := 0 }
  let s := generate_wave s
  let s := s.spawn_ball_attached
  { s with phase := GamePhase.Serve }

/-- The tick-count increment and the paddle movement toward the target
angle (tick.rs lines 157–163). -/
def prePaddle (s : GameState) (input : TickInput) (dt : ℝ) : GameState :=
  let s := { s with time_ticks := s.time_ticks + 1 }
  match input.target_theta with
  | some target => { s with paddle := s.paddle.move_toward target dt 9.6 }
  | none => s

/-- The phase dispatch of the tick (the `match state.phase` block). -/
def phaseStep (s : GameState) (input : TickInput) (dt time_secs : ℝ) : GameState :=
  match s.phase with
  | GamePhase.Serve => serveStep s input dt time_secs
  | GamePhase.Playing => playingStep s dt time_secs
  | GamePhase.Breather => breatherStep s dt time_secs
  | _ => s

/-- `tick(state, input, dt)` — the single entry point advancing the whole
simulation by one fixed step (tick.rs lines 28–1509). -/
def tick (s : GameState) (input : TickInput) (dt : ℝ) : GameState :=
  if input.pause = true ∧ (s.phase = GamePhase.Playing ∨ s.phase = GamePhase.Serve) then
    { s with phase := GamePhase.Paused }
  else
    let s :=
      if input.pause = true ∧ s.phase = GamePhase.Paused then
        { s with phase :=
            if s.balls.any Ball.isAttached then GamePhase.Serve else GamePhase.Playing }
      else s
    if s.phase = GamePhase.Paused ∨ s.phase = GamePhase.GameOver then s
    else
      let s := decayVisualStage s
      let input := idleRewrite s input
      if input.skip_wave = true then skipWaveStage s
      else
        let s := prePaddle s input dt
        (phaseStep s input dt ((s.time_ticks : ℝ) * SIM_DT)).normalize_order

/-- Feed a sequence of (input, dt) pairs through `tick`. -/
def runTicks (s : GameState) (steps : List (TickInput × ℝ)) : GameState :=
  steps.foldl (fun s p => tick s p.1 p.2) s

/-- A Playing-phase state with no blocks and no balls. -/
def stateEmptyPlaying : GameState :=
  { seed := 0
    rng_state := ⟨0, 0⟩
    wave_index := 4
    lives := 3
    score := 0
    combo := 0
    time_ticks := 100
    phase := GamePhase.Playing
    breather_ticks := 0
    paddle := ⟨0, 1, 0, 0⟩
    balls := []
    blocks := []
    pickups := []
    effects := ⟨0, 0, 0, 0, false⟩
    screen_shake := 0
    wave_flash := 0
    arena_radius := 400
    next_id := 1 }

/-- `stateEmptyPlaying` down to its last life. -/
def stateLastLife : GameState := { stateEmptyPlaying with lives := 1 }

/-- A stationary Glass block with 1 hit point. -/
def glassBlockW : Block :=
  { id := 5
    kind := BlockKind.Glass
    hp := 1
    arc := ⟨150, 24, 0, 1⟩
    rotation_speed := 0
    wobble := 0
    visibility := 1
    ghost_phase := 0
    ring_id := 0 }

/-- `stateEmptyPlaying` with one Glass block left and no balls. -/
def stateLifeLossW : GameState := { stateEmptyPlaying with blocks := [glassBlockW] }

/-- A stationary pickup far outside both the paddle band and the black
hole, with its time-to-live already at zero. -/
def pickupW : Pickup :=
  { id := 7
    kind := PickupKind.Slow
    pos := ⟨300, 0⟩
    vel := ⟨0, 0⟩
    ttl_ticks := 0 }

/-- `stateLifeLossW` carrying the expired pickup. -/
def statePickupW : GameState := { stateLifeLossW with pickups := [pickupW] }

/-- A one-block physics environment at combo 5 and score 100. -/
def envC8 : PhysEnv := ⟨[glassBlockW], 5, 100, 0, []⟩

/-- A stationary Electric block with 2 hit points straddling the
positive x axis at radius 190. -/
def blockC10 : Block :=
  { id := 3
    kind := BlockKind.Electric
    hp := 2
    arc := ⟨190, 24, -(1/2), 1/2⟩
    rotation_speed := 0
    wobble := 0
    visibility := 1
    ghost_phase := 0
    ring_id := 0 }

/-- A free ball on the positive x axis heading inward at speed 320,
with a paddle cooldown still running. -/
def ballC10 : Ball :=
  { id := 2
    pos := Vec2.mk 200 0
    vel := Vec2.mk (-320) 0
    radius := 8
    state := BallState.Free
    piercing := false
    paddle_cooldown := 5
    inside_portals := []
    electric_charge := 0 }

/-- The Playing state whose next tick drives the ball through the
Electric block. -/
def stateC10 : GameState :=
  { stateEmptyPlaying with balls := [ballC10], blocks := [blockC10] }

/-- The C10 ball at the end of the tick: boosted to speed 1605/4 = 401.25,
above BALL_MAX_SPEED = 400. -/
def ballC10Final : Ball :=
  { ballC10 with
      pos := Vec2.mk ((13643:ℝ)/64) 0
      vel := Vec2.mk ((1605:ℝ)/4) 0
      state := BallState.Free
      paddle_cooldown := 4
      electric_charge := max (1 - SIM_DT / 3) 0 }

/-- `stateC10` after the physics pass of its tick. -/
def stateC10Mid : GameState :=
  { stateC10 with
      time_ticks := 101
      balls := [ballC10Final]
      blocks := [{ blockC10 with hp := 1 }]
      combo := 1
      screen_shake := min ((0:ℝ) + 0.15) 1 }

/-- `stateC10` at the end of its tick (the paddle width has begun its
spring animation toward PADDLE_ARC_WIDTH). -/
def stateC10Final : GameState :=
  { stateC10Mid with paddle := ⟨0, (3207:ℝ)/3200, 0, (21:ℝ)/80⟩ }

/-- The determinism ordering invariant: the balls, blocks and pickups
collections are each sorted in increasing id order. -/
def WellOrdered (s : GameState) : Prop :=
  s.balls.Sorted (fun a b => a.id ≤ b.id) ∧
  s.blocks.Sorted (fun a b => a.id ≤ b.id) ∧
  s.pickups.Sorted (fun a b => a.id ≤ b.id)

/-- The wave-generation invariant: blocks sorted by id, every id below
the id counter. -/
def blocksOrd (s : GameState) : Prop :=
  s.blocks.Sorted (fun a b => a.id ≤ b.id) ∧ ∀ b ∈ s.blocks, b.id < s.next_id

instance : IsTotal Ball (fun a b => a.id ≤ b.id) := ⟨fun a b => Nat.le_total a.id b.id⟩

instance : IsTrans Ball (fun a b => a.id ≤ b.id) := ⟨fun _ _ _ h1 h2 => Nat.le_trans h1 h2⟩

instance : IsTotal Block (fun a b => a.id ≤ b.id) := ⟨fun a b => Nat.le_total a.id b.id⟩

instance : IsTrans Block (fun a b => a.id ≤ b.id) := ⟨fun _ _ _ h1 h2 => Nat.le_trans h1 h2⟩

instance : IsTotal Pickup (fun a b => a.id ≤ b.id) := ⟨fun a b => Nat.le_total a.id b.id⟩

instance : IsTrans Pickup (fun a b => a.id ≤ b.id) := ⟨fun _ _ _ h1 h2 => Nat.le_trans h1 h2⟩

/-!  ## Lemmas about the geometry kernel  -/

theorem normalize_angle_eq_fract (θ : ℝ) :
    normalize_angle θ = 2 * π * Int.fract ((θ + π) / (2 * π)) - π := by
  have h2 : (2 : ℝ) * π ≠ 0 := by positivity
  rw [normalize_angle, Int.fract]
  field_simp
  ring

theorem normalize_angle_mem (θ : ℝ) :
    -π ≤ normalize_angle θ ∧ normalize_angle θ < π := by
  rw [normalize_angle_eq_fract]
  have h1 := Int.fract_nonneg ((θ + π) / (2 * π))
  have h2 := Int.fract_lt_one ((θ + π) / (2 * π))
  have hπ := Real.pi_pos
  constructor <;> nlinarith

theorem normalize_angle_eq_self {θ : ℝ} (h1 : -π ≤ θ) (h2 : θ < π) :
    normalize_angle θ = θ := by
  have hπ := Real.pi_pos
  have hfl : ⌊(θ + π) / (2 * π)⌋ = 0 := by
    rw [Int.floor_eq_zero_iff]
    constructor
    · apply div_nonneg <;> nlinarith
    · rw [div_lt_one (by positivity)]; nlinarith
  rw [normalize_angle, hfl]
  simp

theorem normalize_angle_add_two_pi (θ : ℝ) :
    normalize_angle (θ + 2 * π) = normalize_angle θ := by
  have h2 : (2 : ℝ) * π ≠ 0 := by positivity
  have harg : (θ + 2 * π + π) / (2 * π) = (θ + π) / (2 * π) + 1 := by
    field_simp; ring
  rw [normalize_angle, normalize_angle, harg, Int.floor_add_one]
  push_cast
  ring

/-- C5: `normalize_angle` returns a value in `[-π, π)` for every input
and is idempotent.  (The Rust source computes over `f32`; the claim is
proved of the exact-real denotation of the loop.) -/
theorem normalize_angle_range_and_idempotent (θ : ℝ) :
    (-π ≤ normalize_angle θ ∧ normalize_angle θ < π) ∧
      normalize_angle (normalize_angle θ) = normalize_angle θ :=
  ⟨normalize_angle_mem θ,
    normalize_angle_eq_self (normalize_angle_mem θ).1 (normalize_angle_mem θ).2⟩

theorem contains_angle_iff_le {arc : ArcSegment} (h : arc.theta_start ≤ arc.theta_end)
    (t : ℝ) :
    arc.contains_angle t = true ↔
      arc.theta_start ≤ normalize_angle t ∧ normalize_angle t ≤ arc.theta_end := by
  simp [ArcSegment.contains_angle, if_pos h]

theorem contains_angle_iff_wrap {arc : ArcSegment} (h : ¬ arc.theta_start ≤ arc.theta_end)
    (t : ℝ) :
    arc.contains_angle t = true ↔
      arc.theta_start ≤ normalize_angle t ∨ normalize_angle t ≤ arc.theta_end := by
  simp [ArcSegment.contains_angle, if_neg h]

/-- C6: on any arc built by `ArcSegment::new`, `contains_angle` accepts
the start angle, the end angle and the midpoint of the forward sweep, and
rejects the angle antipodal to that midpoint — in both the wraparound and
the non-wraparound configuration. -/
theorem contains_angle_endpoints_mid_antipode (radius thickness θs θe : ℝ) :
    (ArcSegment.new radius thickness θs θe).contains_angle θs = true ∧
      (ArcSegment.new radius thickness θs θe).contains_angle θe = true ∧
      (ArcSegment.new radius thickness θs θe).contains_angle
        ((ArcSegment.new radius thickness θs θe).theta_start +
          (ArcSegment.new radius thickness θs θe).angular_span / 2) = true ∧
      (ArcSegment.new radius thickness θs θe).contains_angle
        ((ArcSegment.new radius thickness θs θe).theta_start +
          (ArcSegment.new radius thickness θs θe).angular_span / 2 + π) = false := by
  set arc := ArcSegment.new radius thickness θs θe with harc_def
  set mid := arc.theta_start + arc.angular_span / 2 with hmid_set
  have hπ := Real.pi_pos
  have hmid_def : mid = arc.theta_start + arc.angular_span / 2 := hmid_set
  have harc_s : arc.theta_start = normalize_angle θs := rfl
  have harc_e : arc.theta_end = normalize_angle θe := rfl
  have hspan_def : arc.angular_span =
      (if arc.theta_end - arc.theta_start < 0 then
        arc.theta_end - arc.theta_start + TAU
      else arc.theta_end - arc.theta_start) := rfl
  clear_value mid arc
  obtain ⟨ha1, ha2⟩ := normalize_angle_mem θs
  obtain ⟨hb1, hb2⟩ := normalize_angle_mem θe
  set a := normalize_angle θs with ha_def
  set b := normalize_angle θe with hb_def
  by_cases hle : a ≤ b
  · -- non-wraparound
    have hle2 : arc.theta_start ≤ arc.theta_end := by rw [harc_s, harc_e]; exact hle
    have hspan : arc.angular_span = b - a := by
      rw [hspan_def, harc_s, harc_e, if_neg (by simp only [not_lt]; linarith)]
    have hmid : mid = (a + b) / 2 := by rw [hmid_def, harc_s, hspan]; ring
    refine ⟨?_, ?_, ?_, ?_⟩
    · rw [contains_angle_iff_le hle2, ← ha_def, harc_s, harc_e]
      exact ⟨le_refl a, hle⟩
    · rw [contains_angle_iff_le hle2, ← hb_def, harc_s, harc_e]
      exact ⟨hle, le_refl b⟩
    · rw [contains_angle_iff_le hle2,
        normalize_angle_eq_self (θ := mid) (by rw [hmid]; linarith) (by rw [hmid]; linarith),
        harc_s, harc_e, hmid]
      constructor <;> linarith
    · rw [Bool.eq_false_iff, Ne, contains_angle_iff_le hle2, harc_s, harc_e]
      by_cases hmid0 : mid < 0
      · have hmem : normalize_angle (mid + π) = mid + π :=
          normalize_angle_eq_self (by rw [hmid] at hmid0 ⊢; linarith)
            (by rw [hmid] at hmid0 ⊢; linarith)
        rw [hmem, hmid]
        rw [hmid] at hmid0
        rintro ⟨h1, h2⟩
        linarith
      · push_neg at hmid0
        rw [hmid] at hmid0
        have hshift : mid + π = (mid - π) + 2 * π := by ring
        have hmem : normalize_angle (mid + π) = mid - π := by
          rw [hshift, normalize_angle_add_two_pi]
          exact normalize_angle_eq_self (by rw [hmid]; linarith) (by rw [hmid]; linarith)
        rw [hmem, hmid]
        rintro ⟨h1, h2⟩
        linarith
  · -- wraparound: b < a
    have hlt : b < a := lt_of_not_le hle
    have hle2 : ¬ arc.theta_start ≤ arc.theta_end := by rw [harc_s, harc_e]; exact hle
    have hspan : arc.angular_span = b - a + TAU := by
      rw [hspan_def, harc_s, harc_e, if_pos (by linarith)]
    have hmid : mid = (a + b) / 2 + π := by rw [hmid_def, harc_s, hspan, TAU]; ring
    refine ⟨?_, ?_, ?_, ?_⟩
    · rw [contains_angle_iff_wrap hle2, ← ha_def, harc_s]
      exact Or.inl (le_refl a)
    · rw [contains_angle_iff_wrap hle2, ← hb_def, harc_e]
      exact Or.inr (le_refl b)
    · rw [contains_angle_iff_wrap hle2, harc_s, harc_e]
      by_cases hmidπ : mid < π
      · have hmem : normalize_angle mid = mid :=
          normalize_angle_eq_self (by rw [hmid]; linarith) hmidπ
        rw [hmem]
        left
        rw [hmid]
        linarith
      · push_neg at hmidπ
        rw [hmid] at hmidπ
        have hshift : mid = ((a + b) / 2 - π) + 2 * π := by rw [hmid]; ring
        have hmem : normalize_angle mid = (a + b) / 2 - π := by
          rw [hshift, normalize_angle_add_two_pi]
          exact normalize_angle_eq_self (by linarith) (by linarith)
        rw [hmem]
        right
        linarith
    · rw [Bool.eq_false_iff, Ne, contains_angle_iff_wrap hle2, harc_s, harc_e]
      have hshift : mid + π = (a + b) / 2 + 2 * π := by rw [hmid]; ring
      have hmem : normalize_angle (mid + π) = (a + b) / 2 := by
        rw [hshift, normalize_angle_add_two_pi]
        exact normalize_angle_eq_self (by linarith) (by linarith)
      rw [hmem]
      rintro (h1 | h2)
      · linarith
      · linarith

/-- C7: `reflect_velocity` follows v′ = v − 2(v·n)n: the concrete
reflection of (100, 0) off (−1, 0) is (−100, 0), and reflecting off any
unit normal preserves the speed magnitude. -/
theorem reflect_velocity_spec :
    reflect_velocity ⟨100, 0⟩ ⟨-1, 0⟩ = (⟨-100, 0⟩ : Vec2) ∧
      ∀ v n : Vec2, n.length = 1 → (reflect_velocity v n).length = v.length := by
  constructor
  · rw [Vec2.ext_iff]
    norm_num [reflect_velocity, Vec2.dot]
  · intro v n hn
    have hsq : n.x * n.x + n.y * n.y = 1 := by
      have h0 : (0 : ℝ) ≤ n.x * n.x + n.y * n.y := by nlinarith
      have : Real.sqrt (n.x * n.x + n.y * n.y) = 1 := hn
      nlinarith [Real.sq_sqrt h0, this]
    unfold Vec2.length
    congr 1
    simp only [reflect_velocity, Vec2.dot, Vec2.length_squared, Vec2.sub_def,
      Vec2.rMul_def]
    linear_combination (4 * (v.x * n.x + v.y * n.y) ^ 2) * hsq

/-- C7 witness: the energy-preservation clause applied at v = (3, 4),
n = (0, 1). -/
theorem reflect_velocity_spec_witness :
    (Vec2.mk 0 1).length = 1 ∧
      (reflect_velocity ⟨3, 4⟩ ⟨0, 1⟩).length = (Vec2.mk 3 4).length := by
  have h : (Vec2.mk 0 1).length = 1 := by
    simp [Vec2.length, Vec2.length_squared]
  exact ⟨h, reflect_velocity_spec.2 ⟨3, 4⟩ ⟨0, 1⟩ h⟩

/-!  ## Generic list lemmas  -/

theorem listModify_map {α β : Type} (g : α → β) (f : α → α)
    (h : ∀ a, g (f a) = g a) :
    ∀ (l : List α) (i : ℕ), (listModify l i f).map g = l.map g := by
  intro l
  induction l with
  | nil => intro i; rfl
  | cons a rest ih =>
    intro i
    cases i with
    | zero => simp [listModify, h]
    | succ n => simp [listModify, ih]

theorem collectPickups_fst_sublist (paddle : Paddle) (l : List Pickup) :
    (collectPickups paddle l).1.Sublist l := by
  induction l with
  | nil => simp [collectPickups]
  | cons p rest ih =>
    rw [collectPickups]
    split
    · exact ih.cons p
    · split
      · exact ih.cons p
      · exact ih.cons₂ p

/-!  ## Block-signature preservation

Every Playing-phase pass either leaves the block list alone, rewrites
blocks in place without touching their id or kind, or removes blocks.
`blockSig` records the (id, kind) pair; each stage's signature list is a
sublist of its input's. -/

def blockSig (b : Block) : ℕ × BlockKind := (b.id, b.kind)

theorem blockSig_rotate (b : Block) (dt t : ℝ) : blockSig (b.rotate dt t) = blockSig b := by
  unfold Block.rotate
  dsimp only
  split_ifs <;> rfl

theorem blockSig_trigger_wobble (b : Block) :
    blockSig (b.trigger_wobble) = blockSig b := by
  unfold Block.trigger_wobble
  split_ifs <;> rfl

theorem damagePortalBlock_sig (bid : ℕ) :
    ∀ l : List Block, ((damagePortalBlock l bid).1).map blockSig = l.map blockSig := by
  intro l
  induction l with
  | nil => rfl
  | cons b rest ih =>
    rw [damagePortalBlock]
    split
    · simp [blockSig]
    · simp [ih]

theorem neighborPass_sig (m r : ℝ) (ex : Bool) :
    ∀ (i : ℕ) (l : List Block),
      ((neighborPass m r ex i l).1).map blockSig = l.map blockSig := by
  intro i l
  induction l generalizing i with
  | nil => rfl
  | cons b rest ih =>
    rw [neighborPass]
    split_ifs <;> simp [ih, blockSig]

theorem victimFold_sig (vl : List ℕ) :
    ∀ bl : List Block,
      ((vl.foldl
        (fun bl victim_idx =>
          if victim_idx < bl.length then
            listModify (listModify bl victim_idx (fun b => { b with hp := b.hp - 2 }))
              victim_idx Block.trigger_wobble
          else bl)
        bl)).map blockSig = bl.map blockSig := by
  induction vl with
  | nil => intro bl; rfl
  | cons v rest ih =>
    intro bl
    rw [List.foldl_cons, ih]
    split
    · rw [listModify_map blockSig Block.trigger_wobble blockSig_trigger_wobble,
        listModify_map blockSig (fun b => { b with hp := b.hp - 2 }) (fun a => rfl)]
    · rfl

theorem applyDamageEntry_sig (t : ℕ) (env : PhysEnv) (idx : ℕ) :
    ((applyDamageEntry t env idx).blocks.map blockSig).Sublist
      (env.blocks.map blockSig) := by
  have h1 : (listModify (listModify env.blocks idx Block.trigger_wobble) idx
      (fun b => { b with hp := b.hp - 1 })).map blockSig = env.blocks.map blockSig := by
    rw [listModify_map blockSig (fun b => { b with hp := b.hp - 1 }) (fun a => rfl),
      listModify_map blockSig Block.trigger_wobble blockSig_trigger_wobble]
  unfold applyDamageEntry
  dsimp only
  split
  · rw [h1]
  · split
    · refine List.Sublist.trans ((List.filter_sublist _).map blockSig) ?_
      rw [victimFold_sig, neighborPass_sig, ← h1]
      exact (List.eraseIdx_sublist _ idx).map blockSig
    · rw [h1]

theorem damageFold_sig (t : ℕ) (dl : List ℕ) :
    ∀ env : PhysEnv,
      ((dl.foldl (applyDamageEntry t) env).blocks.map blockSig).Sublist
        (env.blocks.map blockSig) := by
  induction dl with
  | nil => intro env; exact List.Sublist.refl _
  | cons d rest ih =>
    intro env
    exact List.Sublist.trans (ih (applyDamageEntry t env d)) (applyDamageEntry_sig t env d)

theorem processBall_sig (paddle : Paddle) (paddle_arc : ArcSegment) (ar : ℝ)
    (tt : ℕ) (dt : ℝ) (env : PhysEnv) (ball : Ball) :
    (((processBall paddle paddle_arc ar tt dt env ball).2).blocks.map blockSig).Sublist
      (env.blocks.map blockSig) := by
  unfold processBall
  split
  case h_1 =>
    dsimp only
    split
    · exact List.Sublist.refl _
    · repeat' split
      all_goals exact damageFold_sig _ _ _
  case h_2 => exact List.Sublist.refl _

theorem runBalls_sig (paddle : Paddle) (paddle_arc : ArcSegment) (ar : ℝ) (tt : ℕ)
    (dt : ℝ) :
    ∀ (bl : List Ball) (env : PhysEnv),
      (((runBalls paddle paddle_arc ar tt dt env bl).2).blocks.map blockSig).Sublist
        (env.blocks.map blockSig) := by
  intro bl
  induction bl with
  | nil => intro env; exact List.Sublist.refl _
  | cons b rest ih =>
    intro env
    rw [runBalls]
    exact List.Sublist.trans (ih _) (processBall_sig _ _ _ _ _ _ _)

/-!  ## Frame lemmas: fields each stage leaves untouched  -/

@[simp] theorem decayVisualStage_balls (s : GameState) :
    (decayVisualStage s).balls = s.balls := rfl
@[simp] theorem decayVisualStage_blocks (s : GameState) :
    (decayVisualStage s).blocks = s.blocks := rfl
@[simp] theorem decayVisualStage_pickups (s : GameState) :
    (decayVisualStage s).pickups = s.pickups := rfl
@[simp] theorem decayVisualStage_wave_index (s : GameState) :
    (decayVisualStage s).wave_index = s.wave_index := rfl
@[simp] theorem decayVisualStage_lives (s : GameState) :
    (decayVisualStage s).lives = s.lives := rfl
@[simp] theorem decayVisualStage_phase (s : GameState) :
    (decayVisualStage s).phase = s.phase := rfl
@[simp] theorem decayVisualStage_next_id (s : GameState) :
    (decayVisualStage s).next_id = s.next_id := rfl

@[simp] theorem prePaddle_balls (s : GameState) (i : TickInput) (dt : ℝ) :
    (prePaddle s i dt).balls = s.balls := by unfold prePaddle; split <;> rfl
@[simp] theorem prePaddle_blocks (s : GameState) (i : TickInput) (dt : ℝ) :
    (prePaddle s i dt).blocks = s.blocks := by unfold prePaddle; split <;> rfl
@[simp] theorem prePaddle_pickups (s : GameState) (i : TickInput) (dt : ℝ) :
    (prePaddle s i dt).pickups = s.pickups := by unfold prePaddle; split <;> rfl
@[simp] theorem prePaddle_wave_index (s : GameState) (i : TickInput) (dt : ℝ) :
    (prePaddle s i dt).wave_index = s.wave_index := by unfold prePaddle; split <;> rfl
@[simp] theorem prePaddle_lives (s : GameState) (i : TickInput) (dt : ℝ) :
    (prePaddle s i dt).lives = s.lives := by unfold prePaddle; split <;> rfl
@[simp] theorem prePaddle_phase (s : GameState) (i : TickInput) (dt : ℝ) :
    (prePaddle s i dt).phase = s.phase := by unfold prePaddle; split <;> rfl
@[simp] theorem prePaddle_next_id (s : GameState) (i : TickInput) (dt : ℝ) :
    (prePaddle s i dt).next_id = s.next_id := by unfold prePaddle; split <;> rfl

@[simp] theorem rotateBlocksStage_balls (s : GameState) (dt t : ℝ) :
    (rotateBlocksStage s dt t).balls = s.balls := rfl
@[simp] theorem rotateBlocksStage_pickups (s : GameState) (dt t : ℝ) :
    (rotateBlocksStage s dt t).pickups = s.pickups := rfl
@[simp] theorem rotateBlocksStage_wave_index (s : GameState) (dt t : ℝ) :
    (rotateBlocksStage s dt t).wave_index = s.wave_index := rfl
@[simp] theorem rotateBlocksStage_lives (s : GameState) (dt t : ℝ) :
    (rotateBlocksStage s dt t).lives = s.lives := rfl
@[simp] theorem rotateBlocksStage_phase (s : GameState) (dt t : ℝ) :
    (rotateBlocksStage s dt t).phase = s.phase := rfl
@[simp] theorem rotateBlocksStage_next_id (s : GameState) (dt t : ℝ) :
    (rotateBlocksStage s dt t).next_id = s.next_id := rfl

@[simp] theorem slidingStage_pickups (s : GameState) (dt : ℝ) :
    (slidingStage s dt).pickups = s.pickups := rfl
@[simp] theorem slidingStage_wave_index (s : GameState) (dt : ℝ) :
    (slidingStage s dt).wave_index = s.wave_index := rfl
@[simp] theorem slidingStage_lives (s : GameState) (dt : ℝ) :
    (slidingStage s dt).lives = s.lives := rfl
@[simp] theorem slidingStage_phase (s : GameState) (dt : ℝ) :
    (slidingStage s dt).phase = s.phase := rfl
@[simp] theorem slidingStage_next_id (s : GameState) (dt : ℝ) :
    (slidingStage s dt).next_id = s.next_id := rfl

@[simp] theorem physicsStage_pickups (s : GameState) (dt : ℝ) :
    ((physicsStage s dt).1).pickups = s.pickups := rfl
@[simp] theorem physicsStage_wave_index (s : GameState) (dt : ℝ) :
    ((physicsStage s dt).1).wave_index = s.wave_index := rfl
@[simp] theorem physicsStage_lives (s : GameState) (dt : ℝ) :
    ((physicsStage s dt).1).lives = s.lives := rfl
@[simp] theorem physicsStage_phase (s : GameState) (dt : ℝ) :
    ((physicsStage s dt).1).phase = s.phase := rfl
@[simp] theorem physicsStage_next_id (s : GameState) (dt : ℝ) :
    ((physicsStage s dt).1).next_id = s.next_id := rfl

theorem spawnPickupsStage_frame (L : List (PickupKind × Vec2)) :
    ∀ s : GameState, (spawnPickupsStage s L).blocks = s.blocks ∧
      (spawnPickupsStage s L).balls = s.balls ∧
      (spawnPickupsStage s L).wave_index = s.wave_index ∧
      (spawnPickupsStage s L).lives = s.lives ∧
      (spawnPickupsStage s L).phase = s.phase := by
  induction L with
  | nil => intro s; exact ⟨rfl, rfl, rfl, rfl, rfl⟩
  | cons kp rest ih =>
    intro s
    exact ih _

@[simp] theorem spawnPickupsStage_blocks (s : GameState) (L : List (PickupKind × Vec2)) :
    (spawnPickupsStage s L).blocks = s.blocks := (spawnPickupsStage_frame L s).1
@[simp] theorem spawnPickupsStage_balls (s : GameState) (L : List (PickupKind × Vec2)) :
    (spawnPickupsStage s L).balls = s.balls := (spawnPickupsStage_frame L s).2.1
@[simp] theorem spawnPickupsStage_wave_index (s : GameState) (L : List (PickupKind × Vec2)) :
    (spawnPickupsStage s L).wave_index = s.wave_index := (spawnPickupsStage_frame L s).2.2.1
@[simp] theorem spawnPickupsStage_lives (s : GameState) (L : List (PickupKind × Vec2)) :
    (spawnPickupsStage s L).lives = s.lives := (spawnPickupsStage_frame L s).2.2.2.1
@[simp] theorem spawnPickupsStage_phase (s : GameState) (L : List (PickupKind × Vec2)) :
    (spawnPickupsStage s L).phase = s.phase := (spawnPickupsStage_frame L s).2.2.2.2

@[simp] theorem updatePickupsStage_blocks (s : GameState) (dt : ℝ) :
    (updatePickupsStage s dt).blocks = s.blocks := rfl
@[simp] theorem updatePickupsStage_balls (s : GameState) (dt : ℝ) :
    (updatePickupsStage s dt).balls = s.balls := rfl
@[simp] theorem updatePickupsStage_wave_index (s : GameState) (dt : ℝ) :
    (updatePickupsStage s dt).wave_index = s.wave_index := rfl
@[simp] theorem updatePickupsStage_lives (s : GameState) (dt : ℝ) :
    (updatePickupsStage s dt).lives = s.lives := rfl
@[simp] theorem updatePickupsStage_phase (s : GameState) (dt : ℝ) :
    (updatePickupsStage s dt).phase = s.phase := rfl
@[simp] theorem updatePickupsStage_next_id (s : GameState) (dt : ℝ) :
    (updatePickupsStage s dt).next_id = s.next_id := rfl

@[simp] theorem collectPickupsStage_blocks (s : GameState) :
    ((collectPickupsStage s).1).blocks = s.blocks := rfl
@[simp] theorem collectPickupsStage_balls (s : GameState) :
    ((collectPickupsStage s).1).balls = s.balls := rfl
@[simp] theorem collectPickupsStage_wave_index (s : GameState) :
    ((collectPickupsStage s).1).wave_index = s.wave_index := rfl
@[simp] theorem collectPickupsStage_lives (s : GameState) :
    ((collectPickupsStage s).1).lives = s.lives := rfl
@[simp] theorem collectPickupsStage_phase (s : GameState) :
    ((collectPickupsStage s).1).phase = s.phase := rfl
@[simp] theorem collectPickupsStage_next_id (s : GameState) :
    ((collectPickupsStage s).1).next_id = s.next_id := rfl

theorem applyEffect_frame (s : GameState) (k : PickupKind) :
    (applyEffect s k).blocks = s.blocks ∧ (applyEffect s k).pickups = s.pickups ∧
      (applyEffect s k).wave_index = s.wave_index ∧ (applyEffect s k).lives = s.lives ∧
      (applyEffect s k).phase = s.phase := by
  unfold applyEffect
  cases k with
  | MultiBall =>
    dsimp only
    split
    · exact ⟨rfl, rfl, rfl, rfl, rfl⟩
    · exact ⟨rfl, rfl, rfl, rfl, rfl⟩
  | Slow => exact ⟨rfl, rfl, rfl, rfl, rfl⟩
  | Piercing => exact ⟨rfl, rfl, rfl, rfl, rfl⟩
  | WidenPaddle => exact ⟨rfl, rfl, rfl, rfl, rfl⟩
  | Shield => exact ⟨rfl, rfl, rfl, rfl, rfl⟩

theorem applyEffectsStage_frame (L : List PickupKind) :
    ∀ s : GameState, (applyEffectsStage s L).blocks = s.blocks ∧
      (applyEffectsStage s L).pickups = s.pickups ∧
      (applyEffectsStage s L).wave_index = s.wave_index ∧
      (applyEffectsStage s L).lives = s.lives ∧
      (applyEffectsStage s L).phase = s.phase := by
  induction L with
  | nil => intro s; exact ⟨rfl, rfl, rfl, rfl, rfl⟩
  | cons k rest ih =>
    intro s
    have h1 := applyEffect_frame s k
    have h2 := ih (applyEffect s k)
    exact ⟨h2.1.trans h1.1, h2.2.1.trans h1.2.1, h2.2.2.1.trans h1.2.2.1,
      h2.2.2.2.1.trans h1.2.2.2.1, h2.2.2.2.2.trans h1.2.2.2.2⟩

@[simp] theorem applyEffectsStage_blocks (s : GameState) (L : List PickupKind) :
    (applyEffectsStage s L).blocks = s.blocks := (applyEffectsStage_frame L s).1
@[simp] theorem applyEffectsStage_pickups (s : GameState) (L : List PickupKind) :
    (applyEffectsStage s L).pickups = s.pickups := (applyEffectsStage_frame L s).2.1
@[simp] theorem applyEffectsStage_wave_index (s : GameState) (L : List PickupKind) :
    (applyEffectsStage s L).wave_index = s.wave_index := (applyEffectsStage_frame L s).2.2.1
@[simp] theorem applyEffectsStage_lives (s : GameState) (L : List PickupKind) :
    (applyEffectsStage s L).lives = s.lives := (applyEffectsStage_frame L s).2.2.2.1
@[simp] theorem applyEffectsStage_phase (s : GameState) (L : List PickupKind) :
    (applyEffectsStage s L).phase = s.phase := (applyEffectsStage_frame L s).2.2.2.2

@[simp] theorem decayEffectsStage_blocks (s : GameState) :
    (decayEffectsStage s).blocks = s.blocks := rfl
@[simp] theorem decayEffectsStage_balls (s : GameState) :
    (decayEffectsStage s).balls = s.balls := rfl
@[simp] theorem decayEffectsStage_pickups (s : GameState) :
    (decayEffectsStage s).pickups = s.pickups := rfl
@[simp] theorem decayEffectsStage_wave_index (s : GameState) :
    (decayEffectsStage s).wave_index = s.wave_index := rfl
@[simp] theorem decayEffectsStage_lives (s : GameState) :
    (decayEffectsStage s).lives = s.lives := rfl
@[simp] theorem decayEffectsStage_phase (s : GameState) :
    (decayEffectsStage s).phase = s.phase := rfl
@[simp] theorem decayEffectsStage_next_id (s : GameState) :
    (decayEffectsStage s).next_id = s.next_id := rfl

@[simp] theorem piercingSyncStage_blocks (s : GameState) :
    (piercingSyncStage s).blocks = s.blocks := rfl
@[simp] theorem piercingSyncStage_pickups (s : GameState) :
    (piercingSyncStage s).pickups = s.pickups := rfl
@[simp] theorem piercingSyncStage_wave_index (s : GameState) :
    (piercingSyncStage s).wave_index = s.wave_index := rfl
@[simp] theorem piercingSyncStage_lives (s : GameState) :
    (piercingSyncStage s).lives = s.lives := rfl
@[simp] theorem piercingSyncStage_phase (s : GameState) :
    (piercingSyncStage s).phase = s.phase := rfl
@[simp] theorem piercingSyncStage_next_id (s : GameState) :
    (piercingSyncStage s).next_id = s.next_id := rfl

@[simp] theorem paddleWidthStage_blocks (s : GameState) (dt : ℝ) :
    (paddleWidthStage s dt).blocks = s.blocks := rfl
@[simp] theorem paddleWidthStage_balls (s : GameState) (dt : ℝ) :
    (paddleWidthStage s dt).balls = s.balls := rfl
@[simp] theorem paddleWidthStage_pickups (s : GameState) (dt : ℝ) :
    (paddleWidthStage s dt).pickups = s.pickups := rfl
@[simp] theorem paddleWidthStage_wave_index (s : GameState) (dt : ℝ) :
    (paddleWidthStage s dt).wave_index = s.wave_index := rfl
@[simp] theorem paddleWidthStage_lives (s : GameState) (dt : ℝ) :
    (paddleWidthStage s dt).lives = s.lives := rfl
@[simp] theorem paddleWidthStage_phase (s : GameState) (dt : ℝ) :
    (paddleWidthStage s dt).phase = s.phase := rfl
@[simp] theorem paddleWidthStage_next_id (s : GameState) (dt : ℝ) :
    (paddleWidthStage s dt).next_id = s.next_id := rfl

@[simp] theorem slowStage_blocks (s : GameState) :
    (slowStage s).blocks = s.blocks := by unfold slowStage; split <;> rfl
@[simp] theorem slowStage_pickups (s : GameState) :
    (slowStage s).pickups = s.pickups := by unfold slowStage; split <;> rfl
@[simp] theorem slowStage_wave_index (s : GameState) :
    (slowStage s).wave_index = s.wave_index := by unfold slowStage; split <;> rfl
@[simp] theorem slowStage_lives (s : GameState) :
    (slowStage s).lives = s.lives := by unfold slowStage; split <;> rfl
@[simp] theorem slowStage_phase (s : GameState) :
    (slowStage s).phase = s.phase := by unfold slowStage; split <;> rfl
@[simp] theorem slowStage_next_id (s : GameState) :
    (slowStage s).next_id = s.next_id := by unfold slowStage; split <;> rfl

@[simp] theorem blackHoleStage_blocks (s : GameState) :
    (blackHoleStage s).blocks = s.blocks := by
  unfold blackHoleStage; dsimp only; split <;> rfl
@[simp] theorem blackHoleStage_pickups (s : GameState) :
    (blackHoleStage s).pickups = s.pickups := by
  unfold blackHoleStage; dsimp only; split <;> rfl
@[simp] theorem blackHoleStage_wave_index (s : GameState) :
    (blackHoleStage s).wave_index = s.wave_index := by
  unfold blackHoleStage; dsimp only; split <;> rfl
@[simp] theorem blackHoleStage_lives (s : GameState) :
    (blackHoleStage s).lives = s.lives := by
  unfold blackHoleStage; dsimp only; split <;> rfl
@[simp] theorem blackHoleStage_phase (s : GameState) :
    (blackHoleStage s).phase = s.phase := by
  unfold blackHoleStage; dsimp only; split <;> rfl
@[simp] theorem blackHoleStage_next_id (s : GameState) :
    (blackHoleStage s).next_id = s.next_id := by
  unfold blackHoleStage; dsimp only; split <;> rfl

@[simp] theorem dyingStage_blocks (s : GameState) (dt : ℝ) :
    (dyingStage s dt).blocks = s.blocks := rfl
@[simp] theorem dyingStage_pickups (s : GameState) (dt : ℝ) :
    (dyingStage s dt).pickups = s.pickups := rfl
@[simp] theorem dyingStage_wave_index (s : GameState) (dt : ℝ) :
    (dyingStage s dt).wave_index = s.wave_index := rfl
@[simp] theorem dyingStage_lives (s : GameState) (dt : ℝ) :
    (dyingStage s dt).lives = s.lives := rfl
@[simp] theorem dyingStage_phase (s : GameState) (dt : ℝ) :
    (dyingStage s dt).phase = s.phase := rfl
@[simp] theorem dyingStage_next_id (s : GameState) (dt : ℝ) :
    (dyingStage s dt).next_id = s.next_id := rfl

@[simp] theorem removeDeadStage_blocks (s : GameState) :
    (removeDeadStage s).blocks = s.blocks := rfl
@[simp] theorem removeDeadStage_pickups (s : GameState) :
    (removeDeadStage s).pickups = s.pickups := rfl
@[simp] theorem removeDeadStage_wave_index (s : GameState) :
    (removeDeadStage s).wave_index = s.wave_index := rfl
@[simp] theorem removeDeadStage_lives (s : GameState) :
    (removeDeadStage s).lives = s.lives := rfl
@[simp] theorem removeDeadStage_phase (s : GameState) :
    (removeDeadStage s).phase = s.phase := rfl
@[simp] theorem removeDeadStage_next_id (s : GameState) :
    (removeDeadStage s).next_id = s.next_id := rfl

@[simp] theorem lifeLossStage_blocks (s : GameState) :
    (lifeLossStage s).blocks = s.blocks := by
  unfold lifeLossStage GameState.spawn_ball_attached GameState.next_entity_id
  split
  · dsimp only
    split <;> rfl
  · rfl
@[simp] theorem lifeLossStage_pickups (s : GameState) :
    (lifeLossStage s).pickups = s.pickups := by
  unfold lifeLossStage GameState.spawn_ball_attached GameState.next_entity_id
  split
  · dsimp only
    split <;> rfl
  · rfl
@[simp] theorem lifeLossStage_wave_index (s : GameState) :
    (lifeLossStage s).wave_index = s.wave_index := by
  unfold lifeLossStage GameState.spawn_ball_attached GameState.next_entity_id
  split
  · dsimp only
    split <;> rfl
  · rfl

@[simp] theorem waveClearStage_pickups (s : GameState) :
    (waveClearStage s).pickups = s.pickups := by
  unfold waveClearStage; dsimp only; split <;> rfl
@[simp] theorem waveClearStage_lives (s : GameState) :
    (waveClearStage s).lives = s.lives := by
  unfold waveClearStage; dsimp only; split <;> rfl

@[simp] theorem normalize_order_phase (s : GameState) :
    (s.normalize_order).phase = s.phase := rfl
@[simp] theorem normalize_order_wave_index (s : GameState) :
    (s.normalize_order).wave_index = s.wave_index := rfl
@[simp] theorem normalize_order_lives (s : GameState) :
    (s.normalize_order).lives = s.lives := rfl
@[simp] theorem normalize_order_next_id (s : GameState) :
    (s.normalize_order).next_id = s.next_id := rfl

/-!  ## Tick path lemmas  -/

theorem idleRewrite_pause (s : GameState) (i : TickInput) :
    (idleRewrite s i).pause = i.pause := by
  unfold idleRewrite
  dsimp only
  repeat' split
  all_goals rfl

theorem idleRewrite_skip_wave (s : GameState) (i : TickInput) :
    (idleRewrite s i).skip_wave = i.skip_wave := by
  unfold idleRewrite
  dsimp only
  repeat' split
  all_goals rfl

/-- A GameOver state is a fixed point of `tick`, whatever the input. -/
theorem tick_gameover (s : GameState) (i : TickInput) (dt : ℝ)
    (h : s.phase = GamePhase.GameOver) : tick s i dt = s := by
  unfold tick
  simp [h]

/-- The state reached on the standard Playing path right before the phase
dispatch: visual decay, idle rewrite, tick-count increment and paddle
movement. -/
def playingEntry (s : GameState) (i : TickInput) (dt : ℝ) : GameState :=
  prePaddle (decayVisualStage s) (idleRewrite (decayVisualStage s) i) dt

/-- Unfolding of `tick` on the standard Playing path. -/
theorem tick_playing_eq (s : GameState) (i : TickInput) (dt : ℝ)
    (hph : s.phase = GamePhase.Playing) (hp : i.pause = false)
    (hsk : i.skip_wave = false) :
    tick s i dt = (playingStep (playingEntry s i dt) dt
      (((playingEntry s i dt).time_ticks : ℝ) * SIM_DT)).normalize_order := by
  have hsk2 : (idleRewrite (decayVisualStage s) i).skip_wave = false := by
    rw [idleRewrite_skip_wave]; exact hsk
  have hph2 : (prePaddle (decayVisualStage s) (idleRewrite (decayVisualStage s) i)
      dt).phase = GamePhase.Playing := by
    rw [prePaddle_phase, decayVisualStage_phase]; exact hph
  have h1 : ¬(i.pause = true ∧
      (s.phase = GamePhase.Playing ∨ s.phase = GamePhase.Serve)) := by simp [hp]
  have h2 : ¬(i.pause = true ∧ s.phase = GamePhase.Paused) := by simp [hp]
  have h3 : ¬(s.phase = GamePhase.Paused ∨ s.phase = GamePhase.GameOver) := by
    simp [hph]
  have h4 : ¬((idleRewrite (decayVisualStage s) i).skip_wave = true) := by simp [hsk2]
  unfold tick phaseStep
  rw [if_neg h1, if_neg h2]
  dsimp only
  rw [if_neg h3, if_neg h4, hph2]
  rfl

/-!  ## C2: the wave-clear transition  -/

theorem countP_clear_eq_zero_iff (l : List Block) :
    l.countP Block.counts_for_clear = 0 ↔
      ∀ b ∈ l, b.kind = BlockKind.Invincible := by
  rw [List.countP_eq_zero]
  constructor
  · intro h b hb
    have := h b hb
    simp [Block.counts_for_clear] at this
    exact this
  · intro h b hb
    simp [Block.counts_for_clear]
    exact h b hb

theorem playingPreLife_blocks_eq (x : GameState) (dt t : ℝ) :
    (playingPreLife x dt t).blocks =
      ((physicsStage (slidingStage (rotateBlocksStage x dt t) dt) dt).1).blocks := by
  unfold playingPreLife
  dsimp only
  rw [removeDeadStage_blocks, dyingStage_blocks, blackHoleStage_blocks, slowStage_blocks,
    paddleWidthStage_blocks, piercingSyncStage_blocks, decayEffectsStage_blocks,
    applyEffectsStage_blocks, collectPickupsStage_blocks, updatePickupsStage_blocks]
  unfold playingPhysicsDone
  dsimp only
  rw [spawnPickupsStage_blocks]

theorem slidingStage_blocks_sig (x : GameState) (dt : ℝ) :
    ((slidingStage x dt).blocks.map blockSig).Sublist (x.blocks.map blockSig) := by
  have hfold : ∀ (exits : List ℕ) (p : List Block × ℕ),
      ((exits.foldl
        (fun (p : List Block × ℕ) bid =>
          ((damagePortalBlock p.1 bid).1,
            if (damagePortalBlock p.1 bid).2 then p.2 + 1 else p.2)) p).1).map blockSig =
        p.1.map blockSig := by
    intro exits
    induction exits with
    | nil => intro p; rfl
    | cons e rest ih =>
      intro p
      rw [List.foldl_cons, ih]
      exact damagePortalBlock_sig e p.1
  unfold slidingStage
  dsimp only
  refine List.Sublist.trans ((List.filter_sublist _).map blockSig) ?_
  rw [hfold]

theorem playingPreLife_blocks_sig (x : GameState) (dt t : ℝ) :
    ((playingPreLife x dt t).blocks.map blockSig).Sublist (x.blocks.map blockSig) := by
  rw [playingPreLife_blocks_eq]
  have h1 : ((physicsStage (slidingStage (rotateBlocksStage x dt t) dt) dt).1.blocks.map
      blockSig).Sublist ((slidingStage (rotateBlocksStage x dt t) dt).blocks.map blockSig) := by
    unfold physicsStage
    exact runBalls_sig _ _ _ _ _ _ _
  refine h1.trans ?_
  refine (slidingStage_blocks_sig _ dt).trans ?_
  have h2 : ((rotateBlocksStage x dt t).blocks.map blockSig) = x.blocks.map blockSig := by
    unfold rotateBlocksStage
    rw [List.map_map]
    exact List.map_congr_left (fun b _hb => blockSig_rotate b dt t)
  rw [h2]

theorem playingPreLife_wave_index (x : GameState) (dt t : ℝ) :
    (playingPreLife x dt t).wave_index = x.wave_index := by
  unfold playingPreLife
  dsimp only
  rw [removeDeadStage_wave_index, dyingStage_wave_index, blackHoleStage_wave_index,
    slowStage_wave_index, paddleWidthStage_wave_index, piercingSyncStage_wave_index,
    decayEffectsStage_wave_index, applyEffectsStage_wave_index,
    collectPickupsStage_wave_index, updatePickupsStage_wave_index]
  unfold playingPhysicsDone
  dsimp only
  rw [spawnPickupsStage_wave_index, physicsStage_wave_index, slidingStage_wave_index,
    rotateBlocksStage_wave_index]

theorem playingPreLife_lives (x : GameState) (dt t : ℝ) :
    (playingPreLife x dt t).lives = x.lives := by
  unfold playingPreLife
  dsimp only
  rw [removeDeadStage_lives, dyingStage_lives, blackHoleStage_lives, slowStage_lives,
    paddleWidthStage_lives, piercingSyncStage_lives, decayEffectsStage_lives,
    applyEffectsStage_lives, collectPickupsStage_lives, updatePickupsStage_lives]
  unfold playingPhysicsDone
  dsimp only
  rw [spawnPickupsStage_lives, physicsStage_lives, slidingStage_lives,
    rotateBlocksStage_lives]

/-- C2: during Playing, once no block with `counts_for_clear` remains,
the very next tick (that is not a pause-in or a debug wave skip) moves
the phase to Breather, clears the blocks, clears the balls, and
increments `wave_index` by exactly one. -/
theorem wave_clear_transition (s : GameState) (input : TickInput) (dt : ℝ)
    (hphase : s.phase = GamePhase.Playing) (hpause : input.pause = false)
    (hskip : input.skip_wave = false)
    (hclear : s.blocks.countP Block.counts_for_clear = 0) :
    (tick s input dt).phase = GamePhase.Breather ∧
      (tick s input dt).blocks = [] ∧ (tick s input dt).balls = [] ∧
      (tick s input dt).wave_index = s.wave_index + 1 := by
  rw [tick_playing_eq s input dt hphase hpause hskip]
  have hentry_blocks : (playingEntry s input dt).blocks = s.blocks := by
    rw [playingEntry]; simp
  have hentry_wave : (playingEntry s input dt).wave_index = s.wave_index := by
    rw [playingEntry]; simp
  have hinv : ∀ b ∈ s.blocks, b.kind = BlockKind.Invincible :=
    (countP_clear_eq_zero_iff _).mp hclear
  have hmid := playingPreLife_blocks_sig (playingEntry s input dt) dt
    (((playingEntry s input dt).time_ticks : ℝ) * SIM_DT)
  rw [hentry_blocks] at hmid
  have hmid_inv : ∀ b ∈ (playingPreLife (playingEntry s input dt) dt
      (((playingEntry s input dt).time_ticks : ℝ) * SIM_DT)).blocks,
      b.kind = BlockKind.Invincible := by
    intro b hb
    have hsig : blockSig b ∈ s.blocks.map blockSig :=
      hmid.subset (List.mem_map_of_mem blockSig hb)
    obtain ⟨b0, hb0, hsig0⟩ := List.mem_map.mp hsig
    have hkind : b.kind = b0.kind := by
      have := congrArg Prod.snd hsig0
      simpa [blockSig] using this.symm
    rw [hkind]
    exact hinv b0 hb0
  set mid := playingPreLife (playingEntry s input dt) dt
    (((playingEntry s input dt).time_ticks : ℝ) * SIM_DT) with hmid_def
  have hll_blocks : (lifeLossStage mid).blocks = mid.blocks := lifeLossStage_blocks mid
  have hll_zero : (lifeLossStage mid).blocks.countP Block.counts_for_clear = 0 := by
    rw [hll_blocks, countP_clear_eq_zero_iff]
    exact hmid_inv
  have hwc : playingStep (playingEntry s input dt) dt
      (((playingEntry s input dt).time_ticks : ℝ) * SIM_DT) =
      waveClearStage (lifeLossStage mid) := rfl
  rw [hwc]
  have hwc_result : waveClearStage (lifeLossStage mid) =
      { lifeLossStage mid with
        screen_shake := 1
        wave_flash := 1
        blocks := []
        wave_index := (lifeLossStage mid).wave_index + 1
        breather_ticks := BREATHER_DURATION_TICKS
        phase := GamePhase.Breather
        balls := [] } := by
    unfold waveClearStage
    rw [if_pos hll_zero]
  rw [hwc_result]
  refine ⟨rfl, rfl, rfl, ?_⟩
  · show (lifeLossStage mid).wave_index + 1 = s.wave_index + 1
    rw [lifeLossStage_wave_index, hmid_def, playingPreLife_wave_index, hentry_wave]

/-!  ## C1: determinism  -/

/-- C1: two `GameState::new(S)` instances advanced by the same inputs
agree, after every step, in tick count, ball count, and paddle angle.
(`tick` is a pure function of the state, so equal seeds give equal
trajectories.) -/
theorem determinism_same_seed (seed : ℕ) (steps : List (TickInput × ℝ))
    (s1 s2 : GameState) (h1 : s1 = GameState.new seed) (h2 : s2 = GameState.new seed) :
    ∀ k : ℕ,
      (runTicks s1 (steps.take k)).time_ticks = (runTicks s2 (steps.take k)).time_ticks ∧
      (runTicks s1 (steps.take k)).balls.length =
        (runTicks s2 (steps.take k)).balls.length ∧
      (runTicks s1 (steps.take k)).paddle.theta =
        (runTicks s2 (steps.take k)).paddle.theta := by
  subst h1
  subst h2
  intro k
  exact ⟨rfl, rfl, rfl⟩

/-- C1 witness: seed 42, a one-step input sequence, after the first step. -/
theorem determinism_same_seed_witness :
    (runTicks (GameState.new 42) ([(TickInput.default, SIM_DT)].take 1)).time_ticks =
      (runTicks (GameState.new 42) ([(TickInput.default, SIM_DT)].take 1)).time_ticks ∧
    (runTicks (GameState.new 42) ([(TickInput.default, SIM_DT)].take 1)).balls.length =
      (runTicks (GameState.new 42) ([(TickInput.default, SIM_DT)].take 1)).balls.length ∧
    (runTicks (GameState.new 42) ([(TickInput.default, SIM_DT)].take 1)).paddle.theta =
      (runTicks (GameState.new 42) ([(TickInput.default, SIM_DT)].take 1)).paddle.theta :=
  determinism_same_seed 42 [(TickInput.default, SIM_DT)] (GameState.new 42)
    (GameState.new 42) rfl rfl 1

/-!  ## C2 witness  -/

/-- C2 witness: the wave-clear transition applied to a concrete
Playing-phase state with zero clearable blocks. -/
theorem wave_clear_transition_witness :
    (stateEmptyPlaying.phase = GamePhase.Playing ∧ TickInput.default.pause = false ∧
      TickInput.default.skip_wave = false ∧
      stateEmptyPlaying.blocks.countP Block.counts_for_clear = 0) ∧
    ((tick stateEmptyPlaying TickInput.default SIM_DT).phase = GamePhase.Breather ∧
      (tick stateEmptyPlaying TickInput.default SIM_DT).blocks = [] ∧
      (tick stateEmptyPlaying TickInput.default SIM_DT).balls = [] ∧
      (tick stateEmptyPlaying TickInput.default SIM_DT).wave_index =
        stateEmptyPlaying.wave_index + 1) :=
  ⟨⟨rfl, rfl, rfl, rfl⟩,
    wave_clear_transition stateEmptyPlaying TickInput.default SIM_DT rfl rfl rfl rfl⟩

/-!  ## C3: the life-loss transition  -/

theorem slidingStage_balls_nil (x : GameState) (dt : ℝ) (h : x.balls = []) :
    (slidingStage x dt).balls = [] := by
  unfold slidingStage
  dsimp only
  rw [h]
  rfl

theorem slidingStage_blocks_nil_balls (x : GameState) (dt : ℝ) (h : x.balls = []) :
    (slidingStage x dt).blocks = x.blocks.filter (fun b => decide (0 < b.hp)) := by
  unfold slidingStage
  dsimp only
  rw [h]
  rfl

theorem physicsStage_balls_nil (x : GameState) (dt : ℝ) (h : x.balls = []) :
    ((physicsStage x dt).1).balls = [] ∧ ((physicsStage x dt).1).blocks = x.blocks ∧
      (physicsStage x dt).2 = [] := by
  unfold physicsStage
  dsimp only
  rw [h]
  exact ⟨rfl, rfl, rfl⟩

theorem spawnPickupsStage_nil (x : GameState) :
    spawnPickupsStage x [] = x := rfl

theorem piercingSyncStage_balls_nil (x : GameState) (h : x.balls = []) :
    (piercingSyncStage x).balls = [] := by
  unfold piercingSyncStage
  dsimp only
  rw [h]
  rfl

theorem slowStage_balls_nil (x : GameState) (h : x.balls = []) :
    (slowStage x).balls = [] := by
  unfold slowStage
  split
  · dsimp only; rw [h]; rfl
  · exact h

theorem blackHoleStage_balls_nil (x : GameState) (h : x.balls = []) :
    (blackHoleStage x).balls = [] := by
  unfold blackHoleStage
  dsimp only
  rw [h]
  split <;> rfl

theorem dyingStage_balls_nil (x : GameState) (dt : ℝ) (h : x.balls = []) :
    (dyingStage x dt).balls = [] := by
  unfold dyingStage
  dsimp only
  rw [h]
  rfl

theorem removeDeadStage_balls_nil (x : GameState) (h : x.balls = []) :
    (removeDeadStage x).balls = [] := by
  unfold removeDeadStage
  dsimp only
  rw [h]
  rfl

theorem updatePickupsStage_pickups_nil (x : GameState) (dt : ℝ) (h : x.pickups = []) :
    (updatePickupsStage x dt).pickups = [] := by
  unfold updatePickupsStage
  dsimp only
  rw [h]
  rfl

theorem collectPickupsStage_snd_nil (x : GameState) (h : x.pickups = []) :
    (collectPickupsStage x).2 = [] := by
  unfold collectPickupsStage
  dsimp only
  rw [h]
  rfl

/-- With no balls and no pickups, the pre-life-loss Playing pipeline ends
with no balls, and its block list is the rotated input blocks filtered to
positive hit points. -/
theorem playingPreLife_nil (x : GameState) (dt t : ℝ) (hb : x.balls = [])
    (hp : x.pickups = []) :
    (playingPreLife x dt t).balls = [] ∧
      (playingPreLife x dt t).blocks =
        ((rotateBlocksStage x dt t).blocks).filter (fun b => decide (0 < b.hp)) := by
  have h1b : (rotateBlocksStage x dt t).balls = [] := by rw [rotateBlocksStage_balls]; exact hb
  have h1p : (rotateBlocksStage x dt t).pickups = [] := by
    rw [rotateBlocksStage_pickups]; exact hp
  set s1 := rotateBlocksStage x dt t
  have h2b := slidingStage_balls_nil s1 dt h1b
  have h2blocks := slidingStage_blocks_nil_balls s1 dt h1b
  have h2p : (slidingStage s1 dt).pickups = [] := by rw [slidingStage_pickups]; exact h1p
  set s2 := slidingStage s1 dt
  have h3 := physicsStage_balls_nil s2 dt h2b
  have h3p : ((physicsStage s2 dt).1).pickups = [] := by rw [physicsStage_pickups]; exact h2p
  set s3 := (physicsStage s2 dt).1
  have hsp : spawnPickupsStage s3 (physicsStage s2 dt).2 = s3 := by
    rw [h3.2.2]
    exact rfl
  have hplift : playingPreLife x dt t =
      removeDeadStage (dyingStage (blackHoleStage (slowStage (paddleWidthStage
        (piercingSyncStage (decayEffectsStage (applyEffectsStage
          ((collectPickupsStage (updatePickupsStage s3 dt)).1)
          ((collectPickupsStage (updatePickupsStage s3 dt)).2))))
        dt))) dt) := by
    unfold playingPreLife playingPhysicsDone
    dsimp only
    rw [hsp]
  rw [hplift]
  have h4p := updatePickupsStage_pickups_nil s3 dt h3p
  have h4b : (updatePickupsStage s3 dt).balls = [] := by
    rw [updatePickupsStage_balls]; exact h3.1
  set s4 := updatePickupsStage s3 dt
  have h5c := collectPickupsStage_snd_nil s4 h4p
  have h5b : ((collectPickupsStage s4).1).balls = [] := by
    rw [collectPickupsStage_balls]; exact h4b
  have h5blocks : ((collectPickupsStage s4).1).blocks = s3.blocks := by
    rw [collectPickupsStage_blocks, updatePickupsStage_blocks]
  rw [h5c]
  have h6 : applyEffectsStage ((collectPickupsStage s4).1) [] = (collectPickupsStage s4).1 :=
    rfl
  rw [h6]
  constructor
  · apply removeDeadStage_balls_nil
    apply dyingStage_balls_nil
    apply blackHoleStage_balls_nil
    apply slowStage_balls_nil
    rw [paddleWidthStage_balls]
    apply piercingSyncStage_balls_nil
    rw [decayEffectsStage_balls]
    exact h5b
  · rw [removeDeadStage_blocks, dyingStage_blocks, blackHoleStage_blocks, slowStage_blocks,
      paddleWidthStage_blocks, piercingSyncStage_blocks, decayEffectsStage_blocks,
      h5blocks, h3.2.1, h2blocks]

theorem waveClearStage_of_pos (x : GameState)
    (h : x.blocks.countP Block.counts_for_clear ≠ 0) : waveClearStage x = x := by
  unfold waveClearStage
  dsimp only
  rw [if_neg h]

theorem lifeLossStage_dead (x : GameState) (hb : x.balls = []) (hl : x.lives = 1) :
    lifeLossStage x = { x with lives := 0, phase := GamePhase.GameOver } := by
  have hcond : x.balls.isEmpty = true := by rw [hb]; rfl
  unfold lifeLossStage
  dsimp only
  rw [if_pos hcond, hl]
  rfl

theorem lifeLossStage_alive (x : GameState) (hb : x.balls = []) (hl : 1 < x.lives) :
    (lifeLossStage x).lives = x.lives - 1 ∧
      (lifeLossStage x).phase = GamePhase.Serve ∧
      (lifeLossStage x).blocks = x.blocks ∧
      ∃ b : Ball, (lifeLossStage x).balls = [b] ∧ b.state = BallState.Attached 0 := by
  have hnz : ¬(x.lives - 1 = 0) := by omega
  have hcond : x.balls.isEmpty = true := by rw [hb]; rfl
  unfold lifeLossStage GameState.spawn_ball_attached GameState.next_entity_id
  dsimp only
  rw [if_pos hcond, if_neg hnz, hb]
  refine ⟨rfl, rfl, rfl, ?_⟩
  refine ⟨_, rfl, ?_⟩
  rfl

/-- C3 (amended): when the ball list is empty at the life-loss check of a
Playing tick, provided at least one life remains and at least one
clearable block survives the tick (so the wave-clear branch, which runs
after the life-loss branch and overwrites its phase, does not fire),
lives drop by exactly one; at one life the phase becomes GameOver — and
GameOver is absorbing for every further input — otherwise exactly one
fresh Attached ball is spawned and the phase becomes Serve. -/
theorem life_loss_transition (s : GameState) (input : TickInput) (dt : ℝ)
    (hphase : s.phase = GamePhase.Playing) (hpause : input.pause = false)
    (hskip : input.skip_wave = false)
    (hmidballs : (playingPreLife (playingEntry s input dt) dt
        (((playingEntry s input dt).time_ticks : ℝ) * SIM_DT)).balls = [])
    (hlives : 1 ≤ s.lives)
    (hblock : (playingPreLife (playingEntry s input dt) dt
        (((playingEntry s input dt).time_ticks : ℝ) * SIM_DT)).blocks.countP
        Block.counts_for_clear ≠ 0) :
    (tick s input dt).lives = s.lives - 1 ∧
      (s.lives = 1 → (tick s input dt).phase = GamePhase.GameOver) ∧
      (1 < s.lives → (tick s input dt).phase = GamePhase.Serve ∧
        ∃ b : Ball, (tick s input dt).balls = [b] ∧ b.state = BallState.Attached 0) ∧
      (∀ (s2 : GameState) (i2 : TickInput) (dt2 : ℝ),
        s2.phase = GamePhase.GameOver → tick s2 i2 dt2 = s2) := by
  rw [tick_playing_eq s input dt hphase hpause hskip]
  set mid := playingPreLife (playingEntry s input dt) dt
    (((playingEntry s input dt).time_ticks : ℝ) * SIM_DT) with hmid_def
  have hmid_lives : mid.lives = s.lives := by
    rw [hmid_def, playingPreLife_lives]
    rw [playingEntry, prePaddle_lives, decayVisualStage_lives]
  have hps : playingStep (playingEntry s input dt) dt
      (((playingEntry s input dt).time_ticks : ℝ) * SIM_DT) =
      waveClearStage (lifeLossStage mid) := by
    rw [hmid_def]
    exact rfl
  rw [hps]
  by_cases hl1 : s.lives = 1
  · have hll := lifeLossStage_dead mid hmidballs (hmid_lives.trans hl1)
    have hwc : waveClearStage (lifeLossStage mid) = lifeLossStage mid := by
      apply waveClearStage_of_pos
      rw [lifeLossStage_blocks]
      exact hblock
    rw [hwc, hll]
    refine ⟨?_, fun _ => rfl, ?_, ?_⟩
    · show (0 : ℕ) = s.lives - 1
      omega
    · intro h
      exfalso
      omega
    · intro s2 i2 dt2 h2
      exact tick_gameover s2 i2 dt2 h2
  · have hl2 : 1 < s.lives := by omega
    have hll := lifeLossStage_alive mid hmidballs (by rw [hmid_lives]; exact hl2)
    have hwc : waveClearStage (lifeLossStage mid) = lifeLossStage mid := by
      apply waveClearStage_of_pos
      rw [lifeLossStage_blocks]
      exact hblock
    rw [hwc]
    obtain ⟨b, hbeq, hbstate⟩ := hll.2.2.2
    refine ⟨?_, ?_, ?_, ?_⟩
    · rw [normalize_order_lives, hll.1, hmid_lives]
    · intro h; exfalso; omega
    · intro _
      constructor
      · rw [normalize_order_phase, hll.2.1]
      · refine ⟨b, ?_, hbstate⟩
        show (GameState.normalize_order (lifeLossStage mid)).balls = [b]
        unfold GameState.normalize_order
        dsimp only
        rw [hbeq]
        rfl
    · intro s2 i2 dt2 h2
      exact tick_gameover s2 i2 dt2 h2

/-- C3 counterexample: on its last life, with no balls and no blocks
left, a Playing tick sets lives to 0 yet ends in `Breather`, not
`GameOver` — the wave-clear check runs after the life-loss check and
overwrites the phase. -/
theorem life_loss_gameover_overridden :
    stateLastLife.phase = GamePhase.Playing ∧ stateLastLife.lives = 1 ∧
      (tick stateLastLife TickInput.default SIM_DT).lives = 0 ∧
      (tick stateLastLife TickInput.default SIM_DT).phase = GamePhase.Breather ∧
      GamePhase.Breather ≠ GamePhase.GameOver := by
  refine ⟨rfl, rfl, ?_⟩
  rw [tick_playing_eq stateLastLife TickInput.default SIM_DT rfl rfl rfl]
  have hnil := playingPreLife_nil (playingEntry stateLastLife TickInput.default SIM_DT)
    SIM_DT (((playingEntry stateLastLife TickInput.default SIM_DT).time_ticks : ℝ) * SIM_DT)
    rfl rfl
  set mid := playingPreLife (playingEntry stateLastLife TickInput.default SIM_DT) SIM_DT
    (((playingEntry stateLastLife TickInput.default SIM_DT).time_ticks : ℝ) * SIM_DT)
    with hmid_def
  have hmid_balls : mid.balls = [] := hnil.1
  have hmid_blocks : mid.blocks = [] := by
    rw [hnil.2]
    exact rfl
  have hmid_lives : mid.lives = 1 := by
    rw [hmid_def, playingPreLife_lives, playingEntry, prePaddle_lives, decayVisualStage_lives]
    exact rfl
  have hdead := lifeLossStage_dead mid hmid_balls hmid_lives
  have hzero : (lifeLossStage mid).blocks.countP Block.counts_for_clear = 0 := by
    rw [lifeLossStage_blocks, hmid_blocks]
    rfl
  have hps : playingStep (playingEntry stateLastLife TickInput.default SIM_DT) SIM_DT
      (((playingEntry stateLastLife TickInput.default SIM_DT).time_ticks : ℝ) * SIM_DT) =
      waveClearStage (lifeLossStage mid) := by
    rw [hmid_def]
    exact rfl
  rw [hps]
  have hwc : waveClearStage (lifeLossStage mid) =
      { lifeLossStage mid with
        screen_shake := 1
        wave_flash := 1
        blocks := []
        wave_index := (lifeLossStage mid).wave_index + 1
        breather_ticks := BREATHER_DURATION_TICKS
        phase := GamePhase.Breather
        balls := [] } := by
    unfold waveClearStage
    rw [if_pos hzero]
  rw [hwc]
  refine ⟨?_, rfl, fun h => GamePhase.noConfusion h⟩
  show (lifeLossStage mid).lives = 0
  rw [hdead]

theorem rotate_hp (b : Block) (dt t : ℝ) : (b.rotate dt t).hp = b.hp := by
  unfold Block.rotate
  dsimp only
  split_ifs <;> rfl

theorem rotate_counts_for_clear (b : Block) (dt t : ℝ) :
    Block.counts_for_clear (b.rotate dt t) = Block.counts_for_clear b := by
  unfold Block.rotate Block.counts_for_clear
  dsimp only
  split_ifs <;> rfl

/-- Rotating every block changes neither which blocks survive the
positive-hp filter nor how many of the survivors count for wave clear. -/
theorem countP_clear_filter_rotate (L : List Block) (dt t : ℝ) :
    ((L.map (fun b => b.rotate dt t)).filter (fun b => decide (0 < b.hp))).countP
        Block.counts_for_clear =
      (L.filter (fun b => decide (0 < b.hp))).countP Block.counts_for_clear := by
  induction L with
  | nil => rfl
  | cons a l ih =>
    simp only [List.map_cons, List.filter_cons, rotate_hp]
    by_cases h : (0 < a.hp)
    · simp [h, List.countP_cons, ih, rotate_counts_for_clear]
    · simp [h, ih]

/-- C3 witness: the amended life-loss transition applied to a concrete
no-ball Playing state with three lives and one Glass block left. -/
theorem life_loss_transition_witness :
    (stateLifeLossW.phase = GamePhase.Playing ∧ TickInput.default.pause = false ∧
      TickInput.default.skip_wave = false ∧
      (playingPreLife (playingEntry stateLifeLossW TickInput.default SIM_DT) SIM_DT
        (((playingEntry stateLifeLossW TickInput.default SIM_DT).time_ticks : ℝ) *
          SIM_DT)).balls = [] ∧
      1 ≤ stateLifeLossW.lives ∧
      (playingPreLife (playingEntry stateLifeLossW TickInput.default SIM_DT) SIM_DT
        (((playingEntry stateLifeLossW TickInput.default SIM_DT).time_ticks : ℝ) *
          SIM_DT)).blocks.countP Block.counts_for_clear ≠ 0) ∧
    ((tick stateLifeLossW TickInput.default SIM_DT).lives = stateLifeLossW.lives - 1 ∧
      (stateLifeLossW.lives = 1 →
        (tick stateLifeLossW TickInput.default SIM_DT).phase = GamePhase.GameOver) ∧
      (1 < stateLifeLossW.lives →
        (tick stateLifeLossW TickInput.default SIM_DT).phase = GamePhase.Serve ∧
        ∃ b : Ball, (tick stateLifeLossW TickInput.default SIM_DT).balls = [b] ∧
          b.state = BallState.Attached 0) ∧
      (∀ (s2 : GameState) (i2 : TickInput) (dt2 : ℝ),
        s2.phase = GamePhase.GameOver → tick s2 i2 dt2 = s2)) := by
  have hnil := playingPreLife_nil (playingEntry stateLifeLossW TickInput.default SIM_DT)
    SIM_DT (((playingEntry stateLifeLossW TickInput.default SIM_DT).time_ticks : ℝ) * SIM_DT)
    rfl rfl
  have hmb := hnil.1
  have hcb : (playingPreLife (playingEntry stateLifeLossW TickInput.default SIM_DT) SIM_DT
      (((playingEntry stateLifeLossW TickInput.default SIM_DT).time_ticks : ℝ) *
        SIM_DT)).blocks.countP Block.counts_for_clear ≠ 0 := by
    rw [hnil.2]
    have hrb : (rotateBlocksStage (playingEntry stateLifeLossW TickInput.default SIM_DT)
        SIM_DT
        (((playingEntry stateLifeLossW TickInput.default SIM_DT).time_ticks : ℝ) *
          SIM_DT)).blocks =
        stateLifeLossW.blocks.map (fun b => b.rotate SIM_DT
          (((playingEntry stateLifeLossW TickInput.default SIM_DT).time_ticks : ℝ) *
            SIM_DT)) := rfl
    rw [hrb, countP_clear_filter_rotate]
    decide
  exact ⟨⟨rfl, rfl, rfl, hmb, by decide, hcb⟩,
    life_loss_transition stateLifeLossW TickInput.default SIM_DT rfl rfl rfl hmb
      (by decide) hcb⟩

/-!  ## C4: pickup removal  -/

/-- The survivors of the pickup retain pass are exactly the input pickups
that the paddle does not collect and the black hole does not capture. -/
theorem mem_collectPickups_fst (paddle : Paddle) (L : List Pickup) (p : Pickup) :
    p ∈ (collectPickups paddle L).1 ↔
      p ∈ L ∧ ¬ pickupCollected paddle p ∧ ¬ (p.pos.length < BLACK_HOLE_RADIUS) := by
  induction L with
  | nil => simp [collectPickups]
  | cons a l ih =>
    by_cases h1 : pickupCollected paddle a
    · have heq : (collectPickups paddle (a :: l)).1 = (collectPickups paddle l).1 := by
        simp only [collectPickups]
        rw [if_pos h1]
      rw [heq, ih]
      constructor
      · rintro ⟨hm, hnc, hcap⟩
        exact ⟨List.mem_cons_of_mem _ hm, hnc, hcap⟩
      · rintro ⟨hm, hnc, hcap⟩
        rcases List.mem_cons.mp hm with rfl | hm2
        · exact absurd h1 hnc
        · exact ⟨hm2, hnc, hcap⟩
    · by_cases h2 : a.pos.length < BLACK_HOLE_RADIUS
      · have heq : (collectPickups paddle (a :: l)).1 = (collectPickups paddle l).1 := by
          simp only [collectPickups]
          rw [if_neg h1, if_pos h2]
        rw [heq, ih]
        constructor
        · rintro ⟨hm, hnc, hcap⟩
          exact ⟨List.mem_cons_of_mem _ hm, hnc, hcap⟩
        · rintro ⟨hm, hnc, hcap⟩
          rcases List.mem_cons.mp hm with rfl | hm2
          · exact absurd h2 hcap
          · exact ⟨hm2, hnc, hcap⟩
      · have heq : (collectPickups paddle (a :: l)).1 = a :: (collectPickups paddle l).1 := by
          simp only [collectPickups]
          rw [if_neg h1, if_neg h2]
        rw [heq]
        constructor
        · intro hm
          rcases List.mem_cons.mp hm with rfl | hm2
          · exact ⟨List.mem_cons_self _ _, h1, h2⟩
          · obtain ⟨hm3, hnc, hcap⟩ := ih.mp hm2
            exact ⟨List.mem_cons_of_mem _ hm3, hnc, hcap⟩
        · rintro ⟨hm, hnc, hcap⟩
          rcases List.mem_cons.mp hm with rfl | hm2
          · exact List.mem_cons_self _ _
          · exact List.mem_cons_of_mem _ (ih.mpr ⟨hm2, hnc, hcap⟩)

/-- C4 (amended): the pickup pass removes a pickup exactly when the
paddle collects it or the black hole captures it.  The per-tick pickup
update (drift toward the paddle) leaves `ttl_ticks`, `id` and `kind`
untouched — the source never counts the TTL down (tick.rs:1191), so TTL
expiry never removes a pickup. -/
theorem pickup_removal_only_on_collection_or_capture (s : GameState) (pp : Vec2)
    (dt : ℝ) (paddle : Paddle) (L : List Pickup) (p : Pickup) :
    ((updatePickup pp dt p).ttl_ticks = p.ttl_ticks ∧
      (updatePickup pp dt p).id = p.id ∧ (updatePickup pp dt p).kind = p.kind) ∧
    ((updatePickupsStage s dt).pickups.map (fun q => (q.id, q.kind, q.ttl_ticks)) =
      s.pickups.map (fun q => (q.id, q.kind, q.ttl_ticks))) ∧
    (p ∈ (collectPickups paddle L).1 ↔
      p ∈ L ∧ ¬ pickupCollected paddle p ∧ ¬ (p.pos.length < BLACK_HOLE_RADIUS)) := by
  refine ⟨⟨rfl, rfl, rfl⟩, ?_, mem_collectPickups_fst paddle L p⟩
  have h : (updatePickupsStage s dt).pickups =
      s.pickups.map (updatePickup (Vec2.mk (Real.cos s.paddle.theta * PADDLE_RADIUS)
        (Real.sin s.paddle.theta * PADDLE_RADIUS)) dt) := rfl
  rw [h, List.map_map]
  rfl

theorem playingPhysicsDone_pickups_nil (x : GameState) (dt t : ℝ) (hb : x.balls = []) :
    (playingPhysicsDone x dt t).pickups = x.pickups := by
  have h1b : (rotateBlocksStage x dt t).balls = [] := by rw [rotateBlocksStage_balls]; exact hb
  have h2b := slidingStage_balls_nil (rotateBlocksStage x dt t) dt h1b
  have h3 := physicsStage_balls_nil (slidingStage (rotateBlocksStage x dt t) dt) dt h2b
  unfold playingPhysicsDone
  dsimp only
  rw [h3.2.2]
  show ((physicsStage (slidingStage (rotateBlocksStage x dt t) dt) dt).1).pickups = x.pickups
  rw [physicsStage_pickups, slidingStage_pickups, rotateBlocksStage_pickups]

theorem playingPreLife_pickups_eq (x : GameState) (dt t : ℝ) :
    (playingPreLife x dt t).pickups =
      ((collectPickupsStage (updatePickupsStage (playingPhysicsDone x dt t) dt)).1).pickups := by
  unfold playingPreLife
  dsimp only
  rw [removeDeadStage_pickups, dyingStage_pickups, blackHoleStage_pickups, slowStage_pickups,
    paddleWidthStage_pickups, piercingSyncStage_pickups, decayEffectsStage_pickups,
    applyEffectsStage_pickups]

theorem updatePickup_pos (pp : Vec2) (dt : ℝ) (p : Pickup) :
    (updatePickup pp dt p).pos = p.pos + p.vel * dt := rfl

theorem collectPickups_singleton_keep (paddle : Paddle) (p : Pickup)
    (h : ¬ (p.pos.length < PADDLE_RADIUS + PADDLE_THICKNESS / 2 + 10))
    (h2 : ¬ (p.pos.length < BLACK_HOLE_RADIUS)) :
    collectPickups paddle [p] = ([p], []) := by
  have hnc : ¬ pickupCollected paddle p := by
    intro hc
    unfold pickupCollected at hc
    exact h hc.2.2
  simp only [collectPickups]
  rw [if_neg hnc, if_neg h2]

/-- C4 counterexample: a pickup whose TTL is already 0 at the start of a
Playing tick, sitting at distance 300 from the centre (outside the
paddle's collection band and outside the black hole), is still in the
pickups collection after the tick — its TTL never elapses it. -/
theorem pickup_ttl_not_removed :
    statePickupW.pickups = [pickupW] ∧ pickupW.ttl_ticks = 0 ∧
      ∃ p : Pickup, (tick statePickupW TickInput.default SIM_DT).pickups = [p] ∧
        p.id = pickupW.id ∧ p.kind = pickupW.kind ∧ p.ttl_ticks = 0 := by
  refine ⟨rfl, rfl, ?_⟩
  rw [tick_playing_eq statePickupW TickInput.default SIM_DT rfl rfl rfl]
  set E := playingEntry statePickupW TickInput.default SIM_DT with hE_def
  set tW := ((E.time_ticks : ℝ) * SIM_DT) with ht_def
  have hEb : E.balls = [] := by rw [hE_def]; exact rfl
  have hEp : E.pickups = [pickupW] := by rw [hE_def]; exact rfl
  have hpd_pick : (playingPhysicsDone E SIM_DT tW).pickups = [pickupW] := by
    rw [playingPhysicsDone_pickups_nil E SIM_DT tW hEb, hEp]
  set P := updatePickup (Vec2.mk
      (Real.cos (playingPhysicsDone E SIM_DT tW).paddle.theta * PADDLE_RADIUS)
      (Real.sin (playingPhysicsDone E SIM_DT tW).paddle.theta * PADDLE_RADIUS))
    SIM_DT pickupW with hP_def
  have hup : (updatePickupsStage (playingPhysicsDone E SIM_DT tW) SIM_DT).pickups = [P] := by
    show (playingPhysicsDone E SIM_DT tW).pickups.map (updatePickup (Vec2.mk
        (Real.cos (playingPhysicsDone E SIM_DT tW).paddle.theta * PADDLE_RADIUS)
        (Real.sin (playingPhysicsDone E SIM_DT tW).paddle.theta * PADDLE_RADIUS))
      SIM_DT) = [P]
    rw [hpd_pick]
    rfl
  have hPpos : P.pos = Vec2.mk 300 0 := by
    rw [hP_def, updatePickup_pos]
    show Vec2.mk 300 0 + Vec2.mk 0 0 * SIM_DT = Vec2.mk 300 0
    rw [Vec2.mulR_def, Vec2.add_def, Vec2.ext_iff]
    constructor <;> · dsimp only; ring
  have hPlen : P.pos.length = 300 := by
    rw [hPpos]
    show Real.sqrt ((300 : ℝ) * 300 + 0 * 0) = 300
    rw [show (300 : ℝ) * 300 + 0 * 0 = 300 ^ 2 by norm_num]
    exact Real.sqrt_sq (by norm_num)
  have hcoll : ((collectPickupsStage
      (updatePickupsStage (playingPhysicsDone E SIM_DT tW) SIM_DT)).1).pickups = [P] := by
    show (collectPickups
        (updatePickupsStage (playingPhysicsDone E SIM_DT tW) SIM_DT).paddle
        (updatePickupsStage (playingPhysicsDone E SIM_DT tW) SIM_DT).pickups).1 = [P]
    rw [hup, collectPickups_singleton_keep _ P
      (by rw [hPlen]; norm_num [PADDLE_RADIUS, PADDLE_THICKNESS])
      (by rw [hPlen]; norm_num [BLACK_HOLE_RADIUS])]
  have hMpick : (playingPreLife E SIM_DT tW).pickups = [P] := by
    rw [playingPreLife_pickups_eq, hcoll]
  have hstep : playingStep E SIM_DT tW =
      waveClearStage (lifeLossStage (playingPreLife E SIM_DT tW)) := rfl
  refine ⟨P, ?_, rfl, rfl, rfl⟩
  rw [hstep]
  unfold GameState.normalize_order
  dsimp only
  rw [waveClearStage_pickups, lifeLossStage_pickups, hMpick]
  rfl

/-!  ## C8: destruction scoring  -/

theorem listModify_getElem (l : List α) (i : ℕ) (f : α → α) :
    (listModify l i f)[i]? = l[i]?.map f := by
  induction l generalizing i with
  | nil => cases i <;> simp [listModify]
  | cons a rest ih =>
    cases i with
    | zero =>
      show (f a :: rest)[0]? = ((a :: rest)[0]?).map f
      rw [List.getElem?_cons_zero, List.getElem?_cons_zero]
      rfl
    | succ n =>
      show (a :: listModify rest n f)[n + 1]? = (a :: rest)[n + 1]?.map f
      rw [List.getElem?_cons_succ, List.getElem?_cons_succ]
      exact ih n

theorem trigger_wobble_hp (b : Block) : b.trigger_wobble.hp = b.hp := by
  unfold Block.trigger_wobble
  split <;> rfl

theorem trigger_wobble_kind (b : Block) : b.trigger_wobble.kind = b.kind := by
  unfold Block.trigger_wobble
  split <;> rfl

theorem eraseIdx_listModify (l : List α) (i : ℕ) (f : α → α) :
    (listModify l i f).eraseIdx i = l.eraseIdx i := by
  induction l generalizing i with
  | nil => cases i <;> rfl
  | cons a rest ih =>
    cases i with
    | zero => rfl
    | succ n =>
      show a :: (listModify rest n f).eraseIdx n = a :: rest.eraseIdx n
      rw [ih n]

theorem mem_of_mem_eraseIdx (l : List α) (i : ℕ) (b : α) (h : b ∈ l.eraseIdx i) :
    b ∈ l := by
  induction l generalizing i with
  | nil => exact absurd h (List.not_mem_nil b)
  | cons a rest ih =>
    cases i with
    | zero =>
      rw [List.eraseIdx_cons_zero] at h
      exact List.mem_cons_of_mem a h
    | succ n =>
      rw [List.eraseIdx_cons_succ] at h
      rcases List.mem_cons.mp h with rfl | h2
      · exact List.mem_cons_self _ _
      · exact List.mem_cons_of_mem a (ih n h2)

theorem if_false_and {P : Prop} [Decidable ((false = true) ∧ P)] {α : Sort v}
    (x y : α) : (if (false = true) ∧ P then x else y) = y :=
  if_neg (fun h => Bool.noConfusion h.1)

theorem neighborPass_false_snd (m r : ℝ) (n : ℕ) (L : List Block) :
    (neighborPass m r false n L).2 = [] := by
  induction L generalizing n with
  | nil => rfl
  | cons a rest ih =>
    simp only [neighborPass]
    rw [if_false_and]
    exact ih (n + 1)

theorem neighborPass_false_hpkind (m r : ℝ) (n : ℕ) (L : List Block) :
    (neighborPass m r false n L).1.map (fun b => (b.hp, b.kind)) =
      L.map (fun b => (b.hp, b.kind)) := by
  induction L generalizing n with
  | nil => rfl
  | cons a rest ih =>
    simp only [neighborPass]
    rw [if_false_and]
    simp only [List.map_cons]
    rw [ih (n + 1)]
    congr 1
    split_ifs <;> rfl

theorem sum_if_hp_blocks (L : List Block) :
    (∀ b ∈ L, 0 < b.hp) →
    (L.map (fun b => if b.hp = 0 then explosionBaseScore b.kind else 0)).sum = 0 := by
  induction L with
  | nil => intro _; rfl
  | cons a rest ih =>
    intro h
    simp only [List.map_cons, List.sum_cons]
    rw [if_neg (by have := h a (List.mem_cons_self a rest); omega),
      ih (fun b hb => h b (List.mem_cons_of_mem a hb))]

theorem neighborPass_false_explosion_sum (m r : ℝ) (n : ℕ) (L : List Block)
    (h : ∀ b ∈ L, 0 < b.hp) :
    ((neighborPass m r false n L).1.map
      (fun b => if b.hp = 0 then explosionBaseScore b.kind else 0)).sum = 0 := by
  have h1 : (neighborPass m r false n L).1.map
      (fun b => if b.hp = 0 then explosionBaseScore b.kind else 0) =
      ((neighborPass m r false n L).1.map (fun b => (b.hp, b.kind))).map
        (fun q => if q.1 = 0 then explosionBaseScore q.2 else 0) := by
    rw [List.map_map]
    rfl
  rw [h1, neighborPass_false_hpkind, List.map_map]
  exact sum_if_hp_blocks L h

/-- C8: destroying a non-Explosive block whose hit points reach zero (in
an environment where every block still stands) adds to the score exactly
the block kind's base score times the capped combo multiplier
`min(1 + 0.1 (combo − 1), 3)` (1 when combo ≤ 1), truncated to an
integer. -/
theorem destruction_score_spec (t : ℕ) (env : PhysEnv) (idx : ℕ) (b0 : Block)
    (hidx : env.blocks[idx]? = some b0) (hhp : b0.hp = 1)
    (hkind : b0.kind ≠ BlockKind.Explosive)
    (hall : ∀ b ∈ env.blocks, 0 < b.hp) :
    (applyDamageEntry t env idx).score =
      env.score + (⌊(baseScore b0.kind : ℝ) * comboMultiplier env.combo⌋).toNat ∧
    (env.combo ≤ 1 → comboMultiplier env.combo = 1) ∧
    (1 < env.combo →
      comboMultiplier env.combo = min (1 + ((env.combo - 1 : ℕ) : ℝ) * 0.1) 3) := by
  refine ⟨?_, ?_, ?_⟩
  · unfold applyDamageEntry
    dsimp only
    have hget2 : (listModify (listModify env.blocks idx Block.trigger_wobble) idx
        (fun b => { b with hp := b.hp - 1 }))[idx]? =
        some { b0.trigger_wobble with hp := b0.trigger_wobble.hp - 1 } := by
      rw [listModify_getElem, listModify_getElem, hidx]
      rfl
    rw [hget2]
    dsimp only
    have hc_hp : ({ b0.trigger_wobble with hp := b0.trigger_wobble.hp - 1 } : Block).hp
        = 0 := by
      show b0.trigger_wobble.hp - 1 = 0
      rw [trigger_wobble_hp, hhp]
    rw [if_pos hc_hp]
    dsimp only
    have hc_kind : ({ b0.trigger_wobble with hp := b0.trigger_wobble.hp - 1 } : Block).kind
        = b0.kind := trigger_wobble_kind b0
    have hdec : decide
        (({ b0.trigger_wobble with hp := b0.trigger_wobble.hp - 1 } : Block).kind =
          BlockKind.Explosive) = false := by
      rw [hc_kind]
      exact decide_eq_false hkind
    rw [hdec]
    rw [neighborPass_false_snd]
    simp only [List.reverse_nil, List.foldl_nil]
    have herased : ∀ b ∈ (listModify (listModify env.blocks idx Block.trigger_wobble) idx
        (fun b => { b with hp := b.hp - 1 })).eraseIdx idx, 0 < b.hp := by
      intro b hb
      rw [eraseIdx_listModify, eraseIdx_listModify] at hb
      exact hall b (mem_of_mem_eraseIdx _ _ _ hb)
    rw [neighborPass_false_explosion_sum _ _ _ _ herased, hc_kind, Nat.add_zero]
  · intro h
    unfold comboMultiplier
    rw [if_neg (by omega)]
  · intro h
    unfold comboMultiplier
    rw [if_pos h]

/-- C8 witness: a Glass block at index 0 with 1 hp, destroyed at combo 5. -/
theorem destruction_score_spec_witness :
    (envC8.blocks[0]? = some glassBlockW ∧ glassBlockW.hp = 1 ∧
      glassBlockW.kind ≠ BlockKind.Explosive ∧ ∀ b ∈ envC8.blocks, 0 < b.hp) ∧
    ((applyDamageEntry 0 envC8 0).score =
      envC8.score + (⌊(baseScore glassBlockW.kind : ℝ) * comboMultiplier envC8.combo⌋).toNat ∧
      (envC8.combo ≤ 1 → comboMultiplier envC8.combo = 1) ∧
      (1 < envC8.combo → comboMultiplier envC8.combo =
        min (1 + ((envC8.combo - 1 : ℕ) : ℝ) * 0.1) 3)) :=
  ⟨⟨rfl, rfl, by decide, by decide⟩,
    destruction_score_spec 0 envC8 0 glassBlockW rfl rfl (by decide) (by decide)⟩

/-!  ## C9: collections sorted by id  -/

theorem foldl_inv {β : Type u} {σ : Type v} (P : σ → Prop) (f : σ → β → σ)
    (hf : ∀ (x : σ) (b : β), P x → P (f x b)) :
    ∀ (L : List β) (x : σ), P x → P (L.foldl f x) := by
  intro L
  induction L with
  | nil => intro x hx; exact hx
  | cons a l ih => intro x hx; exact ih (f x a) (hf x a hx)

theorem sorted_of_length_le_one {α : Type u} {r : α → α → Prop} (l : List α)
    (h : l.length ≤ 1) : l.Sorted r := by
  match l with
  | [] => exact List.sorted_nil
  | [a] => exact List.sorted_singleton a
  | a :: b :: t => simp at h

theorem ite_prop {c : Prop} [Decidable c] {α : Sort v} (P : α → Prop) (a b : α)
    (ha : P a) (hb : P b) : P (if c then a else b) := by
  split
  · exact ha
  · exact hb

theorem blocksOrd_append (s : GameState) (b : Block) (h : blocksOrd s)
    (hid : b.id = s.next_id) :
    blocksOrd { s with blocks := s.blocks ++ [b], next_id := s.next_id + 1 } := by
  constructor
  · refine List.pairwise_append.mpr ⟨h.1, List.pairwise_singleton _ _, ?_⟩
    intro a ha c hc
    rcases List.mem_singleton.mp hc with rfl
    rw [hid]
    exact Nat.le_of_lt (h.2 a ha)
  · intro c hc
    rcases List.mem_append.mp hc with hc | hc
    · exact Nat.lt_succ_of_lt (h.2 c hc)
    · rcases List.mem_singleton.mp hc with rfl
      rw [hid]
      exact Nat.lt_succ_self _

theorem genSlot_blocksOrd {wave : ℕ} {jm : Bool} {layer ls nb : ℕ} {pk : Bool}
    {rs rad ba : ℝ} {me mc mm mg mp : ℕ} (st : WaveGenAcc × ℝ × ℕ) (i : ℕ)
    (h : blocksOrd st.1.s) :
    blocksOrd (genSlot wave jm layer ls nb pk rs rad ba me mc mm mg mp st i).1.s := by
  unfold genSlot GameState.next_entity_id
  dsimp only
  exact ite_prop (fun z : WaveGenAcc × ℝ × ℕ => blocksOrd z.1.s) _ _ h
    (blocksOrd_append st.1.s _ h rfl)

theorem genLayer_blocksOrd {wave ws : ℕ} {jm : Bool} {me mc mm mg mp : ℕ} {rad : ℝ}
    (acc : WaveGenAcc) (layer : ℕ) (h : blocksOrd acc.s) :
    blocksOrd (genLayer wave ws jm me mc mm mg mp rad acc layer).s := by
  unfold genLayer
  dsimp only
  exact foldl_inv (fun st : WaveGenAcc × ℝ × ℕ => blocksOrd st.1.s) _
    (fun st i hst => genSlot_blocksOrd st i hst) _ _ h

theorem generate_wave_blocksOrd (s : GameState) (h : blocksOrd s) :
    blocksOrd (generate_wave s) := by
  unfold generate_wave
  dsimp only
  exact foldl_inv (fun acc : WaveGenAcc => blocksOrd acc.s) _
    (fun acc layer hacc => genLayer_blocksOrd acc layer hacc) _ _ h

theorem generate_wave_frame (s : GameState) :
    (generate_wave s).balls = s.balls ∧ (generate_wave s).pickups = s.pickups := by
  unfold generate_wave
  dsimp only
  refine foldl_inv (fun acc : WaveGenAcc => acc.s.balls = s.balls ∧ acc.s.pickups = s.pickups)
    _ (fun acc layer hacc => ?_) _ _ ⟨rfl, rfl⟩
  unfold genLayer
  dsimp only
  refine foldl_inv (fun st : WaveGenAcc × ℝ × ℕ =>
      st.1.s.balls = s.balls ∧ st.1.s.pickups = s.pickups) _ (fun st i hst => ?_) _ _ hacc
  unfold genSlot GameState.next_entity_id
  dsimp only
  exact ite_prop (fun z : WaveGenAcc × ℝ × ℕ =>
    z.1.s.balls = s.balls ∧ z.1.s.pickups = s.pickups) _ _ hst hst

theorem spawn_ball_attached_balls (s : GameState) :
    ∃ b : Ball, s.spawn_ball_attached.balls = s.balls ++ [b] := ⟨_, rfl⟩

theorem spawn_ball_attached_blocks (s : GameState) :
    s.spawn_ball_attached.blocks = s.blocks := rfl

theorem spawn_ball_attached_pickups (s : GameState) :
    s.spawn_ball_attached.pickups = s.pickups := rfl

theorem wellOrdered_normalize (x : GameState) : WellOrdered x.normalize_order := by
  unfold WellOrdered GameState.normalize_order
  dsimp only
  exact ⟨List.sorted_insertionSort _ _, List.sorted_insertionSort _ _,
    List.sorted_insertionSort _ _⟩

set_option maxHeartbeats 1000000 in
theorem wellOrdered_skipWave (x : GameState)
    (hp : x.pickups.Sorted (fun a b : Pickup => a.id ≤ b.id)) :
    WellOrdered (skipWaveStage x) := by
  unfold skipWaveStage
  dsimp only
  set s0 : GameState := { x with
    blocks := []
    balls := []
    wave_index := x.wave_index + 1
    breather_ticks := 0 } with hs0
  have hgw := generate_wave_frame s0
  have hgw_blocks := generate_wave_blocksOrd s0
    ⟨List.sorted_nil, fun b hb => absurd hb (List.not_mem_nil b)⟩
  obtain ⟨b, hb⟩ := spawn_ball_attached_balls (generate_wave s0)
  refine ⟨?_, ?_, ?_⟩
  · show List.Sorted _ ((generate_wave s0).spawn_ball_attached).balls
    rw [hb, hgw.1]
    exact List.sorted_singleton b
  · show List.Sorted _ ((generate_wave s0).spawn_ball_attached).blocks
    rw [spawn_ball_attached_blocks]
    exact hgw_blocks.1
  · show List.Sorted _ ((generate_wave s0).spawn_ball_attached).pickups
    rw [spawn_ball_attached_pickups, hgw.2]
    exact hp

theorem wellOrdered_tick (s : GameState) (input : TickInput) (dt : ℝ)
    (h : WellOrdered s) : WellOrdered (tick s input dt) := by
  unfold tick
  dsimp only
  by_cases hc1 : input.pause = true ∧ (s.phase = GamePhase.Playing ∨ s.phase = GamePhase.Serve)
  · rw [if_pos hc1]
    exact h
  · rw [if_neg hc1]
    set z : GameState := if input.pause = true ∧ s.phase = GamePhase.Paused then
        { s with phase := if s.balls.any Ball.isAttached then GamePhase.Serve
          else GamePhase.Playing }
      else s with hz_def
    have hzp : z.pickups = s.pickups := by rw [hz_def]; split <;> rfl
    have hzw : WellOrdered z := by rw [hz_def]; split <;> exact h
    by_cases hc3 : z.phase = GamePhase.Paused ∨ z.phase = GamePhase.GameOver
    · rw [if_pos hc3]
      exact hzw
    · rw [if_neg hc3]
      by_cases hskip : (idleRewrite (decayVisualStage z) input).skip_wave = true
      · rw [if_pos hskip]
        apply wellOrdered_skipWave
        show List.Sorted _ (decayVisualStage z).pickups
        rw [decayVisualStage_pickups, hzp]
        exact h.2.2
      · rw [if_neg hskip]
        exact wellOrdered_normalize _

/-- C9: after `GameState::new` and after every `tick` — every input and
phase, the pause/Paused/GameOver early returns and the debug wave skip
included — the balls, blocks and pickups collections are each sorted in
increasing id order (as an invariant: a well-ordered state stays
well-ordered). -/
theorem collections_sorted_invariant (seed : ℕ) (s : GameState) (input : TickInput)
    (dt : ℝ) :
    WellOrdered (GameState.new seed) ∧
      (WellOrdered s → WellOrdered (tick s input dt)) := by
  constructor
  · refine ⟨?_, List.sorted_nil, List.sorted_nil⟩
    exact sorted_of_length_le_one _ (le_of_eq (rfl : (GameState.new seed).balls.length = 1))
  · exact fun h => wellOrdered_tick s input dt h

/-!  ## C10: the Electric speed boost escapes the speed clamp  -/

theorem length_eval (v : Vec2) : v.length = Real.sqrt (v.x * v.x + v.y * v.y) := rfl

theorem length_mk_abs (x : ℝ) : (Vec2.mk x 0).length = |x| := by
  rw [length_eval]
  dsimp only
  rw [show x * x + 0 * 0 = x ^ 2 by ring]
  exact Real.sqrt_sq_eq_abs x

theorem length_mul_scalar (v : Vec2) (c : ℝ) : (v * c).length = v.length * |c| := by
  rw [Vec2.mulR_def, length_eval, length_eval]
  dsimp only
  rw [show v.x * c * (v.x * c) + v.y * c * (v.y * c) = (v.x * v.x + v.y * v.y) * c ^ 2 by
    ring,
    Real.sqrt_mul (add_nonneg (mul_self_nonneg v.x) (mul_self_nonneg v.y)),
    Real.sqrt_sq_eq_abs]

theorem length_div_scalar (v : Vec2) {c : ℝ} (hc : 0 < c) :
    (v / c).length = v.length / c := by
  have hc' : c ≠ 0 := ne_of_gt hc
  rw [Vec2.divR_def, length_eval, length_eval]
  dsimp only
  rw [show v.x / c * (v.x / c) + v.y / c * (v.y / c) = (v.x * v.x + v.y * v.y) / c ^ 2 by
    rw [div_mul_div_comm, div_mul_div_comm, div_add_div_same]
    congr 1
    ring,
    Real.sqrt_div (add_nonneg (mul_self_nonneg v.x) (mul_self_nonneg v.y)),
    Real.sqrt_sq hc.le]

theorem length_nonneg (v : Vec2) : 0 ≤ v.length := Real.sqrt_nonneg _

theorem zero_length : Vec2.ZERO.length = 0 := by
  rw [length_eval]
  show Real.sqrt (0 * 0 + 0 * 0) = 0
  rw [show (0:ℝ) * 0 + 0 * 0 = 0 by ring, Real.sqrt_zero]

theorem length_normalize_or_zero_mul (v : Vec2) {c : ℝ} (hc : 0 ≤ c) :
    (v.normalize_or_zero * c).length ≤ c := by
  unfold Vec2.normalize_or_zero
  split
  · rw [length_mul_scalar, zero_length, zero_mul]
    exact hc
  · rename_i h
    have hpos : 0 < v.length := lt_of_le_of_ne (length_nonneg v) (Ne.symm h)
    rw [length_mul_scalar, length_div_scalar v hpos, div_self (ne_of_gt hpos), one_mul,
      abs_of_nonneg hc]

/-- The pre-substep clamp really caps the speed at `BALL_MAX_SPEED`. -/
theorem ballPreVel_le_max (blocks : List Block) (ball : Ball) (dt : ℝ) :
    (ballPreVel blocks ball dt).length ≤ BALL_MAX_SPEED := by
  unfold ballPreVel
  dsimp only
  split
  · exact le_trans (length_normalize_or_zero_mul _ (by norm_num [BALL_MIN_SPEED]))
      (by norm_num [BALL_MIN_SPEED, BALL_MAX_SPEED])
  · split
    · exact length_normalize_or_zero_mul _ (by norm_num [BALL_MAX_SPEED])
    · rename_i h1 h2
      exact le_of_not_lt h2

theorem arctan_lt_self {t : ℝ} (ht : 0 < t) : Real.arctan t < t := by
  have h0 : 0 < Real.arctan t := by
    have h := Real.arctan_strictMono ht
    rwa [Real.arctan_zero] at h
  have h2 := Real.lt_tan h0 (Real.arctan_lt_pi_div_two t)
  rwa [Real.tan_arctan] at h2

theorem atan2_zero_pos {x : ℝ} (hx : 0 < x) : atan2 0 x = 0 := by
  unfold atan2
  rw [if_pos hx, zero_div, Real.arctan_zero]

theorem atan2_one_pos {x : ℝ} (hx : 0 < x) : atan2 1 x = Real.arctan (1 / x) := by
  unfold atan2
  rw [if_pos hx]

theorem atan2_negone_pos {x : ℝ} (hx : 0 < x) : atan2 (-1) x = -Real.arctan (1 / x) := by
  unfold atan2
  rw [if_pos hx, neg_div, Real.arctan_neg]

theorem noz_axis {x : ℝ} (hx : 0 < x) :
    (Vec2.mk x 0).normalize_or_zero = Vec2.mk 1 0 := by
  unfold Vec2.normalize_or_zero
  rw [length_mk_abs, abs_of_pos hx, if_neg (ne_of_gt hx), Vec2.divR_def, Vec2.ext_iff]
  dsimp only
  exact ⟨div_self (ne_of_gt hx), zero_div x⟩

/-- Reduction of `sd_arc` to the in-band branch for the test arc
spanning [-1/2, 1/2] at radius 190, thickness 24, at any point whose
polar angle lies within the span. -/
theorem sd_arc_eval_inarc (p : Vec2) (a : ℝ) (hatan : atan2 p.y p.x = a)
    (ha1 : -(1/2 : ℝ) ≤ a) (ha2 : a ≤ 1/2) :
    sd_arc p (-(1/2)) (1/2) 190 24 = |p.length - 190| - 12 := by
  have hpi3 : (3:ℝ) < π := by
    have h := Real.pi_gt_three
    linarith
  have hTAU : TAU = 2 * π := rfl
  unfold sd_arc
  dsimp only
  rw [hatan]
  have hr1 : round ((a - -(1/2 : ℝ)) / TAU) = 0 := by
    rw [round_eq_zero_iff]
    constructor
    · have h1 : 0 ≤ (a - -(1/2 : ℝ)) / TAU := by
        apply div_nonneg (by linarith)
        rw [hTAU]
        positivity
      linarith
    · show (a - -(1/2 : ℝ)) / TAU < 1 / 2
      rw [hTAU, div_lt_iff (by positivity)]
      nlinarith
  have hr2 : round (((1/2 : ℝ) - -(1/2)) / TAU) = 0 := by
    rw [round_eq_zero_iff]
    constructor
    · have h1 : 0 ≤ ((1/2 : ℝ) - -(1/2)) / TAU := by
        apply div_nonneg (by norm_num)
        rw [hTAU]
        positivity
      linarith
    · show ((1/2 : ℝ) - -(1/2)) / TAU < 1 / 2
      rw [hTAU, div_lt_iff (by positivity)]
      nlinarith
  rw [hr1, hr2]
  simp only [Int.cast_zero, zero_mul, sub_zero]
  rw [if_neg (by norm_num : ¬((1/2 : ℝ) - -(1/2) ≤ 0)),
    if_neg (by linarith : ¬(a - -(1/2 : ℝ) < 0)),
    if_pos (by linarith : a - -(1/2 : ℝ) ≤ (1/2 : ℝ) - -(1/2))]
  norm_num

theorem sd_arc_onaxis {x : ℝ} (hx : 0 < x) :
    sd_arc (Vec2.mk x 0) (-(1/2)) (1/2) 190 24 = |x - 190| - 12 := by
  rw [sd_arc_eval_inarc (Vec2.mk x 0) 0
    (by show atan2 0 x = 0; exact atan2_zero_pos hx) (by norm_num) (by norm_num),
    length_mk_abs, abs_of_pos hx]

theorem sd_arc_offaxis_plus :
    sd_arc (Vec2.mk ((15893:ℝ)/80) 1) (-(1/2)) (1/2) 190 24 =
      |(Vec2.mk ((15893:ℝ)/80) 1).length - 190| - 12 := by
  have ha0 : 0 < Real.arctan (1 / ((15893:ℝ)/80)) := by
    have h := Real.arctan_strictMono (show (0:ℝ) < 1 / ((15893:ℝ)/80) by norm_num)
    rwa [Real.arctan_zero] at h
  have ha1 : Real.arctan (1 / ((15893:ℝ)/80)) < 1/2 :=
    lt_trans (arctan_lt_self (by norm_num)) (by norm_num)
  exact sd_arc_eval_inarc _ (Real.arctan (1 / ((15893:ℝ)/80)))
    (by show atan2 1 ((15893:ℝ)/80) = Real.arctan (1 / ((15893:ℝ)/80))
        exact atan2_one_pos (by norm_num))
    (by linarith) (by linarith)

theorem sd_arc_offaxis_minus :
    sd_arc (Vec2.mk ((15893:ℝ)/80) (-1)) (-(1/2)) (1/2) 190 24 =
      |(Vec2.mk ((15893:ℝ)/80) (-1)).length - 190| - 12 := by
  have ha0 : 0 < Real.arctan (1 / ((15893:ℝ)/80)) := by
    have h := Real.arctan_strictMono (show (0:ℝ) < 1 / ((15893:ℝ)/80) by norm_num)
    rwa [Real.arctan_zero] at h
  have ha1 : Real.arctan (1 / ((15893:ℝ)/80)) < 1/2 :=
    lt_trans (arctan_lt_self (by norm_num)) (by norm_num)
  exact sd_arc_eval_inarc _ (-Real.arctan (1 / ((15893:ℝ)/80)))
    (by show atan2 (-1) ((15893:ℝ)/80) = -Real.arctan (1 / ((15893:ℝ)/80))
        exact atan2_negone_pos (by norm_num))
    (by linarith) (by linarith)

theorem mk_add_mk (a b c d : ℝ) : Vec2.mk a b + Vec2.mk c d = Vec2.mk (a + c) (b + d) := rfl

theorem mk_sub_mk (a b c d : ℝ) : Vec2.mk a b - Vec2.mk c d = Vec2.mk (a - c) (b - d) := rfl

theorem mk_mulR (a b c : ℝ) : Vec2.mk a b * c = Vec2.mk (a * c) (b * c) := rfl

theorem mk_dot (a b c d : ℝ) : (Vec2.mk a b).dot (Vec2.mk c d) = a * c + b * d := rfl

theorem mk_eq_mk {a b c d : ℝ} (h1 : a = c) (h2 : b = d) : Vec2.mk a b = Vec2.mk c d := by
  rw [h1, h2]

theorem reflect_mk :
    reflect_velocity (Vec2.mk (-321 : ℝ) 0) (Vec2.mk 1 0) = Vec2.mk 321 0 := by
  unfold reflect_velocity
  rw [mk_dot, Vec2.rMul_def]
  dsimp only
  rw [mk_sub_mk]
  exact mk_eq_mk (by norm_num) (by norm_num)

theorem sd_mid_eval :
    sd_arc (Vec2.mk ((15893:ℝ)/80) 0) (-(1/2)) (1/2) 190 24 = -(267/80) := by
  rw [sd_arc_onaxis (by norm_num : (0:ℝ) < 15893/80),
    abs_of_nonneg (by norm_num : (0:ℝ) ≤ (15893:ℝ)/80 - 190)]
  norm_num

theorem sd_px_eval :
    sd_arc (Vec2.mk ((15973:ℝ)/80) 0) (-(1/2)) (1/2) 190 24 = -(187/80) := by
  rw [sd_arc_onaxis (by norm_num : (0:ℝ) < 15973/80),
    abs_of_nonneg (by norm_num : (0:ℝ) ≤ (15973:ℝ)/80 - 190)]
  norm_num

theorem sd_mx_eval :
    sd_arc (Vec2.mk ((15813:ℝ)/80) 0) (-(1/2)) (1/2) 190 24 = -(347/80) := by
  rw [sd_arc_onaxis (by norm_num : (0:ℝ) < 15813/80),
    abs_of_nonneg (by norm_num : (0:ℝ) ≤ (15813:ℝ)/80 - 190)]
  norm_num

theorem sd_far_eval :
    sd_arc (Vec2.mk ((13643:ℝ)/64) 0) (-(1/2)) (1/2) 190 24 = 715/64 := by
  rw [sd_arc_onaxis (by norm_num : (0:ℝ) < 13643/64),
    abs_of_nonneg (by norm_num : (0:ℝ) ≤ (13643:ℝ)/64 - 190)]
  norm_num

theorem len_updown_eq :
    (Vec2.mk ((15893:ℝ)/80) 1).length = (Vec2.mk ((15893:ℝ)/80) (-1)).length := by
  rw [length_eval, length_eval]
  dsimp only
  congr 1
  ring

/-- One sub-step scan through the Electric block: the ball is inside the
band, reflects off the outer face, takes damage credit and the 1.25×
Electric speed boost — with no re-clamp. -/
theorem blockScanC10_hit (bid t : ℕ) (sh : ℝ) :
    blockScan [blockC10] bid 8 false t (mkBlockArcs [blockC10])
      ⟨Vec2.mk ((15893:ℝ)/80) 0, Vec2.mk (-321) 0, BallState.Free, [], 0, sh, 0⟩ =
      ⟨Vec2.mk ((423:ℝ)/2) 0, Vec2.mk ((1605:ℝ)/4) 0, BallState.Free, [0], 1,
        min (sh + 0.15) 1, 1⟩ := by
  rw [show mkBlockArcs [blockC10] =
    [(⟨0, 3, -(1/2), 1/2, 190, 24, BlockKind.Electric⟩ : BlockArcInfo)] from rfl]
  simp only [blockScan]
  dsimp only
  rw [show Vec2.mk ((15893:ℝ)/80) 0 + Vec2.mk 1 0 = Vec2.mk ((15973:ℝ)/80) 0 from by
      rw [mk_add_mk]; exact mk_eq_mk (by norm_num) (by norm_num),
    show Vec2.mk ((15893:ℝ)/80) 0 - Vec2.mk 1 0 = Vec2.mk ((15813:ℝ)/80) 0 from by
      rw [mk_sub_mk]; exact mk_eq_mk (by norm_num) (by norm_num),
    show Vec2.mk ((15893:ℝ)/80) 0 + Vec2.mk 0 1 = Vec2.mk ((15893:ℝ)/80) 1 from by
      rw [mk_add_mk]; exact mk_eq_mk (by norm_num) (by norm_num),
    show Vec2.mk ((15893:ℝ)/80) 0 - Vec2.mk 0 1 = Vec2.mk ((15893:ℝ)/80) (-1) from by
      rw [mk_sub_mk]; exact mk_eq_mk (by norm_num) (by norm_num)]
  rw [sd_mid_eval, sd_px_eval, sd_mx_eval, sd_arc_offaxis_plus, sd_arc_offaxis_minus,
    len_updown_eq, sub_self,
    show (-(187/80 : ℝ)) - -(347/80) = 2 from by norm_num,
    show (Vec2.mk (2:ℝ) 0).normalize_or_zero = Vec2.mk 1 0 from noz_axis (by norm_num),
    mk_dot, reflect_mk,
    if_pos (show ((-321:ℝ) * 1 + 0 * 0 < 0) from by norm_num)]
  dsimp only
  rw [show Vec2.mk ((15893:ℝ)/80) 0 + Vec2.mk 1 0 * ((8:ℝ) - -(267/80) + 1.5) =
      Vec2.mk ((423:ℝ)/2) 0 from by
      rw [mk_mulR, mk_add_mk]; exact mk_eq_mk (by norm_num) (by norm_num)]
  simp only [if_true]
  rw [show Vec2.mk (321:ℝ) 0 * (1.25 : ℝ) = Vec2.mk ((1605:ℝ)/4) 0 from by
    rw [mk_mulR]; exact mk_eq_mk (by norm_num) (by norm_num)]
  split_ifs <;> first
    | rfl
    | (exfalso; norm_num at *; done)
    | (exfalso; simp_all [BlockKind.isPortal, blockC10]; done)
    | (exfalso; simp_all [BlockKind.isPortal, blockC10]; norm_num at *; done)

/-- The second sub-step scan: at distance 13643/64 from the centre the
signed distance to the block band is 715/64 ≥ 8, so nothing happens. -/
theorem blockScanC10_miss (bid t : ℕ) (sh : ℝ) :
    blockScan [blockC10] bid 8 false t (mkBlockArcs [blockC10])
      ⟨Vec2.mk ((13643:ℝ)/64) 0, Vec2.mk ((1605:ℝ)/4) 0, BallState.Free, [0], 1,
        min (sh + 0.15) 1, 1⟩ =
      ⟨Vec2.mk ((13643:ℝ)/64) 0, Vec2.mk ((1605:ℝ)/4) 0, BallState.Free, [0], 1,
        min (sh + 0.15) 1, 1⟩ := by
  rw [show mkBlockArcs [blockC10] =
    [(⟨0, 3, -(1/2), 1/2, 190, 24, BlockKind.Electric⟩ : BlockArcInfo)] from rfl]
  simp only [blockScan]
  dsimp only
  rw [sd_far_eval]
  split_ifs <;> first
    | rfl
    | (exfalso; norm_num at *; done)
    | (exfalso; simp_all [BlockKind.isPortal, blockC10]; done)
    | (exfalso; simp_all [BlockKind.isPortal, blockC10]; norm_num at *; done)

/-- Both sub-steps of the boosted ball: move, no wall contact, Electric
hit with 1.25× boost, move again, no second contact. -/
theorem substepIterC10 (bid t : ℕ) (sh : ℝ) :
    substepIter [blockC10] (mkBlockArcs [blockC10]) bid 8 false t 400 (1/240) 2
      ⟨Vec2.mk 200 0, Vec2.mk (-321) 0, BallState.Free, [], 0, sh, 0⟩ =
      ⟨Vec2.mk ((13643:ℝ)/64) 0, Vec2.mk ((1605:ℝ)/4) 0, BallState.Free, [0], 1,
        min (sh + 0.15) 1, 1⟩ := by
  show substepIter [blockC10] (mkBlockArcs [blockC10]) bid 8 false t 400 (1/240)
    (Nat.succ (Nat.succ 0))
    ⟨Vec2.mk 200 0, Vec2.mk (-321) 0, BallState.Free, [], 0, sh, 0⟩ = _
  simp only [substepIter]
  rw [show Vec2.mk (200:ℝ) 0 + Vec2.mk (-321) 0 * ((1:ℝ)/240) = Vec2.mk ((15893:ℝ)/80) 0
      from by rw [mk_mulR, mk_add_mk]; exact mk_eq_mk (by norm_num) (by norm_num),
    if_neg (show ¬(-(8:ℝ) < (Vec2.mk ((15893:ℝ)/80) 0).length - 400) from by
      rw [length_mk_abs, abs_of_nonneg (by norm_num : (0:ℝ) ≤ 15893/80)]; norm_num),
    blockScanC10_hit,
    show Vec2.mk ((423:ℝ)/2) 0 + Vec2.mk ((1605:ℝ)/4) 0 * ((1:ℝ)/240) =
      Vec2.mk ((13643:ℝ)/64) 0 from by
      rw [mk_mulR, mk_add_mk]; exact mk_eq_mk (by norm_num) (by norm_num),
    if_neg (show ¬(-(8:ℝ) < (Vec2.mk ((13643:ℝ)/64) 0).length - 400) from by
      rw [length_mk_abs, abs_of_nonneg (by norm_num : (0:ℝ) ≤ 13643/64)]; norm_num),
    blockScanC10_miss]

/-- The pre-move velocity of the C10 ball: gravity adds exactly
(-1, 0) at distance 200 and dt = 1/120, the Electric block exerts no
magnet force, and the resulting speed 321 passes the [150, 400] clamp
untouched. -/
theorem ballPreVelC10 : ballPreVel [blockC10] ballC10 SIM_DT = Vec2.mk (-321) 0 := by
  unfold ballPreVel
  rw [show ballC10.pos = Vec2.mk 200 0 from rfl, show ballC10.vel = Vec2.mk (-320) 0 from rfl]
  dsimp only
  rw [show (Vec2.mk (200:ℝ) 0).length = 200 from by
      rw [length_mk_abs]; exact abs_of_nonneg (by norm_num),
    noz_axis (by norm_num : (0:ℝ) < 200),
    show max (200:ℝ) 50 = 200 from max_eq_left (by norm_num),
    show min ((200:ℝ)/200) 4 = 1 from by
      rw [show (200:ℝ)/200 = 1 from by norm_num]; exact min_eq_left (by norm_num),
    show -(Vec2.mk (1:ℝ) 0) = Vec2.mk (-1) 0 from by
      show Vec2.mk (-(1:ℝ)) (-(0:ℝ)) = Vec2.mk (-1) 0
      exact mk_eq_mk rfl neg_zero,
    show Vec2.mk (-1:ℝ) 0 * BLACK_HOLE_GRAVITY * (1:ℝ) * SIM_DT = Vec2.mk (-1) 0 from by
      rw [mk_mulR, mk_mulR, mk_mulR]
      exact mk_eq_mk (by norm_num [BLACK_HOLE_GRAVITY, SIM_DT])
        (by norm_num [BLACK_HOLE_GRAVITY, SIM_DT]),
    show Vec2.mk (-320:ℝ) 0 + Vec2.mk (-1) 0 = Vec2.mk (-321) 0 from by
      rw [mk_add_mk]; exact mk_eq_mk (by norm_num) (by norm_num),
    List.foldl_cons, List.foldl_nil,
    show magnetForce [blockC10] (Vec2.mk (200:ℝ) 0) SIM_DT (Vec2.mk (-321) 0) blockC10 =
      Vec2.mk (-321) 0 from by
      unfold magnetForce
      rw [if_neg (show ¬(blockC10.kind = BlockKind.Magnet) from
        fun h => BlockKind.noConfusion h)],
    show (Vec2.mk (-321:ℝ) 0).length = 321 from by rw [length_mk_abs]; norm_num,
    if_neg (show ¬((321:ℝ) < BALL_MIN_SPEED) from by norm_num [BALL_MIN_SPEED]),
    if_neg (show ¬(BALL_MAX_SPEED < (321:ℝ)) from by norm_num [BALL_MAX_SPEED])]

/-- The sub-step set-up for the C10 ball: 2 sub-steps of 1/240 s each. -/
theorem ballSubstepsC10 (t : ℕ) (sh : ℝ) :
    ballSubsteps [blockC10] ballC10 t 400 SIM_DT (Vec2.mk 200 0) (Vec2.mk (-321) 0) 0 sh 0 =
      ⟨Vec2.mk ((13643:ℝ)/64) 0, Vec2.mk ((1605:ℝ)/4) 0, BallState.Free, [0], 1,
        min (sh + 0.15) 1, 1⟩ := by
  unfold ballSubsteps
  dsimp only
  rw [show (Vec2.mk (-321:ℝ) 0).length = 321 from by rw [length_mk_abs]; norm_num,
    show ballC10.radius = 8 from rfl, show ballC10.id = 2 from rfl,
    show ballC10.piercing = false from rfl,
    show (321:ℝ) * SIM_DT / (8 * 0.3) = 107/96 from by norm_num [SIM_DT],
    show ⌈(107:ℝ)/96⌉ = 2 from by
      rw [Int.ceil_eq_iff]; constructor <;> norm_num,
    show ((2:ℤ)).toNat = 2 from rfl,
    show max 1 (min 2 20) = 2 from rfl,
    show SIM_DT / ((2:ℕ):ℝ) = 1/240 from by norm_num [SIM_DT]]
  exact substepIterC10 2 t sh

/-- The deferred damage entry for the C10 hit: the Electric block drops
from 2 hp to 1 hp and survives, so no scoring or spawning occurs. -/
theorem applyDamageEntryC10 (t sc : ℕ) (sh2 : ℝ) (pk : List (PickupKind × Vec2)) :
    applyDamageEntry t ⟨[blockC10], 1, sc, sh2, pk⟩ 0 =
      ⟨[{ blockC10 with hp := 1 }], 1, sc, sh2, pk⟩ := by
  unfold applyDamageEntry
  dsimp only
  rw [show listModify [blockC10] 0 Block.trigger_wobble = [blockC10] from by
      unfold listModify Block.trigger_wobble
      rw [if_neg (show ¬(blockC10.kind = BlockKind.Jello) from
        fun h => BlockKind.noConfusion h)],
    show listModify [blockC10] 0 (fun b => { b with hp := b.hp - 1 }) =
      [{ blockC10 with hp := 1 }] from rfl,
    show ([{ blockC10 with hp := 1 }] : List Block)[0]? =
      some ({ blockC10 with hp := 1 } : Block) from rfl]
  dsimp only
  rw [if_neg (show ¬(({ blockC10 with hp := 1 } : Block).hp = 0) from by decide)]

/-- No electric arc jumps to the ball: the block list after damage holds
a single Electric block, and arcs need a same-ring pair. -/
theorem electricArcHitC10 :
    electricArcHit (Vec2.mk ((13643:ℝ)/64) 0) [{ blockC10 with hp := 1 }] = false := by
  simp [electricArcHit, electricScanInner]

/-- The whole per-ball body for the C10 ball: paddle checks are skipped
(cooldown 5 → 4), the sub-steps hit the Electric block once, and the
final velocity (1605/4, 0) is written back with no further clamp. -/
theorem processBallC10 (paddle : Paddle) (pa : ArcSegment) (t sc : ℕ) (sh : ℝ)
    (pk : List (PickupKind × Vec2)) :
    processBall paddle pa 400 t SIM_DT ⟨[blockC10], 0, sc, sh, pk⟩ ballC10 =
      ({ ballC10 with
          pos := Vec2.mk ((13643:ℝ)/64) 0
          vel := Vec2.mk ((1605:ℝ)/4) 0
          state := BallState.Free
          paddle_cooldown := 4
          electric_charge := max (1 - SIM_DT / 3) 0 },
        ⟨[{ blockC10 with hp := 1 }], 1, sc, min (sh + 0.15) 1, pk⟩) := by
  unfold processBall
  rw [show ballC10.state = BallState.Free from rfl]
  dsimp only
  rw [show ballC10.paddle_cooldown = 5 from rfl, show (5:ℕ) - 1 = 4 from rfl]
  rw [if_neg (show ¬((4:ℕ) = 0) from by decide), if_neg (show ¬((4:ℕ) = 0) from by decide)]
  dsimp only
  rw [ballPreVelC10,
    show ballC10.pos = Vec2.mk 200 0 from rfl,
    show ballC10.electric_charge = 0 from rfl,
    ballSubstepsC10]
  dsimp only
  rw [show ([0] : List ℕ).reverse = [0] from rfl, List.foldl_cons, List.foldl_nil,
    applyDamageEntryC10]
  dsimp only
  rw [electricArcHitC10]
  rw [if_neg (show ¬(false = true) from Bool.noConfusion),
    if_neg (show ¬(false = true) from Bool.noConfusion),
    if_neg (show ¬(false = true) from Bool.noConfusion),
    if_pos (show (0:ℝ) < 1 from by norm_num)]

/-- The whole C10 tick: the standard Playing path, with the single ball
boosted past the speed cap and no later stage rescaling it. -/
theorem tickC10_eval :
    tick stateC10 TickInput.default SIM_DT = stateC10Final := by
  rw [tick_playing_eq stateC10 TickInput.default SIM_DT rfl rfl rfl]
  have hE : playingEntry stateC10 TickInput.default SIM_DT =
      { stateC10 with time_ticks := 101 } := by
    unfold playingEntry prePaddle idleRewrite decayVisualStage
    dsimp only
    rw [if_neg (show ¬(TickInput.default.idle_mode = true) from by decide)]
    rw [show TickInput.default.target_theta = (none : Option ℝ) from rfl]
    dsimp only
    rw [show stateC10.screen_shake = 0 from rfl, show stateC10.wave_flash = 0 from rfl,
      if_pos (show (0:ℝ) * 0.9 < 0.01 from by norm_num),
      if_pos (show (0:ℝ) * 0.95 < 0.01 from by norm_num)]
    rfl
  rw [hE, show ({ stateC10 with time_ticks := 101 } : GameState).time_ticks = 101 from rfl]
  have hrotB : Block.rotate blockC10 SIM_DT (((101:ℕ):ℝ) * SIM_DT) = blockC10 := by
    unfold Block.rotate
    dsimp only
    rw [if_neg (show ¬(blockC10.rotation_speed ≠ 0) from fun h => h rfl)]
    rw [if_neg (show ¬((0:ℝ) < blockC10.wobble) from by
      rw [show blockC10.wobble = 0 from rfl]; exact lt_irrefl 0)]
    rw [if_neg (show ¬(blockC10.kind = BlockKind.Ghost) from by decide)]
  have hA : rotateBlocksStage { stateC10 with time_ticks := 101 } SIM_DT
      (((101:ℕ):ℝ) * SIM_DT) = { stateC10 with time_ticks := 101 } := by
    unfold rotateBlocksStage
    rw [show ({ stateC10 with time_ticks := 101 } : GameState).blocks = [blockC10] from rfl,
      List.map_cons, List.map_nil, hrotB]
    rfl
  have hC : physicsStage { stateC10 with time_ticks := 101 } SIM_DT = (stateC10Mid, []) := by
    unfold physicsStage
    dsimp only
    rw [show ({ stateC10 with time_ticks := 101 } : GameState).blocks = [blockC10] from rfl,
      show ({ stateC10 with time_ticks := 101 } : GameState).combo = 0 from rfl,
      show ({ stateC10 with time_ticks := 101 } : GameState).score = 0 from rfl,
      show ({ stateC10 with time_ticks := 101 } : GameState).screen_shake = 0 from rfl,
      show ({ stateC10 with time_ticks := 101 } : GameState).balls = [ballC10] from rfl,
      show ({ stateC10 with time_ticks := 101 } : GameState).arena_radius = 400 from rfl]
    simp only [runBalls]
    rw [processBallC10]
    dsimp only
    rfl
  have hPW : paddleWidthStage stateC10Mid SIM_DT = stateC10Final := by
    unfold paddleWidthStage
    dsimp only
    rw [show stateC10Mid.effects.widen_stacks = 0 from rfl,
      if_neg (show ¬((0:ℕ) < 0) from by decide),
      show stateC10Mid.paddle = (⟨0, 1, 0, 0⟩ : Paddle) from rfl]
    dsimp only
    rw [show (0:ℝ) + (150 * (PADDLE_ARC_WIDTH - 1) - 8 * 0) * SIM_DT = 21/80 from by
      norm_num [PADDLE_ARC_WIDTH, SIM_DT]]
    rw [show (1:ℝ) + 21/80 * SIM_DT = 3207/3200 from by norm_num [SIM_DT]]
    rfl
  have hbb : blackHoleBall false (false, min ((0:ℝ) + 0.15) 1, 1) ballC10Final =
      (ballC10Final, (false, min ((0:ℝ) + 0.15) 1, 1)) := by
    unfold blackHoleBall
    rw [if_neg (show ¬(ballC10Final.isFree = true ∧
        ballC10Final.pos.length ≤ BLACK_HOLE_LOSS_RADIUS + ballC10Final.radius) from
      fun h => absurd h.2 (by
        rw [show ballC10Final.pos = Vec2.mk ((13643:ℝ)/64) 0 from rfl, length_mk_abs,
          abs_of_nonneg (by norm_num : (0:ℝ) ≤ 13643/64),
          show ballC10Final.radius = 8 from rfl]
        norm_num [BLACK_HOLE_LOSS_RADIUS]))]
  have hBH : blackHoleStage stateC10Final = stateC10Final := by
    unfold blackHoleStage
    dsimp only
    rw [show stateC10Final.effects.shield_active = false from rfl,
      show stateC10Final.balls = [ballC10Final] from rfl,
      show stateC10Final.screen_shake = min ((0:ℝ) + 0.15) 1 from rfl,
      show stateC10Final.combo = 1 from rfl]
    simp only [mapAccumBalls]
    rw [hbb]
    dsimp only
    rw [if_neg (show ¬(false = true) from by decide)]
    rfl
  unfold playingStep playingPreLife playingPhysicsDone
  dsimp only
  rw [hA]
  rw [show slidingStage { stateC10 with time_ticks := 101 } SIM_DT =
    { stateC10 with time_ticks := 101 } from rfl]
  rw [hC]
  dsimp only
  rw [show spawnPickupsStage stateC10Mid [] = stateC10Mid from rfl]
  rw [show updatePickupsStage stateC10Mid SIM_DT = stateC10Mid from rfl]
  rw [show collectPickupsStage stateC10Mid = (stateC10Mid, []) from rfl]
  dsimp only
  rw [show applyEffectsStage stateC10Mid [] = stateC10Mid from rfl]
  rw [show decayEffectsStage stateC10Mid = stateC10Mid from rfl]
  rw [show piercingSyncStage stateC10Mid = stateC10Mid from rfl]
  rw [hPW]
  rw [show slowStage stateC10Final = stateC10Final from rfl]
  rw [hBH]
  rw [show dyingStage stateC10Final SIM_DT = stateC10Final from rfl]
  have hRD : removeDeadStage stateC10Final = stateC10Final := by
    have halive : ballAlive ballC10Final := trivial
    have hdec : decide (ballAlive ballC10Final) = true := decide_eq_true halive
    unfold removeDeadStage
    rw [show stateC10Final.balls = [ballC10Final] from rfl, List.filter_cons]
    rw [hdec, if_pos rfl, List.filter_nil]
    rfl
  rw [hRD]
  rw [show lifeLossStage stateC10Final = stateC10Final from rfl]
  rw [show waveClearStage stateC10Final = stateC10Final from rfl]
  rw [show GameState.normalize_order stateC10Final = stateC10Final from rfl]

/-- C10: the [BALL_MIN_SPEED, BALL_MAX_SPEED] clamp is applied to a Free
ball only before its movement sub-steps; the 1.25× Electric boost applied
when the ball damages an Electric block later in the same tick is never
re-clamped, so a Playing state exists whose tick ends with a Free ball
faster than BALL_MAX_SPEED. -/
theorem electric_boost_escapes_speed_clamp :
    (∀ (blocks : List Block) (ball : Ball) (dt : ℝ),
      (ballPreVel blocks ball dt).length ≤ BALL_MAX_SPEED) ∧
    stateC10.phase = GamePhase.Playing ∧
    ∃ b ∈ (tick stateC10 TickInput.default SIM_DT).balls,
      b.isFree = true ∧ BALL_MAX_SPEED < b.vel.length := by
  refine ⟨fun blocks ball dt => ballPreVel_le_max blocks ball dt, rfl, ?_⟩
  rw [tickC10_eval]
  refine ⟨ballC10Final, ?_, rfl, ?_⟩
  · rw [show stateC10Final.balls = [ballC10Final] from rfl]
    exact List.mem_singleton_self _
  · rw [show ballC10Final.vel = Vec2.mk ((1605:ℝ)/4) 0 from rfl, length_mk_abs,
      abs_of_nonneg (by norm_num : (0:ℝ) ≤ 1605/4)]
    norm_num [BALL_MAX_SPEED]

/-- C9 witness: seed 42 and its first tick. -/
theorem collections_sorted_invariant_witness :
    WellOrdered (GameState.new 42) ∧
      WellOrdered (tick (GameState.new 42) TickInput.default SIM_DT) :=
  ⟨(collections_sorted_invariant 42 (GameState.new 42) TickInput.default SIM_DT).1,
    (collections_sorted_invariant 42 (GameState.new 42) TickInput.default SIM_DT).2
      (collections_sorted_invariant 42 (GameState.new 42) TickInput.default SIM_DT).1⟩

end

end RotoPong
